import Mathlib

/-!
# PMW3610 optical motion sensor driver

A shallow embedding of `app/drivers/sensor/pixart/pmw3610/pmw3610.c` and a
verification of its specification.

* Hardware calls (chip-select pin, serial bus, interrupt pin) are answered by an
  oracle `env : Nat → Resp`: the `k`-th hardware call gets `env k`.  Every call
  is appended to a chronological trace of `Event`s.
* Driver functions thread a `World` (oracle, call counter, trace, pin state).
  The register-level functions of the source never touch `struct pixart_data`,
  so they are functions of the `World` only; the API functions and the work
  handlers act on a `Dev` (driver data together with the world).
* C integers are `Nat`/`Int` with explicit wrap-around where a conversion
  narrows.  Logging macros have no effect on driver state and are left out.
-/

namespace PMW3610

/-! ## Constants of the source -/

def T_NCS_SCLK : Nat := 1
def T_SCLK_NCS_WR : Nat := 10
def T_SRAD : Nat := 4
def T_SRAD_MOTBR : Nat := 4
def T_SRX : Nat := 1
def T_SWX : Nat := 30
def T_BEXIT : Nat := 1

def PMW3610_REG_PRODUCT_ID : Nat := 0x00
def PMW3610_REG_PERFORMANCE : Nat := 0x11
def PMW3610_REG_MOTION_BURST : Nat := 0x12
def PMW3610_REG_RUN_DOWNSHIFT : Nat := 0x1B
def PMW3610_REG_REST1_PERIOD : Nat := 0x1C
def PMW3610_REG_REST1_DOWNSHIFT : Nat := 0x1D
def PMW3610_REG_REST2_PERIOD : Nat := 0x1E
def PMW3610_REG_REST2_DOWNSHIFT : Nat := 0x1F
def PMW3610_REG_REST3_PERIOD : Nat := 0x20
def PMW3610_REG_OBSERVATION : Nat := 0x2D
def PMW3610_REG_POWER_UP_RESET : Nat := 0x3A
def PMW3610_REG_SPI_CLK_ON_REQ : Nat := 0x41
def PMW3610_REG_RES_STEP : Nat := 0x85

def PMW3610_PRODUCT_ID : Nat := 0x3E
def PMW3610_POWERUP_CMD_RESET : Nat := 0x5A
def PMW3610_SPI_CLOCK_CMD_ENABLE : Nat := 0xBA
def PMW3610_SPI_CLOCK_CMD_DISABLE : Nat := 0xB5

def PMW3610_MAX_BURST_SIZE : Nat := 10
def PMW3610_BURST_SIZE : Nat := 7

def PMW3610_X_L_POS : Nat := 1
def PMW3610_Y_L_POS : Nat := 2
def PMW3610_XY_H_POS : Nat := 3
def PMW3610_SHUTTER_H_POS : Nat := 5
def PMW3610_SHUTTER_L_POS : Nat := 6

def PMW3610_MAX_CPI : Nat := 3200
def PMW3610_MIN_CPI : Nat := 200

/-- The macro `SPI_WRITE_BIT`, that is `BIT(7)`. -/
def SPI_WRITE_BIT : Nat := 0x80

def UINT8_MAX : Nat := 255

/-- Error numbers of the C library used by the driver (positive values; the
driver returns their negation). -/
def EIO_ : Int := 5
def EBUSY : Int := 16
def ENODEV : Int := 19
def EINVAL : Int := 22
def ENOTSUP : Int := 134

/-! ## C integer conversions -/

/-- Conversion of an integer to `uint8_t`. -/
def to_uint8 (v : Int) : Nat := (v % 256).toNat

/-- Conversion of an integer to `uint32_t`. -/
def to_uint32 (v : Int) : Nat := (v % 4294967296).toNat

/-- Conversion of an integer to `int16_t` (two's-complement wrap-around). -/
def to_int16 (v : Int) : Int := (v + 32768) % 65536 - 32768

/-- The macro `TOINT16(val, bits)`: `val` is stored in a signed bit-field of
`bits` bits (keeping the low `bits` bits, top bit as sign) and read back. -/
def TOINT16 (val : Int) (bits : Nat) : Int :=
  let m := val % (2 : Int) ^ bits
  if m < (2 : Int) ^ (bits - 1) then m else m - (2 : Int) ^ bits

/-! ## Initialisation steps -/

def ASYNC_INIT_STEP_POWER_UP : Nat := 0
def ASYNC_INIT_STEP_CLEAR_OB1 : Nat := 1
def ASYNC_INIT_STEP_CHECK_OB1 : Nat := 2
def ASYNC_INIT_STEP_CONFIGURE : Nat := 3
def ASYNC_INIT_STEP_COUNT : Nat := 4

/-- The table `async_init_delay` (milliseconds), indexed by init step. -/
def async_init_delay : List Int := [10, 200, 50, 0]

/-! ## Zephyr types used by the driver -/

/-- The sensor channels the driver distinguishes (`enum sensor_channel`); every
other channel is `other n`. -/
inductive sensor_channel where
  | SENSOR_CHAN_POS_DX
  | SENSOR_CHAN_POS_DY
  | SENSOR_CHAN_ALL
  | other (n : Nat)
  deriving DecidableEq, Repr

/-- The trigger types the driver distinguishes (`enum sensor_trigger_type`). -/
inductive sensor_trigger_type where
  | SENSOR_TRIG_DATA_READY
  | other (n : Nat)
  deriving DecidableEq, Repr

/-- The trigger descriptor `struct sensor_trigger`. -/
structure sensor_trigger where
  type : sensor_trigger_type
  chan : sensor_channel
  deriving DecidableEq, Repr

/-- The value type `struct sensor_value` (two `int32_t` fields). -/
structure sensor_value where
  val1 : Int
  val2 : Int
  deriving DecidableEq, Repr

/-- The attributes of `enum pmw3610_attribute`; every other attribute is
`other n`. -/
inductive pmw3610_attribute where
  | PMW3610_ATTR_CPI
  | PMW3610_ATTR_RUN_DOWNSHIFT_TIME
  | PMW3610_ATTR_REST1_DOWNSHIFT_TIME
  | PMW3610_ATTR_REST2_DOWNSHIFT_TIME
  | PMW3610_ATTR_REST1_SAMPLE_TIME
  | PMW3610_ATTR_REST2_SAMPLE_TIME
  | PMW3610_ATTR_REST3_SAMPLE_TIME
  | other (n : Nat)
  deriving DecidableEq, Repr

/-- The interrupt modes passed to `gpio_pin_interrupt_configure_dt`. -/
inductive gpio_int_flags where
  | GPIO_INT_DISABLE
  | GPIO_INT_LEVEL_ACTIVE
  deriving DecidableEq, Repr

/-- The build-time configuration (Kconfig symbols) the driver reads. -/
structure Kconfig where
  CONFIG_PMW3610_CPI : Nat
  CONFIG_PMW3610_CPI_DIVIDOR : Int
  CONFIG_PMW3610_ORIENTATION_0 : Bool
  CONFIG_PMW3610_ORIENTATION_90 : Bool
  CONFIG_PMW3610_ORIENTATION_180 : Bool
  CONFIG_PMW3610_ORIENTATION_270 : Bool
  CONFIG_PMW3610_SMART_ALGORITHM : Bool
  CONFIG_PMW3610_REST1_SAMPLE_TIME_MS : Nat
  CONFIG_PMW3610_REST2_SAMPLE_TIME_MS : Nat
  CONFIG_PMW3610_REST3_SAMPLE_TIME_MS : Nat
  CONFIG_PMW3610_RUN_DOWNSHIFT_TIME_MS : Nat
  CONFIG_PMW3610_REST1_DOWNSHIFT_TIME_MS : Nat
  CONFIG_PMW3610_REST2_DOWNSHIFT_TIME_MS : Nat

/-! ## Hardware environment -/

/-- The answer of the hardware to one call: the returned error code and, for a
bus read, the bytes delivered (`data i` is byte `i`, taken modulo 256). -/
structure Resp where
  err : Int
  data : Nat → Nat

/-- The observable actions of the driver, in the order they happen. -/
inductive Event where
  | gpio_pin_set_cs (value : Bool) (err : Int)
  | spi_write (tx : List Nat) (err : Int)
  | spi_read (len : Nat) (err : Int)
  | gpio_pin_interrupt_configure (flags : gpio_int_flags) (err : Int)
  | gpio_pin_configure_cs (err : Int)
  | gpio_pin_configure_irq (err : Int)
  | gpio_add_callback (err : Int)
  | spi_is_ready (ok : Bool)
  | device_is_ready_cs (ok : Bool)
  | device_is_ready_irq (ok : Bool)
  | k_busy_wait (us : Nat)
  | k_work_schedule_init (delay_ms : Int)
  | k_work_submit_trigger
  | handler_call (handler : Nat) (trig : Option sensor_trigger)
  | assert_failed
  | k_panic
  deriving DecidableEq, Repr

/-- The world outside the driver data: the oracle answering hardware calls, the
number of calls answered so far, the trace, the level of the chip-select pin,
the mode of the interrupt line, and whether the kernel has halted in `k_panic`.
A pin call that succeeds takes effect; one that fails leaves the pin as it was. -/
structure World where
  env : Nat → Resp
  ops : Nat
  trace : List Event
  cs_active : Bool
  irq_mode : gpio_int_flags
  halted : Bool

/-- Append an event to the trace. -/
def World.emit (w : World) (e : Event) : World :=
  { w with trace := w.trace ++ [e] }

/-- The function `k_busy_wait`. -/
def k_busy_wait (us : Nat) (w : World) : World :=
  w.emit (Event.k_busy_wait us)

/-- The macro `__ASSERT_NO_MSG(cond)`: a violated assertion is recorded and
execution goes on, as in a build without `CONFIG_ASSERT`. -/
def __ASSERT_NO_MSG (cond : Bool) (w : World) : World :=
  if cond then w else w.emit Event.assert_failed

/-- The function `k_panic`: the kernel halts. -/
def k_panic (w : World) : World :=
  { w.emit Event.k_panic with halted := true }

/-- The call `gpio_pin_set_dt(&config->cs_gpio, value)`. -/
def gpio_pin_set_dt_cs (value : Bool) (w : World) : Int × World :=
  let r := w.env w.ops
  (r.err, { w with ops := w.ops + 1
                   trace := w.trace ++ [Event.gpio_pin_set_cs value r.err]
                   cs_active := if r.err = 0 then value else w.cs_active })

/-- The call `spi_write_dt(&config->bus, &tx)` sending the bytes `tx`. -/
def spi_write_dt (tx : List Nat) (w : World) : Int × World :=
  let r := w.env w.ops
  (r.err, { w with ops := w.ops + 1, trace := w.trace ++ [Event.spi_write tx r.err] })

/-- The call `spi_read_dt(&config->bus, &rx)` filling a buffer of `len` bytes:
the result holds the error code and the new buffer content. -/
def spi_read_dt (buf : Nat → Nat) (len : Nat) (w : World) : Int × (Nat → Nat) × World :=
  let r := w.env w.ops
  (r.err, (fun i => if i < len then r.data i % 256 else buf i),
    { w with ops := w.ops + 1, trace := w.trace ++ [Event.spi_read len r.err] })

/-- The call `gpio_pin_interrupt_configure_dt(&config->irq_gpio, flags)`. -/
def gpio_pin_interrupt_configure_dt (flags : gpio_int_flags) (w : World) : Int × World :=
  let r := w.env w.ops
  (r.err, { w with ops := w.ops + 1
                   trace := w.trace ++ [Event.gpio_pin_interrupt_configure flags r.err]
                   irq_mode := if r.err = 0 then flags else w.irq_mode })

/-! ## Register transport -/

/-- The function `spi_cs_ctrl`. -/
def spi_cs_ctrl (enable : Bool) (w : World) : Int × World :=
  let w1 := if !enable then k_busy_wait T_NCS_SCLK w else w
  let r := gpio_pin_set_dt_cs enable w1
  let w2 := if enable then k_busy_wait T_NCS_SCLK r.2 else r.2
  (r.1, w2)

/-- The function `reg_read`: the result holds the error code and the content of
`*buf` afterwards (`buf` is its content before the call). -/
def reg_read (reg : Nat) (buf : Nat) (w : World) : Int × Nat × World :=
  let w0 := __ASSERT_NO_MSG (reg &&& SPI_WRITE_BIT == 0) w
  let r1 := spi_cs_ctrl true w0
  if r1.1 ≠ 0 then (r1.1, buf, r1.2) else
  let r2 := spi_write_dt [reg] r1.2
  if r2.1 ≠ 0 then (r2.1, buf, r2.2) else
  let w3 := k_busy_wait T_SRAD r2.2
  let r4 := spi_read_dt (fun _ => buf) 1 w3
  if r4.1 ≠ 0 then (r4.1, r4.2.1 0, r4.2.2) else
  let r5 := spi_cs_ctrl false r4.2.2
  if r5.1 ≠ 0 then (r5.1, r4.2.1 0, r5.2) else
  (0, r4.2.1 0, k_busy_wait T_SRX r5.2)

/-- The function `_reg_write`: primitive write without enabling or disabling
the serial clock of the sensor. -/
def _reg_write (reg : Nat) (val : Nat) (w : World) : Int × World :=
  let w0 := __ASSERT_NO_MSG (reg &&& SPI_WRITE_BIT == 0) w
  let r1 := spi_cs_ctrl true w0
  if r1.1 ≠ 0 then r1 else
  let r2 := spi_write_dt [SPI_WRITE_BIT ||| reg, val] r1.2
  if r2.1 ≠ 0 then r2 else
  let w3 := k_busy_wait T_SCLK_NCS_WR r2.2
  let r4 := spi_cs_ctrl false w3
  if r4.1 ≠ 0 then r4 else
  (0, k_busy_wait T_SWX r4.2)

/-- The function `reg_write`. -/
def reg_write (reg : Nat) (val : Nat) (w : World) : Int × World :=
  let r1 := _reg_write PMW3610_REG_SPI_CLK_ON_REQ PMW3610_SPI_CLOCK_CMD_ENABLE w
  if r1.1 ≠ 0 then r1 else
  let r2 := _reg_write reg val r1.2
  if r2.1 ≠ 0 then r2 else
  let r3 := _reg_write PMW3610_REG_SPI_CLK_ON_REQ PMW3610_SPI_CLOCK_CMD_DISABLE r2.2
  if r3.1 ≠ 0 then r3 else
  (0, r3.2)

/-- The function `motion_burst_read`: the result holds the error code and the
content of `buf` afterwards. -/
def motion_burst_read (buf : Nat → Nat) (burst_size : Nat) (w : World) :
    Int × (Nat → Nat) × World :=
  let w0 := __ASSERT_NO_MSG (decide (burst_size ≤ PMW3610_MAX_BURST_SIZE)) w
  let r1 := spi_cs_ctrl true w0
  if r1.1 ≠ 0 then (r1.1, buf, r1.2) else
  let r2 := spi_write_dt [PMW3610_REG_MOTION_BURST] r1.2
  if r2.1 ≠ 0 then (r2.1, buf, r2.2) else
  let w3 := k_busy_wait T_SRAD_MOTBR r2.2
  let r4 := spi_read_dt buf burst_size w3
  if r4.1 ≠ 0 then (r4.1, r4.2.1, r4.2.2) else
  let r5 := spi_cs_ctrl false r4.2.2
  if r5.1 ≠ 0 then (r5.1, r4.2.1, r5.2) else
  (0, r4.2.1, k_busy_wait T_BEXIT r5.2)

/-- The data loop of `burst_write`: `n` iterations remain, starting at index
`i`; the loop returns at the first failing write. -/
def burst_write_loop (addr buf : List Nat) : Nat → Nat → World → Int × World
  | 0, _, w => (0, w)
  | n + 1, i, w =>
    let r := _reg_write (addr.getD i 0) (buf.getD i 0) w
    if r.1 ≠ 0 then r else burst_write_loop addr buf n (i + 1) r.2

/-- The function `burst_write`. -/
def burst_write (addr buf : List Nat) (size : Nat) (w : World) : Int × World :=
  let r1 := _reg_write PMW3610_REG_SPI_CLK_ON_REQ PMW3610_SPI_CLOCK_CMD_ENABLE w
  if r1.1 ≠ 0 then r1 else
  let r2 := burst_write_loop addr buf size 0 r1.2
  if r2.1 ≠ 0 then r2 else
  let r3 := _reg_write PMW3610_REG_SPI_CLK_ON_REQ PMW3610_SPI_CLOCK_CMD_DISABLE r2.2
  if r3.1 ≠ 0 then r3 else
  (0, r3.2)

/-- The function `check_product_id` (not called by the driver). -/
def check_product_id (w : World) : Int × World :=
  let r := reg_read PMW3610_REG_PRODUCT_ID 0x01 w
  if r.1 ≠ 0 then (r.1, r.2.2) else
  if r.2.1 ≠ PMW3610_PRODUCT_ID then (-EIO_, r.2.2) else
  (0, r.2.2)

/-! ## Attribute configuration -/

/-- The function `set_cpi` (`cpi` is a `uint32_t`). -/
def set_cpi (cpi : Nat) (w : World) : Int × World :=
  if cpi > PMW3610_MAX_CPI ∨ cpi < PMW3610_MIN_CPI then (-EINVAL, w) else
  let value := (cpi / 200) % 256
  let r := burst_write [0x7F, PMW3610_REG_RES_STEP, 0x7F] [0xFF, value, 0x00] 3 w
  if r.1 ≠ 0 then r else
  (0, r.2)

/-- The function `set_sample_time` (`sample_time` is a `uint32_t`). -/
def set_sample_time (reg_addr : Nat) (sample_time : Nat) (w : World) : Int × World :=
  let maxtime := 2550
  let mintime := 10
  if sample_time > maxtime ∨ sample_time < mintime then (-EINVAL, w) else
  let value := (sample_time / mintime) % 256
  reg_write reg_addr value w

/-- The `switch` of `set_downshift_time`: the pair `(maxtime, mintime)` of the
register, as `uint32_t` values, or `none` in the default case. -/
def downshift_bounds (cfg : Kconfig) (reg_addr : Nat) : Option (Nat × Nat) :=
  if reg_addr = PMW3610_REG_RUN_DOWNSHIFT then
    some (32 * 255, 32)
  else if reg_addr = PMW3610_REG_REST1_DOWNSHIFT then
    some ((255 * 16 * cfg.CONFIG_PMW3610_REST1_SAMPLE_TIME_MS) % 4294967296,
          (16 * cfg.CONFIG_PMW3610_REST1_SAMPLE_TIME_MS) % 4294967296)
  else if reg_addr = PMW3610_REG_REST2_DOWNSHIFT then
    some ((255 * 128 * cfg.CONFIG_PMW3610_REST2_SAMPLE_TIME_MS) % 4294967296,
          (128 * cfg.CONFIG_PMW3610_REST2_SAMPLE_TIME_MS) % 4294967296)
  else none

/-- The function `set_downshift_time` (`time` is a `uint32_t`). -/
def set_downshift_time (cfg : Kconfig) (reg_addr : Nat) (time : Nat) (w : World) :
    Int × World :=
  match downshift_bounds cfg reg_addr with
  | none => (-ENOTSUP, w)
  | some (maxtime, mintime) =>
    if time > maxtime ∨ time < mintime then (-EINVAL, w) else
    let w0 := __ASSERT_NO_MSG (decide (mintime > 0) && decide (maxtime / mintime ≤ UINT8_MAX)) w
    let value := (time / mintime) % 256
    reg_write reg_addr value w0

/-- The macro `PMW3610_SVALUE_TO_CPI`. -/
def PMW3610_SVALUE_TO_CPI (svalue : sensor_value) : Nat := to_uint32 svalue.val1

/-- The macro `PMW3610_SVALUE_TO_TIME`. -/
def PMW3610_SVALUE_TO_TIME (svalue : sensor_value) : Nat := to_uint32 svalue.val1

/-! ## Driver data -/

/-- The driver data `struct pixart_data`: the fields the source reads or writes.
A handler is a function pointer, `0` being `NULL`; `trigger` is a pointer to the
trigger descriptor, `none` being `NULL`. -/
structure pixart_data where
  ready : Bool
  async_init_step : Nat
  err : Int
  x : Int
  y : Int
  sw_smart_flag : Bool
  data_ready_handler : Nat
  trigger : Option sensor_trigger

/-- A device instance: its driver data and the world it acts on. -/
structure Dev where
  data : pixart_data
  w : World

/-- The function `pmw3610_attr_set`. -/
def pmw3610_attr_set (cfg : Kconfig) (dev : Dev) (chan : sensor_channel)
    (attr : pmw3610_attribute) (val : sensor_value) : Int × Dev :=
  if chan ≠ sensor_channel.SENSOR_CHAN_ALL then (-ENOTSUP, dev) else
  if !dev.data.ready then (-EBUSY, dev) else
  match attr with
  | pmw3610_attribute.PMW3610_ATTR_CPI =>
    let r := set_cpi (PMW3610_SVALUE_TO_CPI val) dev.w
    (r.1, { dev with w := r.2 })
  | pmw3610_attribute.PMW3610_ATTR_RUN_DOWNSHIFT_TIME =>
    let r := set_downshift_time cfg PMW3610_REG_RUN_DOWNSHIFT (PMW3610_SVALUE_TO_TIME val) dev.w
    (r.1, { dev with w := r.2 })
  | pmw3610_attribute.PMW3610_ATTR_REST1_DOWNSHIFT_TIME =>
    let r := set_downshift_time cfg PMW3610_REG_REST1_DOWNSHIFT (PMW3610_SVALUE_TO_TIME val) dev.w
    (r.1, { dev with w := r.2 })
  | pmw3610_attribute.PMW3610_ATTR_REST2_DOWNSHIFT_TIME =>
    let r := set_downshift_time cfg PMW3610_REG_REST2_DOWNSHIFT (PMW3610_SVALUE_TO_TIME val) dev.w
    (r.1, { dev with w := r.2 })
  | pmw3610_attribute.PMW3610_ATTR_REST1_SAMPLE_TIME =>
    let r := set_sample_time PMW3610_REG_REST1_PERIOD (PMW3610_SVALUE_TO_TIME val) dev.w
    (r.1, { dev with w := r.2 })
  | pmw3610_attribute.PMW3610_ATTR_REST2_SAMPLE_TIME =>
    let r := set_sample_time PMW3610_REG_REST2_PERIOD (PMW3610_SVALUE_TO_TIME val) dev.w
    (r.1, { dev with w := r.2 })
  | pmw3610_attribute.PMW3610_ATTR_REST3_SAMPLE_TIME =>
    let r := set_sample_time PMW3610_REG_REST3_PERIOD (PMW3610_SVALUE_TO_TIME val) dev.w
    (r.1, { dev with w := r.2 })
  | pmw3610_attribute.other _ => (-ENOTSUP, dev)

/-! ## Asynchronous initialisation -/

/-- The function `pmw3610_async_init_power_up`. -/
def pmw3610_async_init_power_up (_cfg : Kconfig) (w : World) : Int × World :=
  let w1 := (spi_cs_ctrl false w).2
  let w2 := (spi_cs_ctrl true w1).2
  reg_write PMW3610_REG_POWER_UP_RESET PMW3610_POWERUP_CMD_RESET w2

/-- The function `pmw3610_async_init_clear_ob1`. -/
def pmw3610_async_init_clear_ob1 (_cfg : Kconfig) (w : World) : Int × World :=
  reg_write PMW3610_REG_OBSERVATION 0x00 w

/-- The function `pmw3610_async_init_check_ob1`; the local `value` is
uninitialised before the read and is only looked at after a successful read. -/
def pmw3610_async_init_check_ob1 (_cfg : Kconfig) (w : World) : Int × World :=
  let r := reg_read PMW3610_REG_OBSERVATION 0 w
  if r.1 ≠ 0 then (r.1, r.2.2) else
  if r.2.1 &&& 0x0F ≠ 0x0F then (-EINVAL, r.2.2) else
  (0, r.2.2)

/-- The loop of `pmw3610_async_init_configure` reading the motion registers:
`n` iterations remain, `reg` is the loop variable and `err` the last result. -/
def configure_clear_loop : Nat → Nat → Int → World → Int × World
  | 0, _, err, w => (err, w)
  | n + 1, reg, err, w =>
    if reg ≤ 0x05 ∧ err = 0 then
      let r := reg_read reg 0 w
      configure_clear_loop n (reg + 1) r.1 r.2.2
    else (err, w)

/-- The guarded call `if (!err) { err = f(dev, ...); }` of
`pmw3610_async_init_configure`: `f` runs only when no earlier call has failed. -/
def if_no_err (r : Int × World) (f : World → Int × World) : Int × World :=
  if r.1 = 0 then f r.2 else r

/-- The function `pmw3610_async_init_configure`. -/
def pmw3610_async_init_configure (cfg : Kconfig) (w : World) : Int × World :=
  let r0 := configure_clear_loop 4 0x02 0 w
  let r1 := if_no_err r0 (set_cpi (cfg.CONFIG_PMW3610_CPI % 4294967296))
  let r2 := if_no_err r1 (reg_write PMW3610_REG_PERFORMANCE 0x0D)
  let r3 := if_no_err r2 (set_sample_time PMW3610_REG_REST1_PERIOD
    (cfg.CONFIG_PMW3610_REST1_SAMPLE_TIME_MS % 4294967296))
  let r4 := if_no_err r3 (set_sample_time PMW3610_REG_REST2_PERIOD
    (cfg.CONFIG_PMW3610_REST2_SAMPLE_TIME_MS % 4294967296))
  let r5 := if_no_err r4 (set_sample_time PMW3610_REG_REST3_PERIOD
    (cfg.CONFIG_PMW3610_REST3_SAMPLE_TIME_MS % 4294967296))
  let r6 := if_no_err r5 (set_downshift_time cfg PMW3610_REG_RUN_DOWNSHIFT
    (cfg.CONFIG_PMW3610_RUN_DOWNSHIFT_TIME_MS % 4294967296))
  let r7 := if_no_err r6 (set_downshift_time cfg PMW3610_REG_REST1_DOWNSHIFT
    (cfg.CONFIG_PMW3610_REST1_DOWNSHIFT_TIME_MS % 4294967296))
  let r8 := if_no_err r7 (set_downshift_time cfg PMW3610_REG_REST2_DOWNSHIFT
    (cfg.CONFIG_PMW3610_REST2_DOWNSHIFT_TIME_MS % 4294967296))
  if r8.1 ≠ 0 then r8 else
  (0, r8.2)

/-- The table `async_init_fn`: the step function of each init step; an index
outside the table has no entry. -/
def async_init_fn (step : Nat) : Option (Kconfig → World → Int × World) :=
  [pmw3610_async_init_power_up, pmw3610_async_init_clear_ob1,
   pmw3610_async_init_check_ob1, pmw3610_async_init_configure].get? step

/-- The call `k_work_schedule(&data->init_work, K_MSEC(delay_ms))`. -/
def k_work_schedule_init (delay_ms : Int) (w : World) : World :=
  w.emit (Event.k_work_schedule_init delay_ms)

/-- The work handler `pmw3610_async_init`; `none` when `async_init_step` indexes
outside `async_init_fn` (undefined in C). -/
def pmw3610_async_init (cfg : Kconfig) (dev : Dev) : Option Dev :=
  match async_init_fn dev.data.async_init_step with
  | none => none
  | some fn =>
    let r := fn cfg dev.w
    let d1 := { dev.data with err := r.1 }
    if r.1 ≠ 0 then some { data := d1, w := r.2 } else
    let d2 := { d1 with async_init_step := d1.async_init_step + 1 }
    if d2.async_init_step = ASYNC_INIT_STEP_COUNT then
      some { data := { d2 with ready := true }, w := r.2 }
    else
      some { data := d2
             w := k_work_schedule_init (async_init_delay.getD d2.async_init_step 0) r.2 }

/-! ## Interrupt and data path -/

/-- The function `irq_handler`: after `k_panic` nothing more is executed. -/
def irq_handler (dev : Dev) : Dev :=
  let r := gpio_pin_interrupt_configure_dt gpio_int_flags.GPIO_INT_DISABLE dev.w
  if r.1 ≠ 0 then { dev with w := k_panic r.2 } else
  { dev with w := r.2.emit Event.k_work_submit_trigger }

/-- The orientation branch of `pmw3610_sample_fetch`: the position stored for
the decoded pair `(x, y)`, the first enabled preset winning; with no preset
enabled the stored position `(x0, y0)` is kept. -/
def orientation (cfg : Kconfig) (x0 y0 x y : Int) : Int × Int :=
  if cfg.CONFIG_PMW3610_ORIENTATION_0 then (to_int16 (-x), to_int16 y)
  else if cfg.CONFIG_PMW3610_ORIENTATION_90 then (to_int16 y, to_int16 (-x))
  else if cfg.CONFIG_PMW3610_ORIENTATION_180 then (to_int16 x, to_int16 (-y))
  else if cfg.CONFIG_PMW3610_ORIENTATION_270 then (to_int16 (-y), to_int16 x)
  else (x0, y0)

/-- The local `x` of `pmw3610_sample_fetch`, decoded from the burst `buf`. -/
def fetch_x (cfg : Kconfig) (buf : Nat → Nat) : Int :=
  to_int16 (Int.tdiv
    (TOINT16 ((buf PMW3610_X_L_POS + ((buf PMW3610_XY_H_POS &&& 0xF0) <<< 4) : Nat) : Int) 12)
    cfg.CONFIG_PMW3610_CPI_DIVIDOR)

/-- The local `y` of `pmw3610_sample_fetch`, decoded from the burst `buf`. -/
def fetch_y (cfg : Kconfig) (buf : Nat → Nat) : Int :=
  to_int16 (Int.tdiv
    (TOINT16 ((buf PMW3610_Y_L_POS + ((buf PMW3610_XY_H_POS &&& 0x0F) <<< 8) : Nat) : Int) 12)
    cfg.CONFIG_PMW3610_CPI_DIVIDOR)

/-- The local `shutter` of `pmw3610_sample_fetch`. -/
def fetch_shutter (buf : Nat → Nat) : Int :=
  to_int16 (((((buf PMW3610_SHUTTER_H_POS &&& 0x01) <<< 8) + buf PMW3610_SHUTTER_L_POS : Nat)) : Int)

/-- The block of `pmw3610_sample_fetch` under `CONFIG_PMW3610_SMART_ALGORITHM`;
the results of its register writes are dropped. -/
def smart_algorithm (shutter : Int) (dev : Dev) : Dev :=
  let dev1 :=
    if dev.data.sw_smart_flag = true ∧ shutter < 45 then
      { data := { dev.data with sw_smart_flag := false }, w := (reg_write 0x32 0x00 dev.w).2 }
    else dev
  if dev1.data.sw_smart_flag = false ∧ shutter > 45 then
    { data := { dev1.data with sw_smart_flag := true }, w := (reg_write 0x32 0x80 dev1.w).2 }
  else dev1

/-- The function `pmw3610_sample_fetch`; the local burst buffer is
uninitialised before the read and only looked at after a successful read. -/
def pmw3610_sample_fetch (cfg : Kconfig) (dev : Dev) (chan : sensor_channel) : Int × Dev :=
  if chan ≠ sensor_channel.SENSOR_CHAN_ALL then (-ENOTSUP, dev) else
  if !dev.data.ready then (-EBUSY, dev) else
  let r := motion_burst_read (fun _ => 0) PMW3610_BURST_SIZE dev.w
  if r.1 = 0 then
    let x := fetch_x cfg r.2.1
    let y := fetch_y cfg r.2.1
    let p := orientation cfg dev.data.x dev.data.y x y
    let dev1 : Dev := { data := { dev.data with x := p.1, y := p.2 }, w := r.2.2 }
    let dev2 := if cfg.CONFIG_PMW3610_SMART_ALGORITHM then
      smart_algorithm (fetch_shutter r.2.1) dev1 else dev1
    (r.1, dev2)
  else (r.1, { dev with w := r.2.2 })

/-- The function `pmw3610_channel_get`: the result holds the return value and
the content of `*val` afterwards. -/
def pmw3610_channel_get (dev : Dev) (chan : sensor_channel) (val : sensor_value) :
    Int × sensor_value :=
  if !dev.data.ready then (-EBUSY, val) else
  match chan with
  | sensor_channel.SENSOR_CHAN_POS_DX => (0, { val1 := dev.data.x, val2 := 0 })
  | sensor_channel.SENSOR_CHAN_POS_DY => (0, { val1 := dev.data.y, val2 := 0 })
  | _ => (-ENOTSUP, val)

/-- The function `pmw3610_trigger_set`. -/
def pmw3610_trigger_set (dev : Dev) (trig : sensor_trigger) (handler : Nat) : Int × Dev :=
  if trig.type ≠ sensor_trigger_type.SENSOR_TRIG_DATA_READY then (-ENOTSUP, dev) else
  if trig.chan ≠ sensor_channel.SENSOR_CHAN_ALL then (-ENOTSUP, dev) else
  if !dev.data.ready then (-EBUSY, dev) else
  let r :=
    if handler ≠ 0 then
      gpio_pin_interrupt_configure_dt gpio_int_flags.GPIO_INT_LEVEL_ACTIVE dev.w
    else
      gpio_pin_interrupt_configure_dt gpio_int_flags.GPIO_INT_DISABLE dev.w
  let d1 := if r.1 = 0 then { dev.data with data_ready_handler := handler } else dev.data
  (r.1, { data := { d1 with trigger := some trig }, w := r.2 })

/-- A call of the driver API made by application code. -/
inductive ApiCall where
  | sample_fetch (chan : sensor_channel)
  | channel_get (chan : sensor_channel)
  | attr_set (chan : sensor_channel) (attr : pmw3610_attribute) (val : sensor_value)
  | trigger_set (trig : sensor_trigger) (handler : Nat)
  deriving DecidableEq, Repr

/-- The effect of one API call of the application on the device. -/
def run_api (cfg : Kconfig) (dev : Dev) (c : ApiCall) : Dev :=
  match c with
  | ApiCall.sample_fetch chan => (pmw3610_sample_fetch cfg dev chan).2
  | ApiCall.channel_get _ => dev
  | ApiCall.attr_set chan attr val => (pmw3610_attr_set cfg dev chan attr val).2
  | ApiCall.trigger_set trig handler => (pmw3610_trigger_set dev trig handler).2

/-- Application code: what the callback at address `handler` does when invoked
with a trigger descriptor, as the API calls it makes. -/
abbrev App := Nat → Option sensor_trigger → List ApiCall

/-- The invocation `handler(dev, data->trigger)`: the call is recorded and the
callback body runs. -/
def call_handler (app : App) (cfg : Kconfig) (handler : Nat) (dev : Dev) : Dev :=
  (app handler dev.data.trigger).foldl (run_api cfg)
    { dev with w := dev.w.emit (Event.handler_call handler dev.data.trigger) }

/-- The work handler `trigger_handler`. -/
def trigger_handler (app : App) (cfg : Kconfig) (dev : Dev) : Dev :=
  let handler := dev.data.data_ready_handler
  if handler = 0 then dev else
  let dev1 := call_handler app cfg handler dev
  let r :=
    if dev1.data.data_ready_handler ≠ 0 then
      gpio_pin_interrupt_configure_dt gpio_int_flags.GPIO_INT_LEVEL_ACTIVE dev1.w
    else ((0 : Int), dev1.w)
  if r.1 ≠ 0 then { dev1 with w := k_panic r.2 } else
  { dev1 with w := r.2 }

/-- An interrupt event as a test simulates it: `irq_handler`, then, unless the
kernel halted, the `trigger_handler` work that `irq_handler` submitted. -/
def simulated_interrupt (app : App) (cfg : Kconfig) (dev : Dev) : Dev :=
  let dev1 := irq_handler dev
  if dev1.w.halted then dev1 else trigger_handler app cfg dev1

/-! ## Device initialisation -/

/-- A readiness query (`spi_is_ready`, `device_is_ready`): ready when the
hardware answers with error code zero. -/
def ready_query (ev : Bool → Event) (w : World) : Bool × World :=
  let r := w.env w.ops
  (decide (r.err = 0), { w with ops := w.ops + 1, trace := w.trace ++ [ev (decide (r.err = 0))] })

/-- The call `gpio_pin_configure_dt(&config->cs_gpio, GPIO_OUTPUT_INACTIVE)`. -/
def gpio_pin_configure_dt_cs (w : World) : Int × World :=
  let r := w.env w.ops
  (r.err, { w with ops := w.ops + 1
                   trace := w.trace ++ [Event.gpio_pin_configure_cs r.err]
                   cs_active := if r.err = 0 then false else w.cs_active })

/-- A set-up call on the interrupt pin (`gpio_pin_configure_dt`,
`gpio_add_callback`). -/
def setup_call (ev : Int → Event) (w : World) : Int × World :=
  let r := w.env w.ops
  (r.err, { w with ops := w.ops + 1, trace := w.trace ++ [ev r.err] })

/-- The function `pmw3610_init_irq`. -/
def pmw3610_init_irq (w : World) : Int × World :=
  let q := ready_query Event.device_is_ready_irq w
  if !q.1 then (-ENODEV, q.2) else
  let r1 := setup_call Event.gpio_pin_configure_irq q.2
  if r1.1 ≠ 0 then r1 else
  setup_call Event.gpio_add_callback r1.2

/-- The function `pmw3610_init`. -/
def pmw3610_init (dev : Dev) : Int × Dev :=
  let d := { dev.data with sw_smart_flag := false }
  let q1 := ready_query Event.spi_is_ready dev.w
  if !q1.1 then (-ENODEV, { data := d, w := q1.2 }) else
  let q2 := ready_query Event.device_is_ready_cs q1.2
  if !q2.1 then (-ENODEV, { data := d, w := q2.2 }) else
  let r3 := gpio_pin_configure_dt_cs q2.2
  if r3.1 ≠ 0 then (r3.1, { data := d, w := r3.2 }) else
  let r4 := pmw3610_init_irq r3.2
  if r4.1 ≠ 0 then (r4.1, { data := d, w := r4.2 }) else
  (r4.1, { data := d
           w := k_work_schedule_init (async_init_delay.getD d.async_init_step 0) r4.2 })

/-! ## Specification-side definitions -/

/-- Two's-complement sign extension of a 12-bit pattern, as the specification
words it: `v` below `0x800`, `v - 4096` from `0x800` on. -/
def sext12 (v : Nat) : Int :=
  if v < 0x800 then (v : Int) else (v : Int) - 4096

/-! ## Concrete instances used to exercise the theorems -/

/-- A configuration with the defaults named in the source comments: orientation
0, rest1 period 40 ms, rest2 period 100 ms. -/
def sample_cfg : Kconfig where
  CONFIG_PMW3610_CPI := 800
  CONFIG_PMW3610_CPI_DIVIDOR := 2
  CONFIG_PMW3610_ORIENTATION_0 := true
  CONFIG_PMW3610_ORIENTATION_90 := false
  CONFIG_PMW3610_ORIENTATION_180 := false
  CONFIG_PMW3610_ORIENTATION_270 := false
  CONFIG_PMW3610_SMART_ALGORITHM := true
  CONFIG_PMW3610_REST1_SAMPLE_TIME_MS := 40
  CONFIG_PMW3610_REST2_SAMPLE_TIME_MS := 100
  CONFIG_PMW3610_REST3_SAMPLE_TIME_MS := 500
  CONFIG_PMW3610_RUN_DOWNSHIFT_TIME_MS := 128
  CONFIG_PMW3610_REST1_DOWNSHIFT_TIME_MS := 9600
  CONFIG_PMW3610_REST2_DOWNSHIFT_TIME_MS := 150000

/-- Hardware on which every call succeeds and every bus read delivers the bytes
`bytes`. -/
def good_env (bytes : List Nat) : Nat → Resp :=
  fun _ => { err := 0, data := fun i => bytes.getD i 0 }

/-- A world at power-on: nothing has happened, chip-select inactive, interrupt
line disabled. -/
def fresh_world (env : Nat → Resp) : World where
  env := env
  ops := 0
  trace := []
  cs_active := false
  irq_mode := gpio_int_flags.GPIO_INT_DISABLE
  halted := false

/-- Zero-initialised driver data. -/
def zero_data : pixart_data where
  ready := false
  async_init_step := 0
  err := 0
  x := 0
  y := 0
  sw_smart_flag := false
  data_ready_handler := 0
  trigger := none

/-- A device that has completed initialisation, on the given hardware. -/
def ready_dev (env : Nat → Resp) : Dev where
  data := { zero_data with ready := true, async_init_step := ASYNC_INIT_STEP_COUNT }
  w := fresh_world env

/-! ## Definitions used in the statements -/

/-- The orientation branch of `pmw3610_sample_fetch` as a map on pairs: the
position stored for the decoded pair `p` (which is also the position kept when
no preset is enabled). -/
def orient (cfg : Kconfig) (p : Int × Int) : Int × Int :=
  orientation cfg p.1 p.2 p.1 p.2

/-- A build with only the 0-degree preset enabled. -/
def only_0 : Kconfig :=
  { sample_cfg with CONFIG_PMW3610_ORIENTATION_0 := true }

/-- A build with only the 90-degree preset enabled. -/
def only_90 : Kconfig :=
  { sample_cfg with CONFIG_PMW3610_ORIENTATION_0 := false, CONFIG_PMW3610_ORIENTATION_90 := true }

/-- A build with only the 180-degree preset enabled. -/
def only_180 : Kconfig :=
  { sample_cfg with CONFIG_PMW3610_ORIENTATION_0 := false, CONFIG_PMW3610_ORIENTATION_180 := true }

/-- The range `(min, max)` of each settable attribute, as the specification lists
them; `none` for an attribute the driver does not know. -/
def attr_range (cfg : Kconfig) : pmw3610_attribute → Option (Nat × Nat)
  | pmw3610_attribute.PMW3610_ATTR_CPI => some (200, 3200)
  | pmw3610_attribute.PMW3610_ATTR_REST1_SAMPLE_TIME => some (10, 2550)
  | pmw3610_attribute.PMW3610_ATTR_REST2_SAMPLE_TIME => some (10, 2550)
  | pmw3610_attribute.PMW3610_ATTR_REST3_SAMPLE_TIME => some (10, 2550)
  | pmw3610_attribute.PMW3610_ATTR_RUN_DOWNSHIFT_TIME => some (32, 8160)
  | pmw3610_attribute.PMW3610_ATTR_REST1_DOWNSHIFT_TIME =>
    some (16 * cfg.CONFIG_PMW3610_REST1_SAMPLE_TIME_MS,
          255 * 16 * cfg.CONFIG_PMW3610_REST1_SAMPLE_TIME_MS)
  | pmw3610_attribute.PMW3610_ATTR_REST2_DOWNSHIFT_TIME =>
    some (128 * cfg.CONFIG_PMW3610_REST2_SAMPLE_TIME_MS,
          255 * 128 * cfg.CONFIG_PMW3610_REST2_SAMPLE_TIME_MS)
  | pmw3610_attribute.other _ => none

/-- A configured sample time that `set_sample_time` accepts; the Configure step
of initialisation fails otherwise, so a device only becomes ready with such
sample times. -/
def valid_sample_time (t : Nat) : Prop := 10 ≤ t ∧ t ≤ 2550

/-- The events of the register transport: chip-select, bus transfers, busy
waits and assertion failures. -/
def is_transport : Event → Bool
  | Event.gpio_pin_set_cs _ _ => true
  | Event.spi_write _ _ => true
  | Event.spi_read _ _ => true
  | Event.k_busy_wait _ => true
  | Event.assert_failed => true
  | _ => false

/-- Recognises a scheduling of the init work. -/
def is_schedule : Event → Bool
  | Event.k_work_schedule_init _ => true
  | _ => false

/-- Recognises a callback invocation. -/
def is_handler_call : Event → Bool
  | Event.handler_call _ _ => true
  | _ => false

/-- The schedulings of the init work recorded in a trace. -/
def scheduled (t : List Event) : List Event := t.filter is_schedule

/-- The callback invocations recorded in a trace. -/
def calls (t : List Event) : List Event := t.filter is_handler_call

/-- The states of the init state machine: a start state (step PowerUp, not
ready) and every state a `pmw3610_async_init` invocation produces from a
reachable one, whatever the world (and so the bus outcomes) it runs in. -/
inductive InitReachable (cfg : Kconfig) : Dev → Prop where
  | start (dev : Dev) (hs : dev.data.async_init_step = ASYNC_INIT_STEP_POWER_UP)
      (hr : dev.data.ready = false) : InitReachable cfg dev
  | invoke (dev : Dev) (w : World) (dev' : Dev) (h : InitReachable cfg dev)
      (hi : pmw3610_async_init cfg { dev with w := w } = some dev') : InitReachable cfg dev'

/-- The configured CPI, sample times and downshift times lie within the ranges
the attribute setters accept. -/
def config_in_range (cfg : Kconfig) : Prop :=
  (200 ≤ cfg.CONFIG_PMW3610_CPI ∧ cfg.CONFIG_PMW3610_CPI ≤ 3200) ∧
  valid_sample_time cfg.CONFIG_PMW3610_REST1_SAMPLE_TIME_MS ∧
  valid_sample_time cfg.CONFIG_PMW3610_REST2_SAMPLE_TIME_MS ∧
  valid_sample_time cfg.CONFIG_PMW3610_REST3_SAMPLE_TIME_MS ∧
  (32 ≤ cfg.CONFIG_PMW3610_RUN_DOWNSHIFT_TIME_MS ∧
    cfg.CONFIG_PMW3610_RUN_DOWNSHIFT_TIME_MS ≤ 8160) ∧
  (16 * cfg.CONFIG_PMW3610_REST1_SAMPLE_TIME_MS ≤ cfg.CONFIG_PMW3610_REST1_DOWNSHIFT_TIME_MS ∧
    cfg.CONFIG_PMW3610_REST1_DOWNSHIFT_TIME_MS ≤
      255 * 16 * cfg.CONFIG_PMW3610_REST1_SAMPLE_TIME_MS) ∧
  (128 * cfg.CONFIG_PMW3610_REST2_SAMPLE_TIME_MS ≤ cfg.CONFIG_PMW3610_REST2_DOWNSHIFT_TIME_MS ∧
    cfg.CONFIG_PMW3610_REST2_DOWNSHIFT_TIME_MS ≤
      255 * 128 * cfg.CONFIG_PMW3610_REST2_SAMPLE_TIME_MS)

/-- Recognises a bus transfer (`spi_write_dt` or `spi_read_dt`). -/
def is_bus : Event → Bool
  | Event.spi_write _ _ => true
  | Event.spi_read _ _ => true
  | _ => false

/-- The bus transfers recorded in a trace, in order. -/
def bus (t : List Event) : List Event := t.filter is_bus

/-- The error code a bus transfer returned (zero for any other event). -/
def bus_err : Event → Int
  | Event.spi_write _ err => err
  | Event.spi_read _ err => err
  | _ => 0

/-- The bytes of a bus write. -/
def frame_of : Event → Option (List Nat)
  | Event.spi_write tx _ => some tx
  | _ => none

/-- The frames written to the bus, in order. -/
def frames (t : List Event) : List (List Nat) := (bus t).filterMap frame_of

/-- The number of write frames addressed to register `reg` in a trace: frames
whose first byte is `reg` with the write bit set. -/
def writes_to (reg : Nat) (t : List Event) : Nat :=
  (frames t).countP (fun tx => tx.head? == some (SPI_WRITE_BIT ||| reg))

/-- Device initialisation run to completion: `pmw3610_init`, then the four runs
of the init work that `pmw3610_init` and the work itself schedule. -/
def init_run (cfg : Kconfig) (dev : Dev) : Option Dev :=
  let r := pmw3610_init dev
  if r.1 ≠ 0 then none else
  (((pmw3610_async_init cfg r.2).bind (pmw3610_async_init cfg)).bind
    (pmw3610_async_init cfg)).bind (pmw3610_async_init cfg)

/-- What `n` successive fetches on channel `SENSOR_CHAN_ALL` do: for each fetch
its return value, the shutter value of the burst it reads, the smart flag after
it and the number of write frames to register `0x32` sent so far. -/
def fetch_log (cfg : Kconfig) : Nat → Dev → List (Int × Int × Bool × Nat)
  | 0, _ => []
  | n + 1, d =>
    let f := pmw3610_sample_fetch cfg d sensor_channel.SENSOR_CHAN_ALL
    (f.1, fetch_shutter (motion_burst_read (fun _ => 0) PMW3610_BURST_SIZE d.w).2.1,
      f.2.data.sw_smart_flag, writes_to 0x32 f.2.w.trace) :: fetch_log cfg n f.2

/-- Hardware on which every call succeeds, the observation register reads back
`0x0F`, and the bursts of three fetches that follow initialisation carry the
shutter values 50, 40 and 50: initialisation takes the hardware calls 0 to 123
and the second fetch the calls 137 to 149. -/
def shutter_env : Nat → Resp :=
  fun k => { err := 0
             data := fun i => [0x0F, 0, 0, 0, 0, 0, if 137 ≤ k ∧ k < 150 then 40 else 50].getD i 0 }

/-- The same bursts for three fetches on a device that starts at hardware call
0: the second fetch takes the calls 13 to 25. -/
def shutter_env_ready : Nat → Resp :=
  fun k => { err := 0
             data := fun i => [0, 0, 0, 0, 0, 0, if 13 ≤ k ∧ k < 26 then 40 else 50].getD i 0 }

/-- The states of the trigger subsystem on a ready device: a start state (ready,
no handler stored, line disabled, as initialisation leaves it) and every state
reached from it by `pmw3610_trigger_set` calls, interrupt events (`irq_handler`)
and runs of the deferred `trigger_handler`, whatever the pin calls return. -/
inductive TrigReachable (app : App) (cfg : Kconfig) : Dev → Prop where
  | start (dev : Dev) (hr : dev.data.ready = true) (hh : dev.data.data_ready_handler = 0)
      (hm : dev.w.irq_mode = gpio_int_flags.GPIO_INT_DISABLE) : TrigReachable app cfg dev
  | trigger_set (dev : Dev) (trig : sensor_trigger) (handler : Nat)
      (h : TrigReachable app cfg dev) :
      TrigReachable app cfg (pmw3610_trigger_set dev trig handler).2
  | irq (dev : Dev) (h : TrigReachable app cfg dev) : TrigReachable app cfg (irq_handler dev)
  | work (dev : Dev) (h : TrigReachable app cfg dev) :
      TrigReachable app cfg (trigger_handler app cfg dev)

/-- A data-ready trigger descriptor on channel `SENSOR_CHAN_ALL`. -/
def data_ready_trigger : sensor_trigger :=
  { type := sensor_trigger_type.SENSOR_TRIG_DATA_READY, chan := sensor_channel.SENSOR_CHAN_ALL }

/-- No handler stored implies the interrupt line is disabled. -/
def line_off_without_handler (dev : Dev) : Prop :=
  dev.data.data_ready_handler = 0 → dev.w.irq_mode = gpio_int_flags.GPIO_INT_DISABLE

/-- The bus transfers `es` of an operation that returned `ret` stop at the first
failure: every transfer but the last succeeded, and the last one either
succeeded or returned the very error code `ret`. -/
def fail_stop (ret : Int) : List Event → Bool
  | [] => true
  | [e] => decide (bus_err e = 0) || decide (ret = bus_err e)
  | e :: e' :: es => decide (bus_err e = 0) && fail_stop ret (e' :: es)

/-- An operation that took the world from `w` to `w'` and returned `ret` added
bus transfers that stop at the first failure. -/
def stops_at_failure (w : World) (ret : Int) (w' : World) : Prop :=
  ∃ es, bus w'.trace = bus w.trace ++ es ∧ fail_stop ret es = true

/-- Hardware on which the hardware call number `k` fails with the error `e` and
every other call succeeds. -/
def fail_at (k : Nat) (e : Int) : Nat → Resp :=
  fun j => { err := if j = k then e else 0, data := fun _ => 0 }

/-- The step of each settable attribute, as the specification lists them: the
register code is the attribute value divided by the step. -/
def attr_step (cfg : Kconfig) : pmw3610_attribute → Option Nat
  | pmw3610_attribute.PMW3610_ATTR_CPI => some 200
  | pmw3610_attribute.PMW3610_ATTR_REST1_SAMPLE_TIME => some 10
  | pmw3610_attribute.PMW3610_ATTR_REST2_SAMPLE_TIME => some 10
  | pmw3610_attribute.PMW3610_ATTR_REST3_SAMPLE_TIME => some 10
  | pmw3610_attribute.PMW3610_ATTR_RUN_DOWNSHIFT_TIME => some 32
  | pmw3610_attribute.PMW3610_ATTR_REST1_DOWNSHIFT_TIME =>
    some (16 * cfg.CONFIG_PMW3610_REST1_SAMPLE_TIME_MS)
  | pmw3610_attribute.PMW3610_ATTR_REST2_DOWNSHIFT_TIME =>
    some (128 * cfg.CONFIG_PMW3610_REST2_SAMPLE_TIME_MS)
  | pmw3610_attribute.other _ => none

/-- The register write that carries the code `q` of an attribute: the CPI burst
for the resolution, a `reg_write` to the register of the attribute otherwise. -/
def attr_write : pmw3610_attribute → Nat → World → Int × World
  | pmw3610_attribute.PMW3610_ATTR_CPI, q, w =>
    burst_write [0x7F, PMW3610_REG_RES_STEP, 0x7F] [0xFF, q, 0x00] 3 w
  | pmw3610_attribute.PMW3610_ATTR_REST1_SAMPLE_TIME, q, w =>
    reg_write PMW3610_REG_REST1_PERIOD q w
  | pmw3610_attribute.PMW3610_ATTR_REST2_SAMPLE_TIME, q, w =>
    reg_write PMW3610_REG_REST2_PERIOD q w
  | pmw3610_attribute.PMW3610_ATTR_REST3_SAMPLE_TIME, q, w =>
    reg_write PMW3610_REG_REST3_PERIOD q w
  | pmw3610_attribute.PMW3610_ATTR_RUN_DOWNSHIFT_TIME, q, w =>
    reg_write PMW3610_REG_RUN_DOWNSHIFT q w
  | pmw3610_attribute.PMW3610_ATTR_REST1_DOWNSHIFT_TIME, q, w =>
    reg_write PMW3610_REG_REST1_DOWNSHIFT q w
  | pmw3610_attribute.PMW3610_ATTR_REST2_DOWNSHIFT_TIME, q, w =>
    reg_write PMW3610_REG_REST2_DOWNSHIFT q w
  | pmw3610_attribute.other _, _, w => (-ENOTSUP, w)

/-- A list of operations run in order until one fails, as the specification
words the Configure step: an operation that returns an error ends the run with
that error, and no later operation of the list is issued. -/
def run_until_error : List (World → Int × World) → World → Int × World
  | [], w => (0, w)
  | op :: ops, w =>
    let r := op w
    if r.1 ≠ 0 then r else run_until_error ops r.2

/-- The read of a motion register for its read-as-clear effect: `reg_read` with
the byte read thrown away. -/
def read_clear (reg : Nat) (w : World) : Int × World :=
  ((reg_read reg 0 w).1, (reg_read reg 0 w).2.2)

/-- The register operations of the Configure step in the order the
specification lists them: reads of `0x02 .. 0x05`, the CPI write sequence, the
performance write `0x11 <- 0x0D`, the sample-time writes to `0x1C`, `0x1E`,
`0x20`, the downshift writes to `0x1B`, `0x1D`, `0x1F`. -/
def configure_ops (cfg : Kconfig) : List (World → Int × World) :=
  [read_clear 0x02, read_clear 0x03, read_clear 0x04, read_clear 0x05,
   set_cpi (cfg.CONFIG_PMW3610_CPI % 4294967296),
   reg_write 0x11 0x0D,
   set_sample_time 0x1C (cfg.CONFIG_PMW3610_REST1_SAMPLE_TIME_MS % 4294967296),
   set_sample_time 0x1E (cfg.CONFIG_PMW3610_REST2_SAMPLE_TIME_MS % 4294967296),
   set_sample_time 0x20 (cfg.CONFIG_PMW3610_REST3_SAMPLE_TIME_MS % 4294967296),
   set_downshift_time cfg 0x1B (cfg.CONFIG_PMW3610_RUN_DOWNSHIFT_TIME_MS % 4294967296),
   set_downshift_time cfg 0x1D (cfg.CONFIG_PMW3610_REST1_DOWNSHIFT_TIME_MS % 4294967296),
   set_downshift_time cfg 0x1F (cfg.CONFIG_PMW3610_REST2_DOWNSHIFT_TIME_MS % 4294967296)]

/-- The bus transfers of a successful register read. -/
def sent_read (reg : Nat) : List Event :=
  [Event.spi_write [reg] 0, Event.spi_read 1 0]

/-- The bus transfers of a successful `reg_write`. -/
def sent_write (reg val : Nat) : List Event :=
  [Event.spi_write [0xC1, 0xBA] 0, Event.spi_write [0x80 ||| reg, val] 0,
   Event.spi_write [0xC1, 0xB5] 0]

/-- The bus transfers of a successful CPI write sequence with code `q`. -/
def sent_cpi (q : Nat) : List Event :=
  [Event.spi_write [0xC1, 0xBA] 0, Event.spi_write [0xFF, 0xFF] 0,
   Event.spi_write [0x85, q] 0, Event.spi_write [0xFF, 0x00] 0,
   Event.spi_write [0xC1, 0xB5] 0]

/-- The bus transfers of a successful Configure step, operation by operation. -/
def configure_sent (cfg : Kconfig) : List (List Event) :=
  [sent_read 0x02, sent_read 0x03, sent_read 0x04, sent_read 0x05,
   sent_cpi (cfg.CONFIG_PMW3610_CPI / 200),
   sent_write 0x11 0x0D,
   sent_write 0x1C (cfg.CONFIG_PMW3610_REST1_SAMPLE_TIME_MS / 10),
   sent_write 0x1E (cfg.CONFIG_PMW3610_REST2_SAMPLE_TIME_MS / 10),
   sent_write 0x20 (cfg.CONFIG_PMW3610_REST3_SAMPLE_TIME_MS / 10),
   sent_write 0x1B (cfg.CONFIG_PMW3610_RUN_DOWNSHIFT_TIME_MS / 32),
   sent_write 0x1D (cfg.CONFIG_PMW3610_REST1_DOWNSHIFT_TIME_MS /
     (16 * cfg.CONFIG_PMW3610_REST1_SAMPLE_TIME_MS)),
   sent_write 0x1F (cfg.CONFIG_PMW3610_REST2_DOWNSHIFT_TIME_MS /
     (128 * cfg.CONFIG_PMW3610_REST2_SAMPLE_TIME_MS))]

/-- With a succeeding bus the operation `op` returns zero, leaves the oracle
alone and makes exactly the bus transfers `es`. -/
def op_sends (op : World → Int × World) (es : List Event) : Prop :=
  ∀ w : World, (∀ k, (w.env k).err = 0) →
    (op w).1 = 0 ∧ (op w).2.env = w.env ∧ bus (op w).2.trace = bus w.trace ++ es

/-- Recognises a chip-select pin call or a bus transfer. -/
def is_cs_or_bus : Event → Bool
  | Event.gpio_pin_set_cs _ _ => true
  | Event.spi_write _ _ => true
  | Event.spi_read _ _ => true
  | _ => false

/-- The chip-select pin calls and the bus transfers recorded in a trace, in
order. -/
def cs_bus (t : List Event) : List Event := t.filter is_cs_or_bus

/-- Recognises a recorded assertion failure. -/
def is_assert_failed : Event → Bool
  | Event.assert_failed => true
  | _ => false

/-- The number of assertion failures recorded in a trace. -/
def assert_failures (t : List Event) : Nat := (t.filter is_assert_failed).length

/-- The register addresses at the call sites of `_reg_write` and `reg_read` in
the source: the clock-gate register of `reg_write` and `burst_write`, the three
addresses of the CPI burst, the product-id, power-up and observation registers,
the motion registers read by the Configure step, the performance register, the
sample-time and downshift registers, and the power-mode register of the smart
algorithm. -/
def driver_reg_addrs : List Nat :=
  [PMW3610_REG_SPI_CLK_ON_REQ, 0x7F, PMW3610_REG_RES_STEP, 0x7F, PMW3610_REG_PRODUCT_ID,
   PMW3610_REG_POWER_UP_RESET, PMW3610_REG_OBSERVATION, 0x02, 0x03, 0x04, 0x05,
   PMW3610_REG_PERFORMANCE, PMW3610_REG_REST1_PERIOD, PMW3610_REG_REST2_PERIOD,
   PMW3610_REG_REST3_PERIOD, PMW3610_REG_RUN_DOWNSHIFT, PMW3610_REG_REST1_DOWNSHIFT,
   PMW3610_REG_REST2_DOWNSHIFT, 0x32]

/-- A run of device initialisation in which only the init work that the driver
has scheduled is executed: `pmw3610_init` on zero-initialised driver data at
power-on, then `n` executions of the init work, each of them taking up a
scheduling that has not been executed yet. The result is the device after the
`n`-th execution; `none` when fewer than `n` executions take place, because no
scheduling is left or because the work indexes outside its tables. -/
def scheduled_run (cfg : Kconfig) (env : Nat → Resp) : Nat → Option Dev
  | 0 => some (pmw3610_init { data := zero_data, w := fresh_world env }).2
  | n + 1 =>
    match scheduled_run cfg env n with
    | none => none
    | some dev =>
      if n < (scheduled dev.w.trace).length then pmw3610_async_init cfg dev else none

/-- Hardware on which the motion burst of a fetch at power-on succeeds with the
shutter value 50 and the bus write that follows it, the clock-enable frame of
`reg_write`, fails with `-5`: the burst takes the hardware calls 0 to 3, the
chip-select assertion of the write the call 4 and its bus write the call 5. -/
def smart_write_fail_env : Nat → Resp :=
  fun k => { err := if k = 5 then -5 else 0
             data := fun i => [0, 0, 0, 0, 0, 0, 50].getD i 0 }

/-- The device after `n` executions of the init work in a scheduled run on the
hardware `env` (the power-on device when the run has ended before). -/
def init_state (cfg : Kconfig) (env : Nat → Resp) (n : Nat) : Dev :=
  (scheduled_run cfg env n).getD { data := zero_data, w := fresh_world env }

/-! ## Sign extension (C1) -/

/-- C1: for every 12-bit pattern `v`, `TOINT16(v, 12)` is the two's-complement
sign extension of `v` (`v` below `0x800`, `v - 4096` otherwise), a value of the
`int16_t` range; `0xFFF` gives `-1`, `0x800` gives `-2048`, `0x001` gives `1`. -/
theorem C1_toint16_sign_extension :
    (∀ v : Nat, v ≤ 0xFFF →
      TOINT16 (v : Int) 12 = sext12 v ∧
      TOINT16 (v : Int) 12 = (if v < 0x800 then (v : Int) else (v : Int) - 4096) ∧
      to_int16 (TOINT16 (v : Int) 12) = TOINT16 (v : Int) 12) ∧
    TOINT16 0xFFF 12 = -1 ∧ TOINT16 0x800 12 = -2048 ∧ TOINT16 0x001 12 = 1 := by
  refine ⟨?_, by decide, by decide, by decide⟩
  intro v hv
  have h12 : ((2 : Int) ^ 12) = 4096 := by norm_num
  have h11 : ((2 : Int) ^ (12 - 1)) = 2048 := by norm_num
  simp only [TOINT16, sext12, to_int16, h12, h11]
  split_ifs <;> omega

/-- Witness for C1 at the pattern `0xABC`. -/
theorem C1_toint16_sign_extension_witness : TOINT16 0xABC 12 = -1348 := by
  have h := (C1_toint16_sign_extension.1 0xABC (by decide)).1
  simpa [sext12] using h

/-! ## Motion burst decoding (C2, C3) -/

/-- The macro `TOINT16(v, 12)` on a 12-bit pattern is `sext12 v`, within
`-2048 .. 2047`. -/
theorem TOINT16_12_eq (v : Nat) (hv : v < 4096) :
    TOINT16 (v : Int) 12 = sext12 v ∧ -2048 ≤ sext12 v ∧ sext12 v ≤ 2047 := by
  have h12 : ((2 : Int) ^ 12) = 4096 := by norm_num
  have h11 : ((2 : Int) ^ (12 - 1)) = 2048 := by norm_num
  simp only [TOINT16, sext12, h12, h11]
  split_ifs <;> omega

/-- Truncating division by a positive divisor stays within the bounds of the
dividend. -/
theorem tdiv_bounds (n d : Int) (hd : 0 < d) (hl : -2048 ≤ n) (hu : n ≤ 2047) :
    -2048 ≤ Int.tdiv n d ∧ Int.tdiv n d ≤ 2047 := by
  rcases le_or_lt 0 n with hn | hn
  · rw [Int.tdiv_eq_ediv hn (le_of_lt hd)]
    have h1 : 0 ≤ n / d := Int.ediv_nonneg hn (le_of_lt hd)
    have h2 : n / d ≤ n := Int.ediv_le_self d hn
    omega
  · have hneg : Int.tdiv n d = -Int.tdiv (-n) d := by
      rw [Int.neg_tdiv, neg_neg]
    have hn2 : 0 ≤ -n := by omega
    rw [hneg, Int.tdiv_eq_ediv hn2 (le_of_lt hd)]
    have h1 : 0 ≤ -n / d := Int.ediv_nonneg hn2 (le_of_lt hd)
    have h2 : -n / d ≤ -n := Int.ediv_le_self d hn2
    omega

/-- The X pattern assembled from burst bytes is a 12-bit pattern. -/
theorem x_pattern_lt (a b : Nat) (ha : a < 256) : a + ((b &&& 0xF0) <<< 4) < 4096 := by
  have h1 : b &&& 0xF0 ≤ 0xF0 := Nat.and_le_right
  rw [Nat.shiftLeft_eq]
  omega

/-- The Y pattern assembled from burst bytes is a 12-bit pattern. -/
theorem y_pattern_lt (a b : Nat) (ha : a < 256) : a + ((b &&& 0x0F) <<< 8) < 4096 := by
  have h1 : b &&& 0x0F ≤ 0x0F := Nat.and_le_right
  rw [Nat.shiftLeft_eq]
  omega

/-! ### Projections of the hardware calls -/

@[simp] theorem k_busy_wait_env (us : Nat) (w : World) : (k_busy_wait us w).env = w.env := rfl
@[simp] theorem k_busy_wait_ops (us : Nat) (w : World) : (k_busy_wait us w).ops = w.ops := rfl

@[simp] theorem assert_env (c : Bool) (w : World) : (__ASSERT_NO_MSG c w).env = w.env := by
  cases c <;> rfl
@[simp] theorem assert_ops (c : Bool) (w : World) : (__ASSERT_NO_MSG c w).ops = w.ops := by
  cases c <;> rfl

@[simp] theorem spi_cs_ctrl_fst (e : Bool) (w : World) :
    (spi_cs_ctrl e w).1 = (w.env w.ops).err := by
  cases e <;> rfl
@[simp] theorem spi_cs_ctrl_env (e : Bool) (w : World) : (spi_cs_ctrl e w).2.env = w.env := by
  cases e <;> rfl
@[simp] theorem spi_cs_ctrl_ops (e : Bool) (w : World) :
    (spi_cs_ctrl e w).2.ops = w.ops + 1 := by
  cases e <;> rfl

@[simp] theorem spi_write_dt_fst (tx : List Nat) (w : World) :
    (spi_write_dt tx w).1 = (w.env w.ops).err := rfl
@[simp] theorem spi_write_dt_env (tx : List Nat) (w : World) :
    (spi_write_dt tx w).2.env = w.env := rfl
@[simp] theorem spi_write_dt_ops (tx : List Nat) (w : World) :
    (spi_write_dt tx w).2.ops = w.ops + 1 := rfl

@[simp] theorem spi_read_dt_fst (b : Nat → Nat) (n : Nat) (w : World) :
    (spi_read_dt b n w).1 = (w.env w.ops).err := rfl
@[simp] theorem spi_read_dt_buf (b : Nat → Nat) (n : Nat) (w : World) (i : Nat) :
    (spi_read_dt b n w).2.1 i = if i < n then (w.env w.ops).data i % 256 else b i := rfl
@[simp] theorem spi_read_dt_env (b : Nat → Nat) (n : Nat) (w : World) :
    (spi_read_dt b n w).2.2.env = w.env := rfl
@[simp] theorem spi_read_dt_ops (b : Nat → Nat) (n : Nat) (w : World) :
    (spi_read_dt b n w).2.2.ops = w.ops + 1 := rfl

/-- After a successful `motion_burst_read` the buffer holds the bytes the bus
delivered on its read call, the third hardware call of the transaction. -/
theorem motion_burst_read_buf (b : Nat → Nat) (n : Nat) (w : World)
    (h : (motion_burst_read b n w).1 = 0) (i : Nat) (hi : i < n) :
    (motion_burst_read b n w).2.1 i = (w.env (w.ops + 2)).data i % 256 := by
  unfold motion_burst_read at h ⊢
  simp only [] at h ⊢
  split_ifs at h ⊢ <;> simp_all

/-- The smart algorithm block leaves the stored position alone. -/
theorem smart_algorithm_pos (sh : Int) (dev : Dev) :
    (smart_algorithm sh dev).data.x = dev.data.x ∧
    (smart_algorithm sh dev).data.y = dev.data.y := by
  unfold smart_algorithm
  split_ifs <;> simp <;> split_ifs <;> simp

/-- The local `x` of a fetch is the sign-extended 12-bit X pattern divided by
the scale divisor, truncating toward zero; storing it in `int16_t` loses
nothing. -/
theorem fetch_x_eq (cfg : Kconfig) (buf : Nat → Nat) (hD : 0 < cfg.CONFIG_PMW3610_CPI_DIVIDOR)
    (hb : buf 1 < 256) :
    fetch_x cfg buf =
      Int.tdiv (sext12 (buf 1 + ((buf 3 &&& 0xF0) <<< 4))) cfg.CONFIG_PMW3610_CPI_DIVIDOR ∧
    -2048 ≤ fetch_x cfg buf ∧ fetch_x cfg buf ≤ 2047 := by
  have h := TOINT16_12_eq _ (x_pattern_lt (buf 1) (buf 3) hb)
  have hb := tdiv_bounds _ _ hD h.2.1 h.2.2
  simp only [fetch_x, PMW3610_X_L_POS, PMW3610_XY_H_POS, h.1, to_int16]
  omega

/-- The local `y` of a fetch is the sign-extended 12-bit Y pattern divided by
the scale divisor, truncating toward zero; storing it in `int16_t` loses
nothing. -/
theorem fetch_y_eq (cfg : Kconfig) (buf : Nat → Nat) (hD : 0 < cfg.CONFIG_PMW3610_CPI_DIVIDOR)
    (hb : buf 2 < 256) :
    fetch_y cfg buf =
      Int.tdiv (sext12 (buf 2 + ((buf 3 &&& 0x0F) <<< 8))) cfg.CONFIG_PMW3610_CPI_DIVIDOR ∧
    -2048 ≤ fetch_y cfg buf ∧ fetch_y cfg buf ≤ 2047 := by
  have h := TOINT16_12_eq _ (y_pattern_lt (buf 2) (buf 3) hb)
  have hb := tdiv_bounds _ _ hD h.2.1 h.2.2
  simp only [fetch_y, PMW3610_Y_L_POS, PMW3610_XY_H_POS, h.1, to_int16]
  omega

/-- A fetch returns zero only for channel `SENSOR_CHAN_ALL` on a ready device
whose motion burst read returned zero; the position it stores is the orientation
branch applied to the decoded pair. -/
theorem sample_fetch_success (cfg : Kconfig) (dev : Dev) (chan : sensor_channel)
    (h : (pmw3610_sample_fetch cfg dev chan).1 = 0) :
    chan = sensor_channel.SENSOR_CHAN_ALL ∧ dev.data.ready = true ∧
    (motion_burst_read (fun _ => 0) PMW3610_BURST_SIZE dev.w).1 = 0 ∧
    ((pmw3610_sample_fetch cfg dev chan).2.data.x, (pmw3610_sample_fetch cfg dev chan).2.data.y) =
      orientation cfg dev.data.x dev.data.y
        (fetch_x cfg (motion_burst_read (fun _ => 0) PMW3610_BURST_SIZE dev.w).2.1)
        (fetch_y cfg (motion_burst_read (fun _ => 0) PMW3610_BURST_SIZE dev.w).2.1) := by
  unfold pmw3610_sample_fetch at h ⊢
  by_cases hc : chan = sensor_channel.SENSOR_CHAN_ALL
  · by_cases hr : dev.data.ready = true
    · by_cases hm : (motion_burst_read (fun _ => 0) PMW3610_BURST_SIZE dev.w).1 = 0
      · refine ⟨hc, hr, hm, ?_⟩
        simp only [hc, hr, hm, ne_eq, not_true_eq_false, if_false, Bool.not_true, if_true,
          Bool.false_eq_true]
        split_ifs <;> simp [smart_algorithm_pos]
      · simp [hc, hr, hm] at h
    · simp [hc, hr, EBUSY] at h
  · simp [hc, ENOTSUP] at h

/-- C2: a successful `pmw3610_sample_fetch` decodes, from the seven bytes `buf`
the bus delivered, `x = sext12(buf[1] + ((buf[3] & 0xF0) << 4)) / D` and
`y = sext12(buf[2] + ((buf[3] & 0x0F) << 8)) / D` for a positive divisor `D`,
the division truncating toward zero (`-3 / 2 = -1`), and stores the active
orientation preset of `(x, y)`: `(-x, y)` for 0 degrees, `(y, -x)` for 90,
`(x, -y)` for 180, `(-y, x)` for 270. -/
theorem C2_fetch_decodes_position (cfg : Kconfig) (dev : Dev) (chan : sensor_channel)
    (hD : 0 < cfg.CONFIG_PMW3610_CPI_DIVIDOR)
    (h : (pmw3610_sample_fetch cfg dev chan).1 = 0) :
    let buf : Nat → Nat := fun i => (dev.w.env (dev.w.ops + 2)).data i % 256
    let x := Int.tdiv (sext12 (buf 1 + ((buf 3 &&& 0xF0) <<< 4))) cfg.CONFIG_PMW3610_CPI_DIVIDOR
    let y := Int.tdiv (sext12 (buf 2 + ((buf 3 &&& 0x0F) <<< 8))) cfg.CONFIG_PMW3610_CPI_DIVIDOR
    let d := (pmw3610_sample_fetch cfg dev chan).2.data
    (∀ i, i < 7 → (motion_burst_read (fun _ => 0) PMW3610_BURST_SIZE dev.w).2.1 i = buf i) ∧
    (cfg.CONFIG_PMW3610_ORIENTATION_0 = true → (d.x, d.y) = (-x, y)) ∧
    (cfg.CONFIG_PMW3610_ORIENTATION_0 = false → cfg.CONFIG_PMW3610_ORIENTATION_90 = true →
      (d.x, d.y) = (y, -x)) ∧
    (cfg.CONFIG_PMW3610_ORIENTATION_0 = false → cfg.CONFIG_PMW3610_ORIENTATION_90 = false →
      cfg.CONFIG_PMW3610_ORIENTATION_180 = true → (d.x, d.y) = (x, -y)) ∧
    (cfg.CONFIG_PMW3610_ORIENTATION_0 = false → cfg.CONFIG_PMW3610_ORIENTATION_90 = false →
      cfg.CONFIG_PMW3610_ORIENTATION_180 = false → cfg.CONFIG_PMW3610_ORIENTATION_270 = true →
      (d.x, d.y) = (-y, x)) ∧
    Int.tdiv (-3) 2 = -1 := by
  intro buf x y d
  obtain ⟨_, _, hm, hpos⟩ := sample_fetch_success cfg dev chan h
  have hbuf : ∀ i, i < 7 →
      (motion_burst_read (fun _ => 0) PMW3610_BURST_SIZE dev.w).2.1 i = buf i :=
    fun i hi => motion_burst_read_buf _ _ _ hm i hi
  have hx := fetch_x_eq cfg (motion_burst_read (fun _ => 0) PMW3610_BURST_SIZE dev.w).2.1 hD
    (by rw [hbuf 1 (by decide)]; exact Nat.mod_lt _ (by decide))
  have hy := fetch_y_eq cfg (motion_burst_read (fun _ => 0) PMW3610_BURST_SIZE dev.w).2.1 hD
    (by rw [hbuf 2 (by decide)]; exact Nat.mod_lt _ (by decide))
  rw [hbuf 1 (by decide), hbuf 3 (by decide)] at hx
  rw [hbuf 2 (by decide), hbuf 3 (by decide)] at hy
  obtain ⟨hx1, hx2, hx3⟩ := hx
  obtain ⟨hy1, hy2, hy3⟩ := hy
  have hxx : x = fetch_x cfg (motion_burst_read (fun _ => 0) PMW3610_BURST_SIZE dev.w).2.1 :=
    hx1.symm
  have hyy : y = fetch_y cfg (motion_burst_read (fun _ => 0) PMW3610_BURST_SIZE dev.w).2.1 :=
    hy1.symm
  rw [← hxx] at hx2 hx3 hpos
  rw [← hyy] at hy2 hy3 hpos
  have hd : (d.x, d.y) = orientation cfg dev.data.x dev.data.y x y := hpos
  have e1 : to_int16 x = x := by simp only [to_int16]; omega
  have e2 : to_int16 y = y := by simp only [to_int16]; omega
  have e3 : to_int16 (-x) = -x := by simp only [to_int16]; omega
  have e4 : to_int16 (-y) = -y := by simp only [to_int16]; omega
  refine ⟨hbuf, ?_, ?_, ?_, ?_, by decide⟩
  · intro h0
    rw [hd]; simp [orientation, h0, e2, e3]
  · intro h0 h90
    rw [hd]; simp [orientation, h0, h90, e1, e2, e3]
  · intro h0 h90 h180
    rw [hd]; simp [orientation, h0, h90, h180, e1, e4]
  · intro h0 h90 h180 h270
    rw [hd]; simp [orientation, h0, h90, h180, h270, e1, e4]

/-- Witness for C2: the burst `00 FD 01 F0 00 00 2D` with divisor 2 and
orientation 0 carries the X pattern `0xFFD = -3` and the Y pattern `0x001`; the
fetch stores `(-(-3 / 2), 1 / 2) = (1, 0)`. -/
theorem C2_fetch_decodes_position_witness :
    (pmw3610_sample_fetch sample_cfg (ready_dev (good_env [0, 0xFD, 0x01, 0xF0, 0, 0, 0x2D]))
      sensor_channel.SENSOR_CHAN_ALL).1 = 0 ∧
    ((pmw3610_sample_fetch sample_cfg (ready_dev (good_env [0, 0xFD, 0x01, 0xF0, 0, 0, 0x2D]))
      sensor_channel.SENSOR_CHAN_ALL).2.data.x,
     (pmw3610_sample_fetch sample_cfg (ready_dev (good_env [0, 0xFD, 0x01, 0xF0, 0, 0, 0x2D]))
      sensor_channel.SENSOR_CHAN_ALL).2.data.y) = (1, 0) := by
  have h0 : (pmw3610_sample_fetch sample_cfg
      (ready_dev (good_env [0, 0xFD, 0x01, 0xF0, 0, 0, 0x2D]))
      sensor_channel.SENSOR_CHAN_ALL).1 = 0 := by decide
  refine ⟨h0, ?_⟩
  have h := (C2_fetch_decodes_position sample_cfg
    (ready_dev (good_env [0, 0xFD, 0x01, 0xF0, 0, 0, 0x2D]))
    sensor_channel.SENSOR_CHAN_ALL (by decide) h0).2.1 rfl
  rw [h]
  decide

/-- C3, refuted as stated: on the pair `(1, 0)` the 90-degree preset applied
twice stores `(-1, 0)` while the 180-degree preset stores `(1, 0)`. -/
theorem C3_counterexample :
    orient only_90 (orient only_90 (1, 0)) = (-1, 0) ∧
    orient only_180 (1, 0) = (1, 0) ∧
    orient only_90 (orient only_90 (1, 0)) ≠ orient only_180 (1, 0) := by
  decide

/-- C3, amended: for every pair `(x, y)` of `int16_t` values, the 90-degree
preset applied twice negates both components (in `int16_t`); this is the
180-degree preset applied to the output of the 0-degree preset, and it equals
the 180-degree preset applied to `(x, y)` itself exactly when `x` is its own
`int16_t` negation, that is `x = 0` or `x = -32768`. -/
theorem C3_orientation_90_twice (c0 c90 c180 : Kconfig) (x y : Int)
    (h0 : c0.CONFIG_PMW3610_ORIENTATION_0 = true)
    (h90 : c90.CONFIG_PMW3610_ORIENTATION_0 = false ∧ c90.CONFIG_PMW3610_ORIENTATION_90 = true)
    (h180 : c180.CONFIG_PMW3610_ORIENTATION_0 = false ∧
      c180.CONFIG_PMW3610_ORIENTATION_90 = false ∧ c180.CONFIG_PMW3610_ORIENTATION_180 = true)
    (hx : -32768 ≤ x ∧ x ≤ 32767) (hy : -32768 ≤ y ∧ y ≤ 32767) :
    orient c90 (orient c90 (x, y)) = (to_int16 (-x), to_int16 (-y)) ∧
    orient c90 (orient c90 (x, y)) = orient c180 (orient c0 (x, y)) ∧
    orient c180 (x, y) = (x, to_int16 (-y)) ∧
    (orient c90 (orient c90 (x, y)) = orient c180 (x, y) ↔ (x = 0 ∨ x = -32768)) := by
  obtain ⟨a, b⟩ := h90
  obtain ⟨c, d, e⟩ := h180
  have e1 : to_int16 x = x := by simp only [to_int16]; omega
  have e2 : to_int16 y = y := by simp only [to_int16]; omega
  have e3 : to_int16 (to_int16 (-x)) = to_int16 (-x) := by simp only [to_int16]; omega
  have e4 : to_int16 (to_int16 (-y)) = to_int16 (-y) := by simp only [to_int16]; omega
  have e5 : to_int16 (-to_int16 y) = to_int16 (-y) := by simp only [to_int16]; omega
  have e6 : (to_int16 (-x) = x ↔ (x = 0 ∨ x = -32768)) := by simp only [to_int16]; omega
  simp only [orient, orientation, h0, a, b, c, d, e, if_true, if_false, Bool.false_eq_true,
    e1, e2, e3, e4, e5, Prod.mk.injEq, and_true, true_and]
  exact e6

/-- Witness for the amended C3 at the pair `(5, -7)`. -/
theorem C3_orientation_90_twice_witness :
    orient only_90 (orient only_90 (5, -7)) = (to_int16 (-5), to_int16 7) ∧
    orient only_90 (orient only_90 (5, -7)) = orient only_180 (orient only_0 (5, -7)) ∧
    orient only_180 (5, -7) = (5, to_int16 7) ∧
    (orient only_90 (orient only_90 (5, -7)) = orient only_180 (5, -7) ↔
      ((5 : Int) = 0 ∨ (5 : Int) = -32768)) :=
  C3_orientation_90_twice only_0 only_90 only_180 5 (-7) rfl ⟨rfl, rfl⟩ ⟨rfl, rfl, rfl⟩
    (by decide) (by decide)

/-! ## Readiness gate (C5) -/

/-- C5: while `ready` is false, `pmw3610_sample_fetch`, `pmw3610_channel_get`,
`pmw3610_attr_set` and `pmw3610_trigger_set` return a non-zero error for every
argument (`-ENOTSUP` for an unsupported channel or trigger type in the functions
that check it first, `-EBUSY` otherwise) and leave the device, that is the
driver data and the world with its trace of bus and pin calls, exactly as it
was; `pmw3610_channel_get` also leaves its output alone. -/
theorem C5_not_ready_rejects (cfg : Kconfig) (dev : Dev) (hr : dev.data.ready = false)
    (chan : sensor_channel) (attr : pmw3610_attribute) (val : sensor_value)
    (trig : sensor_trigger) (handler : Nat) :
    (pmw3610_sample_fetch cfg dev chan =
      (if chan = sensor_channel.SENSOR_CHAN_ALL then -EBUSY else -ENOTSUP, dev)) ∧
    (pmw3610_channel_get dev chan val = (-EBUSY, val)) ∧
    (pmw3610_attr_set cfg dev chan attr val =
      (if chan = sensor_channel.SENSOR_CHAN_ALL then -EBUSY else -ENOTSUP, dev)) ∧
    (pmw3610_trigger_set dev trig handler =
      (if trig.type = sensor_trigger_type.SENSOR_TRIG_DATA_READY ∧
          trig.chan = sensor_channel.SENSOR_CHAN_ALL then -EBUSY else -ENOTSUP, dev)) ∧
    (pmw3610_sample_fetch cfg dev chan).1 ≠ 0 ∧
    (pmw3610_channel_get dev chan val).1 ≠ 0 ∧
    (pmw3610_attr_set cfg dev chan attr val).1 ≠ 0 ∧
    (pmw3610_trigger_set dev trig handler).1 ≠ 0 := by
  have hf : pmw3610_sample_fetch cfg dev chan =
      (if chan = sensor_channel.SENSOR_CHAN_ALL then -EBUSY else -ENOTSUP, dev) := by
    unfold pmw3610_sample_fetch
    by_cases hc : chan = sensor_channel.SENSOR_CHAN_ALL <;> simp [hc, hr]
  have hg : pmw3610_channel_get dev chan val = (-EBUSY, val) := by
    unfold pmw3610_channel_get
    simp [hr]
  have ha : pmw3610_attr_set cfg dev chan attr val =
      (if chan = sensor_channel.SENSOR_CHAN_ALL then -EBUSY else -ENOTSUP, dev) := by
    unfold pmw3610_attr_set
    by_cases hc : chan = sensor_channel.SENSOR_CHAN_ALL <;> simp [hc, hr]
  have ht : pmw3610_trigger_set dev trig handler =
      (if trig.type = sensor_trigger_type.SENSOR_TRIG_DATA_READY ∧
          trig.chan = sensor_channel.SENSOR_CHAN_ALL then -EBUSY else -ENOTSUP, dev) := by
    unfold pmw3610_trigger_set
    by_cases h1 : trig.type = sensor_trigger_type.SENSOR_TRIG_DATA_READY <;>
      by_cases h2 : trig.chan = sensor_channel.SENSOR_CHAN_ALL <;> simp [h1, h2, hr]
  refine ⟨hf, hg, ha, ht, ?_, ?_, ?_, ?_⟩
  · rw [hf]; split_ifs <;> simp [EBUSY, ENOTSUP]
  · rw [hg]; simp [EBUSY]
  · rw [ha]; split_ifs <;> simp [EBUSY, ENOTSUP]
  · rw [ht]; split_ifs <;> simp [EBUSY, ENOTSUP]

/-- Witness for C5 on zero-initialised driver data. -/
theorem C5_not_ready_rejects_witness :
    (pmw3610_sample_fetch sample_cfg { data := zero_data, w := fresh_world (good_env []) }
      sensor_channel.SENSOR_CHAN_ALL).1 ≠ 0 :=
  (C5_not_ready_rejects sample_cfg { data := zero_data, w := fresh_world (good_env []) } rfl
    sensor_channel.SENSOR_CHAN_ALL pmw3610_attribute.PMW3610_ATTR_CPI { val1 := 800, val2 := 0 }
    { type := sensor_trigger_type.SENSOR_TRIG_DATA_READY, chan := sensor_channel.SENSOR_CHAN_ALL }
    7).2.2.2.2.1

/-! ## The oracle is never changed; a succeeding bus makes every transfer succeed -/

@[simp] theorem emit_env (w : World) (e : Event) : (w.emit e).env = w.env := rfl

@[simp] theorem reg_read_env (reg buf : Nat) (w : World) : (reg_read reg buf w).2.2.env = w.env := by
  unfold reg_read
  simp only []
  split_ifs <;> simp

@[simp] theorem _reg_write_env (reg val : Nat) (w : World) : (_reg_write reg val w).2.env = w.env := by
  unfold _reg_write
  simp only []
  split_ifs <;> simp

@[simp] theorem reg_write_env (reg val : Nat) (w : World) : (reg_write reg val w).2.env = w.env := by
  unfold reg_write
  simp only []
  split_ifs <;> simp

@[simp] theorem burst_write_loop_env (addr buf : List Nat) (n i : Nat) (w : World) :
    (burst_write_loop addr buf n i w).2.env = w.env := by
  induction n generalizing i w with
  | zero => rfl
  | succ n ih =>
    simp only [burst_write_loop]
    split_ifs
    · simp
    · rw [ih]; simp

@[simp] theorem burst_write_env (addr buf : List Nat) (n : Nat) (w : World) :
    (burst_write addr buf n w).2.env = w.env := by
  unfold burst_write
  simp only []
  split_ifs <;> simp

@[simp] theorem set_cpi_env (cpi : Nat) (w : World) : (set_cpi cpi w).2.env = w.env := by
  unfold set_cpi
  simp only []
  split_ifs <;> simp

@[simp] theorem set_sample_time_env (reg t : Nat) (w : World) :
    (set_sample_time reg t w).2.env = w.env := by
  unfold set_sample_time
  simp only []
  split_ifs <;> simp

@[simp] theorem set_downshift_time_env (cfg : Kconfig) (reg t : Nat) (w : World) :
    (set_downshift_time cfg reg t w).2.env = w.env := by
  unfold set_downshift_time
  split
  · rfl
  · simp only []
    split_ifs <;> simp

theorem reg_read_ok (reg buf : Nat) (w : World) (h : ∀ k, (w.env k).err = 0) :
    (reg_read reg buf w).1 = 0 := by
  unfold reg_read
  simp [h]

theorem _reg_write_ok (reg val : Nat) (w : World) (h : ∀ k, (w.env k).err = 0) :
    (_reg_write reg val w).1 = 0 := by
  unfold _reg_write
  simp [h]

theorem reg_write_ok (reg val : Nat) (w : World) (h : ∀ k, (w.env k).err = 0) :
    (reg_write reg val w).1 = 0 := by
  unfold reg_write
  simp [h, _reg_write_ok]

theorem burst_write_loop_ok (addr buf : List Nat) (n i : Nat) (w : World)
    (h : ∀ k, (w.env k).err = 0) : (burst_write_loop addr buf n i w).1 = 0 := by
  induction n generalizing i w with
  | zero => rfl
  | succ n ih =>
    simp only [burst_write_loop]
    rw [if_neg (by simp [_reg_write_ok, h])]
    exact ih _ _ (by simpa using h)

theorem burst_write_ok (addr buf : List Nat) (n : Nat) (w : World)
    (h : ∀ k, (w.env k).err = 0) : (burst_write addr buf n w).1 = 0 := by
  unfold burst_write
  simp [h, _reg_write_ok, burst_write_loop_ok]

/-! ## Attribute ranges (C4) -/

/-- Outside `[200, 3200]` `set_cpi` returns `-EINVAL` and leaves the world
alone; inside, with a succeeding bus, it returns zero. -/
theorem set_cpi_range (cpi : Nat) (w : World) :
    ((cpi < 200 ∨ 3200 < cpi) → set_cpi cpi w = (-EINVAL, w)) ∧
    ((∀ k, (w.env k).err = 0) → 200 ≤ cpi → cpi ≤ 3200 → (set_cpi cpi w).1 = 0) := by
  constructor
  · intro h
    unfold set_cpi
    rw [if_pos (by simp only [PMW3610_MAX_CPI, PMW3610_MIN_CPI]; omega)]
  · intro h h1 h2
    unfold set_cpi
    rw [if_neg (by simp only [PMW3610_MAX_CPI, PMW3610_MIN_CPI]; omega)]
    simp [burst_write_ok, h]

/-- Outside `[10, 2550]` `set_sample_time` returns `-EINVAL` and leaves the
world alone; inside, with a succeeding bus, it returns zero. -/
theorem set_sample_time_range (reg t : Nat) (w : World) :
    ((t < 10 ∨ 2550 < t) → set_sample_time reg t w = (-EINVAL, w)) ∧
    ((∀ k, (w.env k).err = 0) → 10 ≤ t → t ≤ 2550 → (set_sample_time reg t w).1 = 0) := by
  constructor
  · intro h
    unfold set_sample_time
    simp only []
    rw [if_pos (by omega)]
  · intro h h1 h2
    unfold set_sample_time
    simp only []
    rw [if_neg (by omega)]
    exact reg_write_ok _ _ _ h

/-- With bounds `(maxtime, mintime)` for the register, `set_downshift_time`
returns `-EINVAL` outside `[mintime, maxtime]`, leaving the world alone, and
zero inside when the bus succeeds. -/
theorem set_downshift_time_range (cfg : Kconfig) (reg t mx mn : Nat) (w : World)
    (hb : downshift_bounds cfg reg = some (mx, mn)) :
    ((t < mn ∨ mx < t) → set_downshift_time cfg reg t w = (-EINVAL, w)) ∧
    ((∀ k, (w.env k).err = 0) → mn ≤ t → t ≤ mx → (set_downshift_time cfg reg t w).1 = 0) := by
  constructor
  · intro h
    unfold set_downshift_time
    rw [hb]
    simp only []
    rw [if_pos (by omega)]
  · intro h h1 h2
    unfold set_downshift_time
    rw [hb]
    simp only []
    rw [if_neg (by omega)]
    exact reg_write_ok _ _ _ (by simpa using h)

/-- C4: on a ready device with channel `SENSOR_CHAN_ALL`, for each attribute
with range `[lo, hi]` (CPI `[200, 3200]`; the three sample times `[10, 2550]`;
run downshift `[32, 8160]`; rest1 downshift `[16*R1, 255*16*R1]`; rest2
downshift `[128*R2, 255*128*R2]`, with `R1`, `R2` the configured sample times of
a device that could become ready), `pmw3610_attr_set` returns `-EINVAL` and
leaves driver data and world (so the trace of bus and chip-select calls)
untouched when `val1`, read as `uint32_t`, is below `lo` or above `hi`; and with
a succeeding bus it returns zero for every value from `lo` to `hi`, so at exactly
`lo` and exactly `hi`. -/
theorem C4_attr_set_range (cfg : Kconfig) (dev : Dev) (attr : pmw3610_attribute)
    (val : sensor_value) (lo hi : Nat)
    (hready : dev.data.ready = true)
    (hR1 : valid_sample_time cfg.CONFIG_PMW3610_REST1_SAMPLE_TIME_MS)
    (hR2 : valid_sample_time cfg.CONFIG_PMW3610_REST2_SAMPLE_TIME_MS)
    (hrange : attr_range cfg attr = some (lo, hi)) :
    lo ≤ hi ∧
    ((to_uint32 val.val1 < lo ∨ hi < to_uint32 val.val1) →
      pmw3610_attr_set cfg dev sensor_channel.SENSOR_CHAN_ALL attr val = (-EINVAL, dev)) ∧
    ((∀ k, (dev.w.env k).err = 0) → lo ≤ to_uint32 val.val1 → to_uint32 val.val1 ≤ hi →
      (pmw3610_attr_set cfg dev sensor_channel.SENSOR_CHAN_ALL attr val).1 = 0) ∧
    ((∀ k, (dev.w.env k).err = 0) → to_uint32 val.val1 = lo ∨ to_uint32 val.val1 = hi →
      (pmw3610_attr_set cfg dev sensor_channel.SENSOR_CHAN_ALL attr val).1 = 0) := by
  obtain ⟨a1, a2⟩ := hR1
  obtain ⟨b1, b2⟩ := hR2
  have key : lo ≤ hi ∧
      ((to_uint32 val.val1 < lo ∨ hi < to_uint32 val.val1) →
        pmw3610_attr_set cfg dev sensor_channel.SENSOR_CHAN_ALL attr val = (-EINVAL, dev)) ∧
      ((∀ k, (dev.w.env k).err = 0) → lo ≤ to_uint32 val.val1 → to_uint32 val.val1 ≤ hi →
        (pmw3610_attr_set cfg dev sensor_channel.SENSOR_CHAN_ALL attr val).1 = 0) := by
    cases attr with
    | PMW3610_ATTR_CPI =>
      simp only [attr_range, Option.some.injEq, Prod.mk.injEq] at hrange
      obtain ⟨rfl, rfl⟩ := hrange
      have h := set_cpi_range (to_uint32 val.val1) dev.w
      refine ⟨by decide, fun ho => ?_, fun hk h1 h2 => ?_⟩
      · simp [pmw3610_attr_set, hready, PMW3610_SVALUE_TO_CPI, h.1 ho]
      · simp [pmw3610_attr_set, hready, PMW3610_SVALUE_TO_CPI, h.2 hk h1 h2]
    | PMW3610_ATTR_RUN_DOWNSHIFT_TIME =>
      simp only [attr_range, Option.some.injEq, Prod.mk.injEq] at hrange
      obtain ⟨rfl, rfl⟩ := hrange
      have h := set_downshift_time_range cfg PMW3610_REG_RUN_DOWNSHIFT (to_uint32 val.val1)
        8160 32 dev.w (by simp [downshift_bounds])
      refine ⟨by decide, fun ho => ?_, fun hk h1 h2 => ?_⟩
      · simp [pmw3610_attr_set, hready, PMW3610_SVALUE_TO_TIME, h.1 ho]
      · simp [pmw3610_attr_set, hready, PMW3610_SVALUE_TO_TIME, h.2 hk h1 h2]
    | PMW3610_ATTR_REST1_DOWNSHIFT_TIME =>
      simp only [attr_range, Option.some.injEq, Prod.mk.injEq] at hrange
      obtain ⟨rfl, rfl⟩ := hrange
      have h := set_downshift_time_range cfg PMW3610_REG_REST1_DOWNSHIFT (to_uint32 val.val1)
        (255 * 16 * cfg.CONFIG_PMW3610_REST1_SAMPLE_TIME_MS)
        (16 * cfg.CONFIG_PMW3610_REST1_SAMPLE_TIME_MS) dev.w (by
          simp only [downshift_bounds, PMW3610_REG_REST1_DOWNSHIFT, PMW3610_REG_RUN_DOWNSHIFT,
            Nat.reduceEqDiff, if_false, if_true, Option.some.injEq, Prod.mk.injEq]
          omega)
      refine ⟨by omega, fun ho => ?_, fun hk h1 h2 => ?_⟩
      · simp [pmw3610_attr_set, hready, PMW3610_SVALUE_TO_TIME, h.1 ho]
      · simp [pmw3610_attr_set, hready, PMW3610_SVALUE_TO_TIME, h.2 hk h1 h2]
    | PMW3610_ATTR_REST2_DOWNSHIFT_TIME =>
      simp only [attr_range, Option.some.injEq, Prod.mk.injEq] at hrange
      obtain ⟨rfl, rfl⟩ := hrange
      have h := set_downshift_time_range cfg PMW3610_REG_REST2_DOWNSHIFT (to_uint32 val.val1)
        (255 * 128 * cfg.CONFIG_PMW3610_REST2_SAMPLE_TIME_MS)
        (128 * cfg.CONFIG_PMW3610_REST2_SAMPLE_TIME_MS) dev.w (by
          simp only [downshift_bounds, PMW3610_REG_REST2_DOWNSHIFT, PMW3610_REG_REST1_DOWNSHIFT,
            PMW3610_REG_RUN_DOWNSHIFT, Nat.reduceEqDiff, if_false, if_true, Option.some.injEq,
            Prod.mk.injEq]
          omega)
      refine ⟨by omega, fun ho => ?_, fun hk h1 h2 => ?_⟩
      · simp [pmw3610_attr_set, hready, PMW3610_SVALUE_TO_TIME, h.1 ho]
      · simp [pmw3610_attr_set, hready, PMW3610_SVALUE_TO_TIME, h.2 hk h1 h2]
    | PMW3610_ATTR_REST1_SAMPLE_TIME =>
      simp only [attr_range, Option.some.injEq, Prod.mk.injEq] at hrange
      obtain ⟨rfl, rfl⟩ := hrange
      have h := set_sample_time_range PMW3610_REG_REST1_PERIOD (to_uint32 val.val1) dev.w
      refine ⟨by decide, fun ho => ?_, fun hk h1 h2 => ?_⟩
      · simp [pmw3610_attr_set, hready, PMW3610_SVALUE_TO_TIME, h.1 ho]
      · simp [pmw3610_attr_set, hready, PMW3610_SVALUE_TO_TIME, h.2 hk h1 h2]
    | PMW3610_ATTR_REST2_SAMPLE_TIME =>
      simp only [attr_range, Option.some.injEq, Prod.mk.injEq] at hrange
      obtain ⟨rfl, rfl⟩ := hrange
      have h := set_sample_time_range PMW3610_REG_REST2_PERIOD (to_uint32 val.val1) dev.w
      refine ⟨by decide, fun ho => ?_, fun hk h1 h2 => ?_⟩
      · simp [pmw3610_attr_set, hready, PMW3610_SVALUE_TO_TIME, h.1 ho]
      · simp [pmw3610_attr_set, hready, PMW3610_SVALUE_TO_TIME, h.2 hk h1 h2]
    | PMW3610_ATTR_REST3_SAMPLE_TIME =>
      simp only [attr_range, Option.some.injEq, Prod.mk.injEq] at hrange
      obtain ⟨rfl, rfl⟩ := hrange
      have h := set_sample_time_range PMW3610_REG_REST3_PERIOD (to_uint32 val.val1) dev.w
      refine ⟨by decide, fun ho => ?_, fun hk h1 h2 => ?_⟩
      · simp [pmw3610_attr_set, hready, PMW3610_SVALUE_TO_TIME, h.1 ho]
      · simp [pmw3610_attr_set, hready, PMW3610_SVALUE_TO_TIME, h.2 hk h1 h2]
    | other n => simp [attr_range] at hrange
  refine ⟨key.1, key.2.1, key.2.2, fun hk hb => ?_⟩
  rcases hb with hb | hb
  · exact key.2.2 hk (by omega) (by have := key.1; omega)
  · exact key.2.2 hk (by have := key.1; omega) (by omega)

/-- Witness for C4 on the rest1 downshift time with `R1 = 40`: the range is
`[640, 163200]`; 639 is rejected and 640 accepted. -/
theorem C4_attr_set_range_witness :
    pmw3610_attr_set sample_cfg (ready_dev (good_env [])) sensor_channel.SENSOR_CHAN_ALL
      pmw3610_attribute.PMW3610_ATTR_REST1_DOWNSHIFT_TIME { val1 := 639, val2 := 0 } =
        (-EINVAL, ready_dev (good_env [])) ∧
    (pmw3610_attr_set sample_cfg (ready_dev (good_env [])) sensor_channel.SENSOR_CHAN_ALL
      pmw3610_attribute.PMW3610_ATTR_REST1_DOWNSHIFT_TIME { val1 := 640, val2 := 0 }).1 = 0 :=
  ⟨(C4_attr_set_range sample_cfg (ready_dev (good_env []))
      pmw3610_attribute.PMW3610_ATTR_REST1_DOWNSHIFT_TIME { val1 := 639, val2 := 0 } 640 163200
      rfl ⟨by decide, by decide⟩ ⟨by decide, by decide⟩ rfl).2.1 (Or.inl (by decide)),
   (C4_attr_set_range sample_cfg (ready_dev (good_env []))
      pmw3610_attribute.PMW3610_ATTR_REST1_DOWNSHIFT_TIME { val1 := 640, val2 := 0 } 640 163200
      rfl ⟨by decide, by decide⟩ ⟨by decide, by decide⟩ rfl).2.2.2 (fun _ => rfl)
      (Or.inl (by decide))⟩

/-! ## What the register transport leaves alone -/

@[simp] theorem k_busy_wait_halted (us : Nat) (w : World) :
    (k_busy_wait us w).halted = w.halted := rfl
@[simp] theorem k_busy_wait_irq_mode (us : Nat) (w : World) :
    (k_busy_wait us w).irq_mode = w.irq_mode := rfl
theorem k_busy_wait_trace (us : Nat) (w : World) :
    (k_busy_wait us w).trace = w.trace ++ [Event.k_busy_wait us] := rfl

@[simp] theorem assert_halted (c : Bool) (w : World) :
    (__ASSERT_NO_MSG c w).halted = w.halted := by
  cases c <;> rfl
@[simp] theorem assert_irq_mode (c : Bool) (w : World) :
    (__ASSERT_NO_MSG c w).irq_mode = w.irq_mode := by
  cases c <;> rfl
theorem assert_filter (p : Event → Bool) (hp : ∀ e, is_transport e = true → p e = false)
    (c : Bool) (w : World) : (__ASSERT_NO_MSG c w).trace.filter p = w.trace.filter p := by
  cases c
  · simp [__ASSERT_NO_MSG, World.emit, hp _ (rfl : is_transport Event.assert_failed = true)]
  · rfl

@[simp] theorem spi_cs_ctrl_halted (e : Bool) (w : World) :
    (spi_cs_ctrl e w).2.halted = w.halted := by
  cases e <;> rfl
@[simp] theorem spi_cs_ctrl_irq_mode (e : Bool) (w : World) :
    (spi_cs_ctrl e w).2.irq_mode = w.irq_mode := by
  cases e <;> rfl
theorem spi_cs_ctrl_filter (p : Event → Bool) (hp : ∀ e, is_transport e = true → p e = false)
    (e : Bool) (w : World) : (spi_cs_ctrl e w).2.trace.filter p = w.trace.filter p := by
  cases e <;>
    simp [spi_cs_ctrl, gpio_pin_set_dt_cs, k_busy_wait, World.emit, List.filter_cons,
      hp _ (rfl : is_transport (Event.k_busy_wait _) = true),
      hp _ (rfl : is_transport (Event.gpio_pin_set_cs _ _) = true)]

@[simp] theorem spi_write_dt_halted (tx : List Nat) (w : World) :
    (spi_write_dt tx w).2.halted = w.halted := rfl
@[simp] theorem spi_write_dt_irq_mode (tx : List Nat) (w : World) :
    (spi_write_dt tx w).2.irq_mode = w.irq_mode := rfl
theorem spi_write_dt_filter (p : Event → Bool) (hp : ∀ e, is_transport e = true → p e = false)
    (tx : List Nat) (w : World) : (spi_write_dt tx w).2.trace.filter p = w.trace.filter p := by
  simp [spi_write_dt, hp _ (rfl : is_transport (Event.spi_write _ _) = true)]

@[simp] theorem spi_read_dt_halted (b : Nat → Nat) (n : Nat) (w : World) :
    (spi_read_dt b n w).2.2.halted = w.halted := rfl
@[simp] theorem spi_read_dt_irq_mode (b : Nat → Nat) (n : Nat) (w : World) :
    (spi_read_dt b n w).2.2.irq_mode = w.irq_mode := rfl
theorem spi_read_dt_filter (p : Event → Bool) (hp : ∀ e, is_transport e = true → p e = false)
    (b : Nat → Nat) (n : Nat) (w : World) :
    (spi_read_dt b n w).2.2.trace.filter p = w.trace.filter p := by
  simp [spi_read_dt, hp _ (rfl : is_transport (Event.spi_read _ _) = true)]

theorem k_busy_wait_filter (p : Event → Bool) (hp : ∀ e, is_transport e = true → p e = false)
    (us : Nat) (w : World) : (k_busy_wait us w).trace.filter p = w.trace.filter p := by
  simp [k_busy_wait_trace, hp _ (rfl : is_transport (Event.k_busy_wait _) = true)]

@[simp] theorem reg_read_halted (reg buf : Nat) (w : World) :
    (reg_read reg buf w).2.2.halted = w.halted := by
  unfold reg_read
  simp only []
  split_ifs <;> simp

@[simp] theorem reg_read_irq_mode (reg buf : Nat) (w : World) :
    (reg_read reg buf w).2.2.irq_mode = w.irq_mode := by
  unfold reg_read
  simp only []
  split_ifs <;> simp

theorem reg_read_filter (p : Event → Bool)
    (hp : ∀ e, is_transport e = true → p e = false) (reg buf : Nat) (w : World) :
    (reg_read reg buf w).2.2.trace.filter p = w.trace.filter p := by
  unfold reg_read
  simp only []
  split_ifs <;>
    simp [assert_filter p hp, spi_cs_ctrl_filter p hp, spi_write_dt_filter p hp,
      spi_read_dt_filter p hp, k_busy_wait_filter p hp]

@[simp] theorem _reg_write_halted (reg val : Nat) (w : World) :
    (_reg_write reg val w).2.halted = w.halted := by
  unfold _reg_write
  simp only []
  split_ifs <;> simp

@[simp] theorem _reg_write_irq_mode (reg val : Nat) (w : World) :
    (_reg_write reg val w).2.irq_mode = w.irq_mode := by
  unfold _reg_write
  simp only []
  split_ifs <;> simp

theorem _reg_write_filter (p : Event → Bool)
    (hp : ∀ e, is_transport e = true → p e = false) (reg val : Nat) (w : World) :
    (_reg_write reg val w).2.trace.filter p = w.trace.filter p := by
  unfold _reg_write
  simp only []
  split_ifs <;>
    simp [assert_filter p hp, spi_cs_ctrl_filter p hp, spi_write_dt_filter p hp,
      spi_read_dt_filter p hp, k_busy_wait_filter p hp]

@[simp] theorem reg_write_halted (reg val : Nat) (w : World) :
    (reg_write reg val w).2.halted = w.halted := by
  unfold reg_write
  simp only []
  split_ifs <;> simp

@[simp] theorem reg_write_irq_mode (reg val : Nat) (w : World) :
    (reg_write reg val w).2.irq_mode = w.irq_mode := by
  unfold reg_write
  simp only []
  split_ifs <;> simp

theorem reg_write_filter (p : Event → Bool)
    (hp : ∀ e, is_transport e = true → p e = false) (reg val : Nat) (w : World) :
    (reg_write reg val w).2.trace.filter p = w.trace.filter p := by
  unfold reg_write
  simp only []
  split_ifs <;>
    simp [assert_filter p hp, spi_cs_ctrl_filter p hp, spi_write_dt_filter p hp,
      spi_read_dt_filter p hp, k_busy_wait_filter p hp, _reg_write_filter p hp]

@[simp] theorem motion_burst_read_halted (b : Nat → Nat) (n : Nat) (w : World) :
    (motion_burst_read b n w).2.2.halted = w.halted := by
  unfold motion_burst_read
  simp only []
  split_ifs <;> simp

@[simp] theorem motion_burst_read_irq_mode (b : Nat → Nat) (n : Nat) (w : World) :
    (motion_burst_read b n w).2.2.irq_mode = w.irq_mode := by
  unfold motion_burst_read
  simp only []
  split_ifs <;> simp

theorem motion_burst_read_filter (p : Event → Bool)
    (hp : ∀ e, is_transport e = true → p e = false) (b : Nat → Nat) (n : Nat) (w : World) :
    (motion_burst_read b n w).2.2.trace.filter p = w.trace.filter p := by
  unfold motion_burst_read
  simp only []
  split_ifs <;>
    simp [assert_filter p hp, spi_cs_ctrl_filter p hp, spi_write_dt_filter p hp,
      spi_read_dt_filter p hp, k_busy_wait_filter p hp]

@[simp] theorem burst_write_loop_halted (addr buf : List Nat) (n i : Nat) (w : World) :
    (burst_write_loop addr buf n i w).2.halted = w.halted := by
  induction n generalizing i w with
  | zero => rfl
  | succ n ih =>
    simp only [burst_write_loop]
    split_ifs
    · simp
    · rw [ih]; simp

@[simp] theorem burst_write_loop_irq_mode (addr buf : List Nat) (n i : Nat) (w : World) :
    (burst_write_loop addr buf n i w).2.irq_mode = w.irq_mode := by
  induction n generalizing i w with
  | zero => rfl
  | succ n ih =>
    simp only [burst_write_loop]
    split_ifs
    · simp
    · rw [ih]; simp

theorem burst_write_loop_filter (p : Event → Bool)
    (hp : ∀ e, is_transport e = true → p e = false) (addr buf : List Nat) (n i : Nat) (w : World) :
    (burst_write_loop addr buf n i w).2.trace.filter p = w.trace.filter p := by
  induction n generalizing i w with
  | zero => rfl
  | succ n ih =>
    simp only [burst_write_loop]
    split_ifs
    · simp [_reg_write_filter p hp]
    · rw [ih]; simp [_reg_write_filter p hp]

@[simp] theorem burst_write_halted (addr buf : List Nat) (n : Nat) (w : World) :
    (burst_write addr buf n w).2.halted = w.halted := by
  unfold burst_write
  simp only []
  split_ifs <;> simp

@[simp] theorem burst_write_irq_mode (addr buf : List Nat) (n : Nat) (w : World) :
    (burst_write addr buf n w).2.irq_mode = w.irq_mode := by
  unfold burst_write
  simp only []
  split_ifs <;> simp

theorem burst_write_filter (p : Event → Bool)
    (hp : ∀ e, is_transport e = true → p e = false) (addr buf : List Nat) (n : Nat) (w : World) :
    (burst_write addr buf n w).2.trace.filter p = w.trace.filter p := by
  unfold burst_write
  simp only []
  split_ifs <;>
    simp [assert_filter p hp, spi_cs_ctrl_filter p hp, spi_write_dt_filter p hp,
      spi_read_dt_filter p hp, k_busy_wait_filter p hp, _reg_write_filter p hp, burst_write_loop_filter p hp]

@[simp] theorem set_cpi_halted (cpi : Nat) (w : World) :
    (set_cpi cpi w).2.halted = w.halted := by
  unfold set_cpi
  simp only []
  split_ifs <;> simp

@[simp] theorem set_cpi_irq_mode (cpi : Nat) (w : World) :
    (set_cpi cpi w).2.irq_mode = w.irq_mode := by
  unfold set_cpi
  simp only []
  split_ifs <;> simp

theorem set_cpi_filter (p : Event → Bool)
    (hp : ∀ e, is_transport e = true → p e = false) (cpi : Nat) (w : World) :
    (set_cpi cpi w).2.trace.filter p = w.trace.filter p := by
  unfold set_cpi
  simp only []
  split_ifs <;>
    simp [assert_filter p hp, spi_cs_ctrl_filter p hp, spi_write_dt_filter p hp,
      spi_read_dt_filter p hp, k_busy_wait_filter p hp, burst_write_filter p hp]

@[simp] theorem set_sample_time_halted (reg t : Nat) (w : World) :
    (set_sample_time reg t w).2.halted = w.halted := by
  unfold set_sample_time
  simp only []
  split_ifs <;> simp

@[simp] theorem set_sample_time_irq_mode (reg t : Nat) (w : World) :
    (set_sample_time reg t w).2.irq_mode = w.irq_mode := by
  unfold set_sample_time
  simp only []
  split_ifs <;> simp

theorem set_sample_time_filter (p : Event → Bool)
    (hp : ∀ e, is_transport e = true → p e = false) (reg t : Nat) (w : World) :
    (set_sample_time reg t w).2.trace.filter p = w.trace.filter p := by
  unfold set_sample_time
  simp only []
  split_ifs <;>
    simp [assert_filter p hp, spi_cs_ctrl_filter p hp, spi_write_dt_filter p hp,
      spi_read_dt_filter p hp, k_busy_wait_filter p hp, reg_write_filter p hp]

@[simp] theorem set_downshift_time_halted (cfg : Kconfig) (reg t : Nat) (w : World) :
    (set_downshift_time cfg reg t w).2.halted = w.halted := by
  unfold set_downshift_time
  split
  · rfl
  · simp only []
    split_ifs <;> simp

@[simp] theorem set_downshift_time_irq_mode (cfg : Kconfig) (reg t : Nat) (w : World) :
    (set_downshift_time cfg reg t w).2.irq_mode = w.irq_mode := by
  unfold set_downshift_time
  split
  · rfl
  · simp only []
    split_ifs <;> simp

theorem set_downshift_time_filter (p : Event → Bool)
    (hp : ∀ e, is_transport e = true → p e = false) (cfg : Kconfig) (reg t : Nat) (w : World) :
    (set_downshift_time cfg reg t w).2.trace.filter p = w.trace.filter p := by
  unfold set_downshift_time
  split
  · rfl
  · simp only []
    split_ifs <;> simp [assert_filter p hp, reg_write_filter p hp]

/-! ## The init state machine (C6, C7) -/

/-- The table `async_init_fn` has an entry exactly for the steps below
`ASYNC_INIT_STEP_COUNT`. -/
theorem async_init_fn_isSome (step : Nat) :
    (async_init_fn step).isSome = true ↔ step < ASYNC_INIT_STEP_COUNT := by
  unfold async_init_fn ASYNC_INIT_STEP_COUNT
  rcases step with _ | _ | _ | _ | _ | n <;> simp

/-- An invocation of `pmw3610_async_init` is defined exactly below the terminal
step. -/
theorem async_init_isSome (cfg : Kconfig) (dev : Dev) :
    (pmw3610_async_init cfg dev).isSome = true ↔
      dev.data.async_init_step < ASYNC_INIT_STEP_COUNT := by
  rw [← async_init_fn_isSome]
  unfold pmw3610_async_init
  cases h : async_init_fn dev.data.async_init_step with
  | none => simp
  | some fn =>
    simp only [Option.isSome_some, iff_true]
    split_ifs <;> rfl

/-- What one invocation of `pmw3610_async_init` does to the driver data: on a
failing step only `err` changes; on a succeeding step the step counter advances
by one and `ready` is set exactly when the counter reaches the terminal value. -/
theorem async_init_data (cfg : Kconfig) (dev dev' : Dev)
    (h : pmw3610_async_init cfg dev = some dev') :
    (dev'.data = { dev.data with err := dev'.data.err } ∧ dev'.data.err ≠ 0) ∨
    (dev'.data.err = 0 ∧ dev'.data.async_init_step = dev.data.async_init_step + 1 ∧
      dev'.data.ready = (if dev.data.async_init_step + 1 = ASYNC_INIT_STEP_COUNT then true
        else dev.data.ready)) := by
  unfold pmw3610_async_init at h
  cases hf : async_init_fn dev.data.async_init_step with
  | none => simp [hf] at h
  | some fn =>
    simp only [hf] at h
    split_ifs at h with h1 h2
    · left
      simp only [Option.some.injEq] at h
      subst h
      exact ⟨rfl, h1⟩
    · right
      simp only [Option.some.injEq] at h
      subst h
      simp only [ne_eq, not_not] at h1
      simp only [] at h2
      simp [h1, h2]
    · right
      simp only [Option.some.injEq] at h
      subst h
      simp only [ne_eq, not_not] at h1
      simp only [] at h2
      simp [h1, h2]

/-- In every reachable state of the init state machine `ready` holds exactly at
the terminal step, and the step never exceeds it. -/
theorem init_reachable_inv (cfg : Kconfig) (dev : Dev) (h : InitReachable cfg dev) :
    (dev.data.ready = true ↔ dev.data.async_init_step = ASYNC_INIT_STEP_COUNT) ∧
    dev.data.async_init_step ≤ ASYNC_INIT_STEP_COUNT := by
  induction h with
  | start dev hs hr =>
    simp [hs, hr, ASYNC_INIT_STEP_POWER_UP, ASYNC_INIT_STEP_COUNT]
  | invoke dev w dev' _ hi ih =>
    have hsome : (pmw3610_async_init cfg { dev with w := w }).isSome = true := by simp [hi]
    have hlt := (async_init_isSome cfg _).1 hsome
    simp only [] at hlt
    rcases async_init_data cfg _ dev' hi with ⟨hd, _⟩ | ⟨_, hs, hr⟩
    · rw [hd]
      simp only []
      exact ih
    · simp only [] at hs hr
      rw [hs, hr]
      unfold ASYNC_INIT_STEP_COUNT at hlt ih ⊢
      by_cases h4 : dev.data.async_init_step + 1 = 4
      · simp [h4]
      · simp only [h4, if_false]
        refine ⟨⟨fun hrt => ?_, fun h => h.elim⟩, by omega⟩
        have := ih.1.1 hrt
        omega

/-- C6: in every state reachable from a start state (step PowerUp, `ready`
false) by `pmw3610_async_init` invocations with arbitrary bus outcomes, `ready`
is true if and only if `async_init_step` is `ASYNC_INIT_STEP_COUNT`; an
invocation is defined exactly while the step is below that value, and each
invocation leaves the step unchanged or advances it by exactly one, never
decreases it, and never turns `ready` from true to false. -/
theorem C6_init_state_machine (cfg : Kconfig) (dev : Dev) (h : InitReachable cfg dev) :
    (dev.data.ready = true ↔ dev.data.async_init_step = ASYNC_INIT_STEP_COUNT) ∧
    dev.data.async_init_step ≤ ASYNC_INIT_STEP_COUNT ∧
    (∀ w : World, (pmw3610_async_init cfg { dev with w := w }).isSome = true ↔
      dev.data.async_init_step < ASYNC_INIT_STEP_COUNT) ∧
    (∀ (w : World) (dev' : Dev), pmw3610_async_init cfg { dev with w := w } = some dev' →
      (dev'.data.async_init_step = dev.data.async_init_step ∨
        dev'.data.async_init_step = dev.data.async_init_step + 1) ∧
      dev.data.async_init_step ≤ dev'.data.async_init_step ∧
      (dev.data.ready = true → dev'.data.ready = true) ∧
      (dev'.data.ready = true ↔ dev'.data.async_init_step = ASYNC_INIT_STEP_COUNT)) := by
  have hinv := init_reachable_inv cfg dev h
  refine ⟨hinv.1, hinv.2, fun w => async_init_isSome cfg _, fun w dev' hi => ?_⟩
  have hinv' := init_reachable_inv cfg dev' (InitReachable.invoke dev w dev' h hi)
  rcases async_init_data cfg _ dev' hi with ⟨hd, _⟩ | ⟨_, hs, hr⟩
  · have e1 : dev'.data.async_init_step = dev.data.async_init_step := by
      have := congrArg pixart_data.async_init_step hd
      simpa using this
    have e2 : dev'.data.ready = dev.data.ready := by
      have := congrArg pixart_data.ready hd
      simpa using this
    exact ⟨Or.inl e1, by omega, fun h => by rw [e2]; exact h, hinv'.1⟩
  · simp only [] at hs hr
    refine ⟨Or.inr hs, by omega, fun hrt => ?_, hinv'.1⟩
    rw [hr]
    split_ifs
    · rfl
    · exact hrt

/-- No transport event is a scheduling of the init work. -/
theorem transport_not_schedule (e : Event) (h : is_transport e = true) : is_schedule e = false := by
  cases e <;> simp_all [is_transport, is_schedule]

/-- No transport event is a callback invocation. -/
theorem transport_not_handler_call (e : Event) (h : is_transport e = true) :
    is_handler_call e = false := by
  cases e <;> simp_all [is_transport, is_handler_call]

/-- A successful `reg_read` returns the byte the bus delivered on the read call,
the third hardware call of the transaction. -/
theorem reg_read_value (reg buf : Nat) (w : World) (h : (reg_read reg buf w).1 = 0) :
    (reg_read reg buf w).2.1 = (w.env (w.ops + 2)).data 0 % 256 := by
  unfold reg_read at h ⊢
  simp only [] at h ⊢
  split_ifs at h ⊢ <;> simp_all

/-- The CheckSelfTest step returns the error of the register read, `-EINVAL`
when the read succeeded with a low nibble other than `0xF`, and zero otherwise;
its world is the one the read leaves. -/
theorem check_ob1_result (cfg : Kconfig) (w : World) :
    (pmw3610_async_init_check_ob1 cfg w).2 = (reg_read PMW3610_REG_OBSERVATION 0 w).2.2 ∧
    (pmw3610_async_init_check_ob1 cfg w).1 =
      (if (reg_read PMW3610_REG_OBSERVATION 0 w).1 ≠ 0 then
        (reg_read PMW3610_REG_OBSERVATION 0 w).1
      else if (reg_read PMW3610_REG_OBSERVATION 0 w).2.1 &&& 0x0F ≠ 0x0F then -EINVAL
      else 0) := by
  unfold pmw3610_async_init_check_ob1
  simp only []
  split_ifs <;> simp

/-- An invocation of `pmw3610_async_init` at the CheckSelfTest step whose step
function fails records the error and changes nothing else in the driver data;
its world is the one the step function leaves. -/
theorem async_init_check_fails (cfg : Kconfig) (dev : Dev)
    (hstep : dev.data.async_init_step = ASYNC_INIT_STEP_CHECK_OB1)
    (hfail : (pmw3610_async_init_check_ob1 cfg dev.w).1 ≠ 0) :
    pmw3610_async_init cfg dev =
      some { data := { dev.data with err := (pmw3610_async_init_check_ob1 cfg dev.w).1 }
             w := (pmw3610_async_init_check_ob1 cfg dev.w).2 } := by
  unfold pmw3610_async_init
  simp only [hstep, ASYNC_INIT_STEP_CHECK_OB1, async_init_fn, List.get?_cons_succ,
    List.get?_cons_zero]
  rw [if_pos hfail]

/-- C7: the CheckSelfTest step succeeds if and only if the read of the
observation register (`0x2D`) succeeds and the byte read has low nibble `0xF`.
When the read succeeds with any other byte, the init work stores `-EINVAL` as
the last error, leaves `async_init_step` at CheckSelfTest and `ready` false, and
schedules no init work; the same holds, with the bus error as last error, when
the read itself fails. -/
theorem C7_check_self_test (cfg : Kconfig) (dev : Dev)
    (hstep : dev.data.async_init_step = ASYNC_INIT_STEP_CHECK_OB1)
    (hready : dev.data.ready = false) :
    ((pmw3610_async_init_check_ob1 cfg dev.w).1 = 0 ↔
      ((reg_read PMW3610_REG_OBSERVATION 0 dev.w).1 = 0 ∧
       (reg_read PMW3610_REG_OBSERVATION 0 dev.w).2.1 &&& 0x0F = 0x0F)) ∧
    ((reg_read PMW3610_REG_OBSERVATION 0 dev.w).1 = 0 →
      (reg_read PMW3610_REG_OBSERVATION 0 dev.w).2.1 =
        (dev.w.env (dev.w.ops + 2)).data 0 % 256) ∧
    ((reg_read PMW3610_REG_OBSERVATION 0 dev.w).1 = 0 →
      (reg_read PMW3610_REG_OBSERVATION 0 dev.w).2.1 &&& 0x0F ≠ 0x0F →
      (pmw3610_async_init_check_ob1 cfg dev.w).1 = -EINVAL) ∧
    ((pmw3610_async_init_check_ob1 cfg dev.w).1 ≠ 0 →
      ∃ dev', pmw3610_async_init cfg dev = some dev' ∧
        dev'.data.err = (pmw3610_async_init_check_ob1 cfg dev.w).1 ∧
        dev'.data.err ≠ 0 ∧
        dev'.data.async_init_step = ASYNC_INIT_STEP_CHECK_OB1 ∧
        dev'.data.ready = false ∧
        scheduled dev'.w.trace = scheduled dev.w.trace) := by
  obtain ⟨hw, hr⟩ := check_ob1_result cfg dev.w
  refine ⟨?_, reg_read_value _ _ _, ?_, ?_⟩
  · rw [hr]
    constructor
    · intro h
      split_ifs at h with h1 h2
      · exact absurd h h1
      · simp [EINVAL] at h
      · exact ⟨by simpa using h1, by simpa using h2⟩
    · rintro ⟨h1, h2⟩
      simp [h1, h2]
  · intro h1 h2
    rw [hr]
    simp [h1, h2]
  · intro hfail
    refine ⟨_, async_init_check_fails cfg dev hstep hfail, rfl, hfail, hstep, hready, ?_⟩
    simp only [hw, scheduled]
    exact reg_read_filter is_schedule transport_not_schedule _ _ _

/-- Witness for C7: hardware whose observation register reads back `0x07`. -/
theorem C7_check_self_test_witness :
    (pmw3610_async_init_check_ob1 sample_cfg (fresh_world (good_env [0x07]))).1 = -EINVAL :=
  (C7_check_self_test sample_cfg
    { data := { zero_data with async_init_step := ASYNC_INIT_STEP_CHECK_OB1 }
      w := fresh_world (good_env [0x07]) } rfl rfl).2.2.1 (by decide) (by decide)

/-! ## The successful init sequence (C8) -/

@[simp] theorem k_work_schedule_init_env (d : Int) (w : World) :
    (k_work_schedule_init d w).env = w.env := rfl
@[simp] theorem k_work_schedule_init_ops (d : Int) (w : World) :
    (k_work_schedule_init d w).ops = w.ops := rfl

theorem _reg_write_ops (reg val : Nat) (w : World) (h : ∀ k, (w.env k).err = 0) :
    (_reg_write reg val w).2.ops = w.ops + 3 := by
  unfold _reg_write
  simp [h]

theorem reg_write_ops (reg val : Nat) (w : World) (h : ∀ k, (w.env k).err = 0) :
    (reg_write reg val w).2.ops = w.ops + 9 := by
  unfold reg_write
  simp [h, _reg_write_ok, _reg_write_ops]

/-- With a succeeding bus the PowerUp step returns zero after eleven hardware
calls. -/
theorem power_up_ok (cfg : Kconfig) (w : World) (h : ∀ k, (w.env k).err = 0) :
    (pmw3610_async_init_power_up cfg w).1 = 0 ∧
    (pmw3610_async_init_power_up cfg w).2.env = w.env ∧
    (pmw3610_async_init_power_up cfg w).2.ops = w.ops + 11 := by
  unfold pmw3610_async_init_power_up
  simp only []
  refine ⟨reg_write_ok _ _ _ (by simpa using h), by simp, ?_⟩
  rw [reg_write_ops _ _ _ (by simpa using h)]
  simp

/-- With a succeeding bus the ClearSelfTest step returns zero after nine
hardware calls. -/
theorem clear_ob1_ok (cfg : Kconfig) (w : World) (h : ∀ k, (w.env k).err = 0) :
    (pmw3610_async_init_clear_ob1 cfg w).1 = 0 ∧
    (pmw3610_async_init_clear_ob1 cfg w).2.env = w.env ∧
    (pmw3610_async_init_clear_ob1 cfg w).2.ops = w.ops + 9 := by
  unfold pmw3610_async_init_clear_ob1
  exact ⟨reg_write_ok _ _ _ h, by simp, reg_write_ops _ _ _ h⟩

/-- With a succeeding bus that delivers a byte of low nibble `0xF` on the read
call, the CheckSelfTest step returns zero. -/
theorem check_ob1_ok (cfg : Kconfig) (w : World) (h : ∀ k, (w.env k).err = 0)
    (hob : (w.env (w.ops + 2)).data 0 % 256 &&& 0x0F = 0x0F) :
    (pmw3610_async_init_check_ob1 cfg w).1 = 0 ∧
    (pmw3610_async_init_check_ob1 cfg w).2.env = w.env := by
  obtain ⟨hw, hr⟩ := check_ob1_result cfg w
  have h1 := reg_read_ok PMW3610_REG_OBSERVATION 0 w h
  have h2 := reg_read_value PMW3610_REG_OBSERVATION 0 w h1
  refine ⟨?_, by rw [hw]; simp⟩
  rw [hr, h2]
  simp [h1, hob]

/-- A guarded call runs its function when the chain is at zero. -/
theorem if_no_err_run (r : Int × World) (f : World → Int × World) (h : r.1 = 0) :
    if_no_err r f = f r.2 := by
  simp [if_no_err, h]

/-- With a succeeding bus the register-clearing loop of Configure returns
zero. -/
theorem configure_clear_loop_ok (w : World) (h : ∀ k, (w.env k).err = 0) :
    (configure_clear_loop 4 0x02 0 w).1 = 0 ∧ (configure_clear_loop 4 0x02 0 w).2.env = w.env := by
  simp [configure_clear_loop, reg_read_ok, h]

/-- With a succeeding bus and configuration constants within their ranges the
Configure step returns zero. -/
theorem configure_ok (cfg : Kconfig) (w : World) (h : ∀ k, (w.env k).err = 0)
    (hcfg : config_in_range cfg) : (pmw3610_async_init_configure cfg w).1 = 0 := by
  obtain ⟨⟨c1, c2⟩, ⟨a1, a2⟩, ⟨b1, b2⟩, ⟨e1, e2⟩, ⟨f1, f2⟩, ⟨g1, g2⟩, ⟨i1, i2⟩⟩ := hcfg
  obtain ⟨l1, l2⟩ := configure_clear_loop_ok w h
  have m1 : ∀ w1 : World, w1.env = w.env →
      (set_cpi (cfg.CONFIG_PMW3610_CPI % 4294967296) w1).1 = 0 := fun w1 hw =>
    (set_cpi_range _ w1).2 (by rw [hw]; exact h) (by omega) (by omega)
  have m2 : ∀ w1 : World, w1.env = w.env →
      (reg_write PMW3610_REG_PERFORMANCE 0x0D w1).1 = 0 := fun w1 hw =>
    reg_write_ok _ _ _ (by rw [hw]; exact h)
  have m3 : ∀ (reg : Nat) (w1 : World), w1.env = w.env →
      (set_sample_time reg (cfg.CONFIG_PMW3610_REST1_SAMPLE_TIME_MS % 4294967296) w1).1 = 0 :=
    fun reg w1 hw => (set_sample_time_range _ _ w1).2 (by rw [hw]; exact h) (by omega) (by omega)
  have m4 : ∀ (reg : Nat) (w1 : World), w1.env = w.env →
      (set_sample_time reg (cfg.CONFIG_PMW3610_REST2_SAMPLE_TIME_MS % 4294967296) w1).1 = 0 :=
    fun reg w1 hw => (set_sample_time_range _ _ w1).2 (by rw [hw]; exact h) (by omega) (by omega)
  have m5 : ∀ (reg : Nat) (w1 : World), w1.env = w.env →
      (set_sample_time reg (cfg.CONFIG_PMW3610_REST3_SAMPLE_TIME_MS % 4294967296) w1).1 = 0 :=
    fun reg w1 hw => (set_sample_time_range _ _ w1).2 (by rw [hw]; exact h) (by omega) (by omega)
  have m6 : ∀ w1 : World, w1.env = w.env →
      (set_downshift_time cfg PMW3610_REG_RUN_DOWNSHIFT
        (cfg.CONFIG_PMW3610_RUN_DOWNSHIFT_TIME_MS % 4294967296) w1).1 = 0 := fun w1 hw =>
    (set_downshift_time_range cfg _ _ 8160 32 w1 (by simp [downshift_bounds])).2
      (by rw [hw]; exact h) (by omega) (by omega)
  have m7 : ∀ w1 : World, w1.env = w.env →
      (set_downshift_time cfg PMW3610_REG_REST1_DOWNSHIFT
        (cfg.CONFIG_PMW3610_REST1_DOWNSHIFT_TIME_MS % 4294967296) w1).1 = 0 := fun w1 hw =>
    (set_downshift_time_range cfg _ _ (255 * 16 * cfg.CONFIG_PMW3610_REST1_SAMPLE_TIME_MS)
      (16 * cfg.CONFIG_PMW3610_REST1_SAMPLE_TIME_MS) w1 (by
        simp only [downshift_bounds, PMW3610_REG_REST1_DOWNSHIFT, PMW3610_REG_RUN_DOWNSHIFT,
          Nat.reduceEqDiff, if_false, if_true, Option.some.injEq, Prod.mk.injEq]
        omega)).2 (by rw [hw]; exact h) (by omega) (by omega)
  have m8 : ∀ w1 : World, w1.env = w.env →
      (set_downshift_time cfg PMW3610_REG_REST2_DOWNSHIFT
        (cfg.CONFIG_PMW3610_REST2_DOWNSHIFT_TIME_MS % 4294967296) w1).1 = 0 := fun w1 hw =>
    (set_downshift_time_range cfg _ _ (255 * 128 * cfg.CONFIG_PMW3610_REST2_SAMPLE_TIME_MS)
      (128 * cfg.CONFIG_PMW3610_REST2_SAMPLE_TIME_MS) w1 (by
        simp only [downshift_bounds, PMW3610_REG_REST2_DOWNSHIFT, PMW3610_REG_REST1_DOWNSHIFT,
          PMW3610_REG_RUN_DOWNSHIFT, Nat.reduceEqDiff, if_false, if_true, Option.some.injEq,
          Prod.mk.injEq]
        omega)).2 (by rw [hw]; exact h) (by omega) (by omega)
  unfold pmw3610_async_init_configure
  simp only []
  rw [if_no_err_run _ _ l1, if_no_err_run _ _ (m1 _ l2),
    if_no_err_run _ _ (m2 _ (by simp [l2])), if_no_err_run _ _ (m3 _ _ (by simp [l2])),
    if_no_err_run _ _ (m4 _ _ (by simp [l2])), if_no_err_run _ _ (m5 _ _ (by simp [l2])),
    if_no_err_run _ _ (m6 _ (by simp [l2])), if_no_err_run _ _ (m7 _ (by simp [l2]))]
  have m9 := m8 (set_downshift_time cfg PMW3610_REG_REST1_DOWNSHIFT
      (cfg.CONFIG_PMW3610_REST1_DOWNSHIFT_TIME_MS % 4294967296)
      (set_downshift_time cfg PMW3610_REG_RUN_DOWNSHIFT
        (cfg.CONFIG_PMW3610_RUN_DOWNSHIFT_TIME_MS % 4294967296)
        (set_sample_time PMW3610_REG_REST3_PERIOD
          (cfg.CONFIG_PMW3610_REST3_SAMPLE_TIME_MS % 4294967296)
          (set_sample_time PMW3610_REG_REST2_PERIOD
            (cfg.CONFIG_PMW3610_REST2_SAMPLE_TIME_MS % 4294967296)
            (set_sample_time PMW3610_REG_REST1_PERIOD
              (cfg.CONFIG_PMW3610_REST1_SAMPLE_TIME_MS % 4294967296)
              (reg_write PMW3610_REG_PERFORMANCE 0x0D
                (set_cpi (cfg.CONFIG_PMW3610_CPI % 4294967296)
                  (configure_clear_loop 4 0x02 0 w).2).2).2).2).2).2).2).2 (by simp [l2])
  simp [m9]

/-- C8: from a start state (step PowerUp, `ready` false), when every bus and pin
call succeeds, the observation register reads back with low nibble `0xF` (the
read is hardware call number 22 of the sequence, counted from 0) and the
configuration constants are within their ranges, four invocations of
`pmw3610_async_init` run PowerUp, ClearSelfTest, CheckSelfTest and Configure,
once each and in that order, each returning zero; `ready` is false after each of
the first three and true after the fourth, where the step is
`ASYNC_INIT_STEP_COUNT`. -/
theorem C8_init_sequence (cfg : Kconfig) (dev : Dev)
    (hstep : dev.data.async_init_step = ASYNC_INIT_STEP_POWER_UP)
    (hready : dev.data.ready = false)
    (hbus : ∀ k, (dev.w.env k).err = 0)
    (hob : (dev.w.env (dev.w.ops + 22)).data 0 % 256 &&& 0x0F = 0x0F)
    (hcfg : config_in_range cfg) :
    ∃ d1 d2 d3 d4 : Dev,
      pmw3610_async_init cfg dev = some d1 ∧
      pmw3610_async_init cfg d1 = some d2 ∧
      pmw3610_async_init cfg d2 = some d3 ∧
      pmw3610_async_init cfg d3 = some d4 ∧
      (pmw3610_async_init_power_up cfg dev.w).1 = 0 ∧
      d1.w = k_work_schedule_init 200 (pmw3610_async_init_power_up cfg dev.w).2 ∧
      (pmw3610_async_init_clear_ob1 cfg d1.w).1 = 0 ∧
      d2.w = k_work_schedule_init 50 (pmw3610_async_init_clear_ob1 cfg d1.w).2 ∧
      (pmw3610_async_init_check_ob1 cfg d2.w).1 = 0 ∧
      d3.w = k_work_schedule_init 0 (pmw3610_async_init_check_ob1 cfg d2.w).2 ∧
      (pmw3610_async_init_configure cfg d3.w).1 = 0 ∧
      d4.w = (pmw3610_async_init_configure cfg d3.w).2 ∧
      d1.data.async_init_step = ASYNC_INIT_STEP_CLEAR_OB1 ∧
      d2.data.async_init_step = ASYNC_INIT_STEP_CHECK_OB1 ∧
      d3.data.async_init_step = ASYNC_INIT_STEP_CONFIGURE ∧
      d4.data.async_init_step = ASYNC_INIT_STEP_COUNT ∧
      d1.data.ready = false ∧ d2.data.ready = false ∧ d3.data.ready = false ∧
      d4.data.ready = true := by
  obtain ⟨p1, p2, p3⟩ := power_up_ok cfg dev.w hbus
  have hb1 : ∀ k, ((k_work_schedule_init 200 (pmw3610_async_init_power_up cfg dev.w).2).env k).err
      = 0 := by
    intro k; simp [p2, hbus]
  obtain ⟨q1, q2, q3⟩ := clear_ob1_ok cfg _ hb1
  have hb2 : ∀ k, ((k_work_schedule_init 50 (pmw3610_async_init_clear_ob1 cfg
      (k_work_schedule_init 200 (pmw3610_async_init_power_up cfg dev.w).2)).2).env k).err = 0 := by
    intro k; simp [q2, p2, hbus]
  have ho2 : ((k_work_schedule_init 50 (pmw3610_async_init_clear_ob1 cfg
      (k_work_schedule_init 200 (pmw3610_async_init_power_up cfg dev.w).2)).2).env
      ((k_work_schedule_init 50 (pmw3610_async_init_clear_ob1 cfg
      (k_work_schedule_init 200 (pmw3610_async_init_power_up cfg dev.w).2)).2).ops + 2)).data 0
      % 256 &&& 0x0F = 0x0F := by
    simp only [k_work_schedule_init_env, k_work_schedule_init_ops, q2, q3, p2, p3]
    have e : dev.w.ops + 11 + 9 + 2 = dev.w.ops + 22 := by omega
    rw [e]
    exact hob
  obtain ⟨r1, r2⟩ := check_ob1_ok cfg _ hb2 ho2
  have hb3 : ∀ k, ((k_work_schedule_init 0 (pmw3610_async_init_check_ob1 cfg
      (k_work_schedule_init 50 (pmw3610_async_init_clear_ob1 cfg
      (k_work_schedule_init 200 (pmw3610_async_init_power_up cfg dev.w).2)).2)).2).env k).err
      = 0 := by
    intro k; simp [r2, q2, p2, hbus]
  have s1 := configure_ok cfg _ hb3 hcfg
  refine ⟨{ data := { dev.data with err := 0, async_init_step := 1 }
            w := k_work_schedule_init 200 (pmw3610_async_init_power_up cfg dev.w).2 },
          { data := { dev.data with err := 0, async_init_step := 2 }
            w := k_work_schedule_init 50 (pmw3610_async_init_clear_ob1 cfg
              (k_work_schedule_init 200 (pmw3610_async_init_power_up cfg dev.w).2)).2 },
          { data := { dev.data with err := 0, async_init_step := 3 }
            w := k_work_schedule_init 0 (pmw3610_async_init_check_ob1 cfg
              (k_work_schedule_init 50 (pmw3610_async_init_clear_ob1 cfg
              (k_work_schedule_init 200 (pmw3610_async_init_power_up cfg dev.w).2)).2)).2 },
          { data := { dev.data with err := 0, async_init_step := 4, ready := true }
            w := (pmw3610_async_init_configure cfg (k_work_schedule_init 0
              (pmw3610_async_init_check_ob1 cfg
              (k_work_schedule_init 50 (pmw3610_async_init_clear_ob1 cfg
              (k_work_schedule_init 200 (pmw3610_async_init_power_up cfg dev.w).2)).2)).2)).2 },
          ?_, ?_, ?_, ?_, p1, rfl, q1, rfl, r1, rfl, s1, rfl, rfl, rfl, rfl, rfl,
          hready, hready, hready, rfl⟩
  · simp [pmw3610_async_init, async_init_fn, hstep, ASYNC_INIT_STEP_POWER_UP,
      ASYNC_INIT_STEP_COUNT, async_init_delay, p1]
  · simp [pmw3610_async_init, async_init_fn, ASYNC_INIT_STEP_COUNT, async_init_delay, q1]
  · simp [pmw3610_async_init, async_init_fn, ASYNC_INIT_STEP_COUNT, async_init_delay, r1]
  · simp [pmw3610_async_init, async_init_fn, ASYNC_INIT_STEP_COUNT, async_init_delay, s1]

/-- Witness for C8: the sample configuration on hardware that always succeeds
and reads back `0x0F`. -/
theorem C8_init_sequence_witness :
    ∃ d1 d2 d3 d4 : Dev,
      pmw3610_async_init sample_cfg
        { data := zero_data, w := fresh_world (good_env [0x0F]) } = some d1 ∧
      pmw3610_async_init sample_cfg d1 = some d2 ∧
      pmw3610_async_init sample_cfg d2 = some d3 ∧
      pmw3610_async_init sample_cfg d3 = some d4 ∧
      d3.data.ready = false ∧ d4.data.ready = true := by
  obtain ⟨d1, d2, d3, d4, h1, h2, h3, h4, _, _, _, _, _, _, _, _, _, _, _, _, _, _, h5, h6⟩ :=
    C8_init_sequence sample_cfg { data := zero_data, w := fresh_world (good_env [0x0F]) }
      rfl rfl (fun _ => rfl) (by decide)
      (by simp [config_in_range, valid_sample_time, sample_cfg])
  exact ⟨d1, d2, d3, d4, h1, h2, h3, h4, h5, h6⟩

/-- The function `set_sample_time` returns zero only for a sample time within
`[10, 2550]`. -/
theorem set_sample_time_zero_valid (reg t : Nat) (w : World)
    (h : (set_sample_time reg t w).1 = 0) : valid_sample_time t := by
  unfold valid_sample_time
  by_contra hv
  have hb := (set_sample_time_range reg t w).1 (by omega)
  rw [hb] at h
  simp [EINVAL] at h

/-- One link of the error chain of `pmw3610_async_init_configure`: the chain is
at zero after a guarded call only if it was before and the call returned zero. -/
theorem chain_link (r : Int × World) (f : World → Int × World)
    (h : (if_no_err r f).1 = 0) : r.1 = 0 ∧ (f r.2).1 = 0 := by
  unfold if_no_err at h
  split_ifs at h with h1
  · exact ⟨h1, h⟩
  · exact absurd h h1

/-- The Configure step returns zero only if the configured rest1 and rest2
sample times are ones `set_sample_time` accepts: a device becomes ready only
with such sample times. -/
theorem configure_requires_valid_sample_times (cfg : Kconfig) (w : World)
    (h : (pmw3610_async_init_configure cfg w).1 = 0) :
    valid_sample_time (cfg.CONFIG_PMW3610_REST1_SAMPLE_TIME_MS % 4294967296) ∧
    valid_sample_time (cfg.CONFIG_PMW3610_REST2_SAMPLE_TIME_MS % 4294967296) := by
  unfold pmw3610_async_init_configure at h
  simp only [] at h
  split_ifs at h with h8
  · exact absurd h h8
  · simp only [ne_eq, not_not] at h8
    obtain ⟨h7, -⟩ := chain_link _ _ h8
    obtain ⟨h6, -⟩ := chain_link _ _ h7
    obtain ⟨h5, -⟩ := chain_link _ _ h6
    obtain ⟨h4, -⟩ := chain_link _ _ h5
    obtain ⟨h3, g2⟩ := chain_link _ _ h4
    obtain ⟨-, g1⟩ := chain_link _ _ h3
    exact ⟨set_sample_time_zero_valid _ _ _ g1, set_sample_time_zero_valid _ _ _ g2⟩

/-! ## Interrupts and the trigger callback (C9, C10) -/

theorem smart_algorithm_halted (sh : Int) (dev : Dev) :
    (smart_algorithm sh dev).w.halted = dev.w.halted := by
  unfold smart_algorithm
  split_ifs <;> simp <;> split_ifs <;> simp

theorem smart_algorithm_filter (p : Event → Bool)
    (hp : ∀ e, is_transport e = true → p e = false) (sh : Int) (dev : Dev) :
    (smart_algorithm sh dev).w.trace.filter p = dev.w.trace.filter p := by
  unfold smart_algorithm
  split_ifs <;> simp [reg_write_filter p hp] <;> split_ifs <;> simp [reg_write_filter p hp]

theorem sample_fetch_halted (cfg : Kconfig) (dev : Dev) (chan : sensor_channel) :
    (pmw3610_sample_fetch cfg dev chan).2.w.halted = dev.w.halted := by
  unfold pmw3610_sample_fetch
  simp only []
  split_ifs <;> simp [smart_algorithm_halted]

theorem sample_fetch_filter (p : Event → Bool)
    (hp : ∀ e, is_transport e = true → p e = false) (cfg : Kconfig) (dev : Dev)
    (chan : sensor_channel) :
    (pmw3610_sample_fetch cfg dev chan).2.w.trace.filter p = dev.w.trace.filter p := by
  unfold pmw3610_sample_fetch
  simp only []
  split_ifs <;> simp [smart_algorithm_filter p hp, motion_burst_read_filter p hp]

theorem attr_set_halted (cfg : Kconfig) (dev : Dev) (chan : sensor_channel)
    (attr : pmw3610_attribute) (val : sensor_value) :
    (pmw3610_attr_set cfg dev chan attr val).2.w.halted = dev.w.halted := by
  unfold pmw3610_attr_set
  split_ifs
  · rfl
  · rfl
  · cases attr <;> simp

theorem attr_set_filter (p : Event → Bool)
    (hp : ∀ e, is_transport e = true → p e = false) (cfg : Kconfig) (dev : Dev)
    (chan : sensor_channel) (attr : pmw3610_attribute) (val : sensor_value) :
    (pmw3610_attr_set cfg dev chan attr val).2.w.trace.filter p = dev.w.trace.filter p := by
  unfold pmw3610_attr_set
  split_ifs
  · rfl
  · rfl
  · cases attr <;>
      simp [set_cpi_filter p hp, set_sample_time_filter p hp, set_downshift_time_filter p hp]

theorem trigger_set_halted (dev : Dev) (trig : sensor_trigger) (handler : Nat) :
    (pmw3610_trigger_set dev trig handler).2.w.halted = dev.w.halted := by
  unfold pmw3610_trigger_set
  simp only []
  split_ifs <;> rfl

theorem trigger_set_calls (dev : Dev) (trig : sensor_trigger) (handler : Nat) :
    calls (pmw3610_trigger_set dev trig handler).2.w.trace = calls dev.w.trace := by
  unfold pmw3610_trigger_set
  simp only []
  split_ifs <;> simp [calls, gpio_pin_interrupt_configure_dt, is_handler_call]

/-- An API call of the application never halts the kernel and never invokes a
callback. -/
theorem run_api_frame (cfg : Kconfig) (dev : Dev) (c : ApiCall) :
    (run_api cfg dev c).w.halted = dev.w.halted ∧
    calls (run_api cfg dev c).w.trace = calls dev.w.trace := by
  cases c with
  | sample_fetch chan =>
    exact ⟨sample_fetch_halted cfg dev chan,
      sample_fetch_filter is_handler_call transport_not_handler_call cfg dev chan⟩
  | channel_get chan => exact ⟨rfl, rfl⟩
  | attr_set chan attr val =>
    exact ⟨attr_set_halted cfg dev chan attr val,
      attr_set_filter is_handler_call transport_not_handler_call cfg dev chan attr val⟩
  | trigger_set trig handler =>
    exact ⟨trigger_set_halted dev trig handler, trigger_set_calls dev trig handler⟩

/-- A callback body, a list of API calls, never halts the kernel and never
invokes a callback. -/
theorem run_api_list_frame (cfg : Kconfig) (l : List ApiCall) (dev : Dev) :
    (l.foldl (run_api cfg) dev).w.halted = dev.w.halted ∧
    calls (l.foldl (run_api cfg) dev).w.trace = calls dev.w.trace := by
  induction l generalizing dev with
  | nil => exact ⟨rfl, rfl⟩
  | cons c l ih =>
    simp only [List.foldl_cons]
    obtain ⟨h1, h2⟩ := ih (run_api cfg dev c)
    obtain ⟨h3, h4⟩ := run_api_frame cfg dev c
    exact ⟨h1.trans h3, h2.trans h4⟩

/-- The invocation of a callback records exactly one call, with the stored
trigger descriptor, and does not halt the kernel. -/
theorem call_handler_frame (app : App) (cfg : Kconfig) (handler : Nat) (dev : Dev) :
    (call_handler app cfg handler dev).w.halted = dev.w.halted ∧
    calls (call_handler app cfg handler dev).w.trace =
      calls dev.w.trace ++ [Event.handler_call handler dev.data.trigger] := by
  unfold call_handler
  obtain ⟨h1, h2⟩ := run_api_list_frame cfg (app handler dev.data.trigger)
    { dev with w := dev.w.emit (Event.handler_call handler dev.data.trigger) }
  refine ⟨h1, ?_⟩
  rw [h2]
  simp [calls, World.emit, is_handler_call]

/-- A call of `pmw3610_trigger_set` returns zero exactly for a data-ready
trigger on `SENSOR_CHAN_ALL`, on a ready device, with the pin call succeeding;
it then stores the handler and the descriptor and the line is level-active for
a non-null handler and disabled for `NULL`. -/
theorem trigger_set_success (dev : Dev) (trig : sensor_trigger) (handler : Nat) :
    ((pmw3610_trigger_set dev trig handler).1 = 0 ↔
      (trig.type = sensor_trigger_type.SENSOR_TRIG_DATA_READY ∧
       trig.chan = sensor_channel.SENSOR_CHAN_ALL ∧ dev.data.ready = true ∧
       (dev.w.env dev.w.ops).err = 0)) ∧
    ((pmw3610_trigger_set dev trig handler).1 = 0 →
      (pmw3610_trigger_set dev trig handler).2.data.data_ready_handler = handler ∧
      (pmw3610_trigger_set dev trig handler).2.data.trigger = some trig ∧
      (pmw3610_trigger_set dev trig handler).2.data.ready = true ∧
      (pmw3610_trigger_set dev trig handler).2.w.irq_mode =
        (if handler ≠ 0 then gpio_int_flags.GPIO_INT_LEVEL_ACTIVE
         else gpio_int_flags.GPIO_INT_DISABLE)) := by
  unfold pmw3610_trigger_set
  by_cases h1 : trig.type = sensor_trigger_type.SENSOR_TRIG_DATA_READY
  · by_cases h2 : trig.chan = sensor_channel.SENSOR_CHAN_ALL
    · by_cases h3 : dev.data.ready = true
      · by_cases h4 : handler = 0
        · simp [h1, h2, h3, h4, gpio_pin_interrupt_configure_dt]
          intro h; simp [h]
        · simp [h1, h2, h3, h4, gpio_pin_interrupt_configure_dt]
          intro h; simp [h]
      · simp [h1, h2, h3, EBUSY]
    · simp [h1, h2, ENOTSUP]
  · simp [h1, ENOTSUP]

/-- C9, refuted as stated: a ready device stores the handler at address 7 with
the line level-active; `pmw3610_trigger_set` is called with `NULL` for a
data-ready trigger and its pin call, the second hardware call, fails with `-5`.
The call returns `-5` and keeps the handler; the simulated interrupt that
follows invokes the handler 7 once and leaves the line level-active. -/
theorem C9_counterexample :
    (pmw3610_trigger_set (ready_dev (fail_at 1 (-5))) data_ready_trigger 7).2.data.ready = true ∧
    (pmw3610_trigger_set (ready_dev (fail_at 1 (-5))) data_ready_trigger 7).2.data.data_ready_handler
      = 7 ∧
    (pmw3610_trigger_set
      (pmw3610_trigger_set (ready_dev (fail_at 1 (-5))) data_ready_trigger 7).2
      data_ready_trigger 0).1 = -5 ∧
    calls (simulated_interrupt (fun _ _ => []) sample_cfg
      (pmw3610_trigger_set
        (pmw3610_trigger_set (ready_dev (fail_at 1 (-5))) data_ready_trigger 7).2
        data_ready_trigger 0).2).w.trace = [Event.handler_call 7 (some data_ready_trigger)] ∧
    (simulated_interrupt (fun _ _ => []) sample_cfg
      (pmw3610_trigger_set
        (pmw3610_trigger_set (ready_dev (fail_at 1 (-5))) data_ready_trigger 7).2
        data_ready_trigger 0).2).w.irq_mode = gpio_int_flags.GPIO_INT_LEVEL_ACTIVE := by
  decide

/-- C9, amended: on a ready device, a call of `pmw3610_trigger_set` with a `NULL`
handler for a data-ready trigger returns zero exactly when the trigger is on
`SENSOR_CHAN_ALL` and the pin call succeeds. After a call that returned zero,
whatever handler was stored before, the stored handler is `NULL` and the line
disabled, and a simulated interrupt (`irq_handler`, then the deferred
`trigger_handler`) invokes no callback and leaves the interrupt line disabled,
whatever the outcome of its own pin call. A call that returns an error keeps
the handler stored before and the mode of the line. -/
theorem C9_null_handler_no_callback (app : App) (cfg : Kconfig) (dev : Dev)
    (trig : sensor_trigger)
    (hready : dev.data.ready = true)
    (htype : trig.type = sensor_trigger_type.SENSOR_TRIG_DATA_READY) :
    ((pmw3610_trigger_set dev trig 0).1 = 0 ↔
      (trig.chan = sensor_channel.SENSOR_CHAN_ALL ∧ (dev.w.env dev.w.ops).err = 0)) ∧
    ((pmw3610_trigger_set dev trig 0).1 = 0 →
      (pmw3610_trigger_set dev trig 0).2.data.data_ready_handler = 0 ∧
      (pmw3610_trigger_set dev trig 0).2.w.irq_mode = gpio_int_flags.GPIO_INT_DISABLE ∧
      calls (simulated_interrupt app cfg (pmw3610_trigger_set dev trig 0).2).w.trace =
        calls dev.w.trace ∧
      (simulated_interrupt app cfg (pmw3610_trigger_set dev trig 0).2).w.irq_mode =
        gpio_int_flags.GPIO_INT_DISABLE ∧
      (simulated_interrupt app cfg (pmw3610_trigger_set dev trig 0).2).data.data_ready_handler
        = 0) ∧
    ((pmw3610_trigger_set dev trig 0).1 ≠ 0 →
      (pmw3610_trigger_set dev trig 0).2.data.data_ready_handler =
        dev.data.data_ready_handler ∧
      (pmw3610_trigger_set dev trig 0).2.w.irq_mode = dev.w.irq_mode) := by
  have hiff := (trigger_set_success dev trig 0).1
  refine ⟨?_, ?_, ?_⟩
  · rw [hiff]
    exact ⟨fun h => ⟨h.2.1, h.2.2.2⟩, fun h => ⟨htype, h.1, hready, h.2⟩⟩
  · intro hret
    obtain ⟨h1, _, _, h4⟩ := (trigger_set_success dev trig 0).2 hret
    have hc := trigger_set_calls dev trig 0
    simp only [ne_eq, not_true_eq_false, if_false] at h4
    refine ⟨h1, h4, ?_, ?_, ?_⟩
    · rw [← hc]
      unfold simulated_interrupt irq_handler trigger_handler
      simp only []
      split_ifs <;>
        simp_all [calls, k_panic, World.emit, gpio_pin_interrupt_configure_dt, is_handler_call]
    · unfold simulated_interrupt irq_handler trigger_handler
      simp only []
      split_ifs <;>
        simp_all [k_panic, World.emit, gpio_pin_interrupt_configure_dt]
    · unfold simulated_interrupt irq_handler trigger_handler
      simp only []
      split_ifs <;> simp_all
  · intro herr
    have hne : ¬ (trig.chan = sensor_channel.SENSOR_CHAN_ALL ∧ (dev.w.env dev.w.ops).err = 0) :=
      fun h => herr (hiff.2 ⟨htype, h.1, hready, h.2⟩)
    unfold pmw3610_trigger_set
    by_cases h2 : trig.chan = sensor_channel.SENSOR_CHAN_ALL
    · have h3 : (dev.w.env dev.w.ops).err ≠ 0 := fun h => hne ⟨h2, h⟩
      simp [htype, h2, hready, h3, gpio_pin_interrupt_configure_dt]
    · simp [htype, h2]

/-- Witness for the amended C9: a handler at address 7 is stored, then cleared
by a call that returns zero; the interrupt that follows records no callback
invocation. -/
theorem C9_null_handler_no_callback_witness :
    calls (simulated_interrupt (fun _ _ => [ApiCall.sample_fetch sensor_channel.SENSOR_CHAN_ALL])
      sample_cfg
      (pmw3610_trigger_set
        { data := { zero_data with ready := true, async_init_step := 4, data_ready_handler := 7 }
          w := fresh_world (good_env []) }
        { type := sensor_trigger_type.SENSOR_TRIG_DATA_READY
          chan := sensor_channel.SENSOR_CHAN_ALL } 0).2).w.trace = [] :=
  ((C9_null_handler_no_callback
    (fun _ _ => [ApiCall.sample_fetch sensor_channel.SENSOR_CHAN_ALL]) sample_cfg
    { data := { zero_data with ready := true, async_init_step := 4, data_ready_handler := 7 }
      w := fresh_world (good_env []) }
    { type := sensor_trigger_type.SENSOR_TRIG_DATA_READY, chan := sensor_channel.SENSOR_CHAN_ALL }
    rfl rfl).2.1 (by decide)).2.2.1

@[simp] theorem bus_append (a b : List Event) : bus (a ++ b) = bus a ++ bus b := by
  simp [bus]

@[simp] theorem k_busy_wait_bus (us : Nat) (w : World) :
    bus (k_busy_wait us w).trace = bus w.trace := by
  simp [k_busy_wait_trace, bus, is_bus]

@[simp] theorem assert_bus (c : Bool) (w : World) :
    bus (__ASSERT_NO_MSG c w).trace = bus w.trace := by
  cases c <;> simp [__ASSERT_NO_MSG, World.emit, bus, is_bus]

@[simp] theorem spi_cs_ctrl_bus (e : Bool) (w : World) :
    bus (spi_cs_ctrl e w).2.trace = bus w.trace := by
  cases e <;> simp [spi_cs_ctrl, gpio_pin_set_dt_cs, k_busy_wait, World.emit, bus, is_bus]

@[simp] theorem spi_write_dt_bus (tx : List Nat) (w : World) :
    bus (spi_write_dt tx w).2.trace = bus w.trace ++ [Event.spi_write tx (w.env w.ops).err] := by
  simp [spi_write_dt, bus, is_bus]

@[simp] theorem spi_read_dt_bus (b : Nat → Nat) (n : Nat) (w : World) :
    bus (spi_read_dt b n w).2.2.trace = bus w.trace ++ [Event.spi_read n (w.env w.ops).err] := by
  simp [spi_read_dt, bus, is_bus]

/-- The return value of `_reg_write`: the error of the first failing hardware
call among chip-select assert, bus write and chip-select de-assert, zero when
all three succeed. -/
theorem _reg_write_fst (reg val : Nat) (w : World) :
    (_reg_write reg val w).1 =
      if (w.env w.ops).err ≠ 0 then (w.env w.ops).err
      else if (w.env (w.ops + 1)).err ≠ 0 then (w.env (w.ops + 1)).err
      else (w.env (w.ops + 2)).err := by
  unfold _reg_write
  simp only []
  split_ifs <;> simp_all

/-- The bus transfers of `_reg_write`: one write of the address byte with the
write bit set and the value, unless the chip-select assert failed. -/
theorem _reg_write_bus (reg val : Nat) (w : World) :
    bus (_reg_write reg val w).2.trace = bus w.trace ++
      (if (w.env w.ops).err ≠ 0 then []
       else [Event.spi_write [SPI_WRITE_BIT ||| reg, val] (w.env (w.ops + 1)).err]) := by
  unfold _reg_write
  simp only []
  split_ifs <;> simp_all

/-- The number of hardware calls of `_reg_write`. -/
theorem _reg_write_ops_gen (reg val : Nat) (w : World) :
    (_reg_write reg val w).2.ops = w.ops +
      (if (w.env w.ops).err ≠ 0 then 1
       else if (w.env (w.ops + 1)).err ≠ 0 then 2 else 3) := by
  unfold _reg_write
  simp only []
  split_ifs <;> simp_all

/-- The return value of `reg_read`. -/
theorem reg_read_fst (reg buf : Nat) (w : World) :
    (reg_read reg buf w).1 =
      if (w.env w.ops).err ≠ 0 then (w.env w.ops).err
      else if (w.env (w.ops + 1)).err ≠ 0 then (w.env (w.ops + 1)).err
      else if (w.env (w.ops + 2)).err ≠ 0 then (w.env (w.ops + 2)).err
      else (w.env (w.ops + 3)).err := by
  unfold reg_read
  simp only []
  split_ifs <;> simp_all

/-- The bus transfers of `reg_read`: a write of the address byte as given, then
a read of one byte unless the write failed. -/
theorem reg_read_bus (reg buf : Nat) (w : World) :
    bus (reg_read reg buf w).2.2.trace = bus w.trace ++
      (if (w.env w.ops).err ≠ 0 then []
       else if (w.env (w.ops + 1)).err ≠ 0 then [Event.spi_write [reg] (w.env (w.ops + 1)).err]
       else [Event.spi_write [reg] (w.env (w.ops + 1)).err,
             Event.spi_read 1 (w.env (w.ops + 2)).err]) := by
  unfold reg_read
  simp only []
  split_ifs <;> simp_all

/-- The return value of `motion_burst_read`. -/
theorem motion_burst_read_fst (b : Nat → Nat) (n : Nat) (w : World) :
    (motion_burst_read b n w).1 =
      if (w.env w.ops).err ≠ 0 then (w.env w.ops).err
      else if (w.env (w.ops + 1)).err ≠ 0 then (w.env (w.ops + 1)).err
      else if (w.env (w.ops + 2)).err ≠ 0 then (w.env (w.ops + 2)).err
      else (w.env (w.ops + 3)).err := by
  unfold motion_burst_read
  simp only []
  split_ifs <;> simp_all

/-- The bus transfers of `motion_burst_read`: a write of the burst register
address, then a read of the burst unless the write failed. -/
theorem motion_burst_read_bus (b : Nat → Nat) (n : Nat) (w : World) :
    bus (motion_burst_read b n w).2.2.trace = bus w.trace ++
      (if (w.env w.ops).err ≠ 0 then []
       else if (w.env (w.ops + 1)).err ≠ 0 then
         [Event.spi_write [PMW3610_REG_MOTION_BURST] (w.env (w.ops + 1)).err]
       else [Event.spi_write [PMW3610_REG_MOTION_BURST] (w.env (w.ops + 1)).err,
             Event.spi_read n (w.env (w.ops + 2)).err]) := by
  unfold motion_burst_read
  simp only []
  split_ifs <;> simp_all

/-! ## The result of a fetch -/

/-- The smart algorithm block as one case distinction: the two `if` statements
of the source never both fire. -/
theorem smart_algorithm_eq (sh : Int) (dev : Dev) :
    smart_algorithm sh dev =
      if dev.data.sw_smart_flag = true ∧ sh < 45 then
        { data := { dev.data with sw_smart_flag := false }, w := (reg_write 0x32 0x00 dev.w).2 }
      else if dev.data.sw_smart_flag = false ∧ sh > 45 then
        { data := { dev.data with sw_smart_flag := true }, w := (reg_write 0x32 0x80 dev.w).2 }
      else dev := by
  unfold smart_algorithm
  by_cases h1 : dev.data.sw_smart_flag = true ∧ sh < 45
  · have h2 : ¬ (45 < sh) := by omega
    simp [h1, h2]
  · simp only [h1, if_false]

/-- The smart algorithm block changes nothing in the driver data but the smart
flag. -/
theorem smart_algorithm_data (sh : Int) (dev : Dev) :
    (smart_algorithm sh dev).data =
      { dev.data with sw_smart_flag := (smart_algorithm sh dev).data.sw_smart_flag } := by
  rw [smart_algorithm_eq]
  split_ifs <;> rfl

/-- A fetch on a ready device with channel `SENSOR_CHAN_ALL` whose motion burst
read returns zero: it returns zero, stores the position, and runs the smart
algorithm block when that is enabled. -/
theorem sample_fetch_eq (cfg : Kconfig) (dev : Dev) (hr : dev.data.ready = true)
    (hm : (motion_burst_read (fun _ => 0) PMW3610_BURST_SIZE dev.w).1 = 0) :
    pmw3610_sample_fetch cfg dev sensor_channel.SENSOR_CHAN_ALL =
      (0,
        if cfg.CONFIG_PMW3610_SMART_ALGORITHM = true then
          smart_algorithm
            (fetch_shutter (motion_burst_read (fun _ => 0) PMW3610_BURST_SIZE dev.w).2.1)
            { data :=
                { dev.data with
                  x := (orientation cfg dev.data.x dev.data.y
                    (fetch_x cfg (motion_burst_read (fun _ => 0) PMW3610_BURST_SIZE dev.w).2.1)
                    (fetch_y cfg (motion_burst_read (fun _ => 0) PMW3610_BURST_SIZE dev.w).2.1)).1
                  y := (orientation cfg dev.data.x dev.data.y
                    (fetch_x cfg (motion_burst_read (fun _ => 0) PMW3610_BURST_SIZE dev.w).2.1)
                    (fetch_y cfg (motion_burst_read (fun _ => 0) PMW3610_BURST_SIZE dev.w).2.1)).2 }
              w := (motion_burst_read (fun _ => 0) PMW3610_BURST_SIZE dev.w).2.2 }
        else
          { data :=
              { dev.data with
                x := (orientation cfg dev.data.x dev.data.y
                  (fetch_x cfg (motion_burst_read (fun _ => 0) PMW3610_BURST_SIZE dev.w).2.1)
                  (fetch_y cfg (motion_burst_read (fun _ => 0) PMW3610_BURST_SIZE dev.w).2.1)).1
                y := (orientation cfg dev.data.x dev.data.y
                  (fetch_x cfg (motion_burst_read (fun _ => 0) PMW3610_BURST_SIZE dev.w).2.1)
                  (fetch_y cfg (motion_burst_read (fun _ => 0) PMW3610_BURST_SIZE dev.w).2.1)).2 }
            w := (motion_burst_read (fun _ => 0) PMW3610_BURST_SIZE dev.w).2.2 }) := by
  unfold pmw3610_sample_fetch
  simp only [ne_eq, not_true_eq_false, if_false, hr, Bool.not_true, Bool.false_eq_true, hm,
    if_true]

/-- A fetch on a ready device with channel `SENSOR_CHAN_ALL` whose motion burst
read fails returns that error and changes only the world. -/
theorem sample_fetch_fail_eq (cfg : Kconfig) (dev : Dev) (hr : dev.data.ready = true)
    (hm : (motion_burst_read (fun _ => 0) PMW3610_BURST_SIZE dev.w).1 ≠ 0) :
    pmw3610_sample_fetch cfg dev sensor_channel.SENSOR_CHAN_ALL =
      ((motion_burst_read (fun _ => 0) PMW3610_BURST_SIZE dev.w).1,
        { dev with w := (motion_burst_read (fun _ => 0) PMW3610_BURST_SIZE dev.w).2.2 }) := by
  unfold pmw3610_sample_fetch
  simp only [ne_eq, not_true_eq_false, if_false, hr, Bool.not_true, Bool.false_eq_true, hm]

/-- A fetch never changes `ready`, the init step, the handler or the trigger
descriptor. -/
theorem sample_fetch_ready (cfg : Kconfig) (dev : Dev) (chan : sensor_channel) :
    (pmw3610_sample_fetch cfg dev chan).2.data.ready = dev.data.ready := by
  by_cases hc : chan = sensor_channel.SENSOR_CHAN_ALL
  · by_cases hr : dev.data.ready = true
    · by_cases hm : (motion_burst_read (fun _ => 0) PMW3610_BURST_SIZE dev.w).1 = 0
      · rw [hc, sample_fetch_eq cfg dev hr hm]
        simp only []
        split_ifs
        · rw [smart_algorithm_data]
        · rfl
      · rw [hc, sample_fetch_fail_eq cfg dev hr hm]
    · simp [pmw3610_sample_fetch, hc, hr]
  · simp [pmw3610_sample_fetch, hc]

/-! ## Channel read-out (C15) -/

/-- C15: on a ready device `pmw3610_channel_get` returns zero with `val1` the
stored `x` and `val2 = 0` for `SENSOR_CHAN_POS_DX`, zero with `val1` the stored
`y` and `val2 = 0` for `SENSOR_CHAN_POS_DY`, and `-ENOTSUP` with the output left
as it was for every other channel; the call does not change the device, so
after a fetch that returned zero the two channels give exactly the pair that
fetch stored, the orientation branch of the pair it decoded. -/
theorem C15_channel_get (cfg : Kconfig) (dev : Dev) (val : sensor_value)
    (hready : dev.data.ready = true) :
    pmw3610_channel_get dev sensor_channel.SENSOR_CHAN_POS_DX val =
      (0, { val1 := dev.data.x, val2 := 0 }) ∧
    pmw3610_channel_get dev sensor_channel.SENSOR_CHAN_POS_DY val =
      (0, { val1 := dev.data.y, val2 := 0 }) ∧
    (∀ chan, chan ≠ sensor_channel.SENSOR_CHAN_POS_DX →
      chan ≠ sensor_channel.SENSOR_CHAN_POS_DY →
      pmw3610_channel_get dev chan val = (-ENOTSUP, val) ∧
      (pmw3610_channel_get dev chan val).1 ≠ 0) ∧
    (∀ chan, run_api cfg dev (ApiCall.channel_get chan) = dev) ∧
    (∀ (d0 : Dev) (c : sensor_channel), (pmw3610_sample_fetch cfg d0 c).1 = 0 →
      ((pmw3610_channel_get (pmw3610_sample_fetch cfg d0 c).2
          sensor_channel.SENSOR_CHAN_POS_DX val).2.val1,
       (pmw3610_channel_get (pmw3610_sample_fetch cfg d0 c).2
          sensor_channel.SENSOR_CHAN_POS_DY val).2.val1) =
        orientation cfg d0.data.x d0.data.y
          (fetch_x cfg (motion_burst_read (fun _ => 0) PMW3610_BURST_SIZE d0.w).2.1)
          (fetch_y cfg (motion_burst_read (fun _ => 0) PMW3610_BURST_SIZE d0.w).2.1) ∧
      (pmw3610_channel_get (pmw3610_sample_fetch cfg d0 c).2
          sensor_channel.SENSOR_CHAN_POS_DX val).1 = 0 ∧
      (pmw3610_channel_get (pmw3610_sample_fetch cfg d0 c).2
          sensor_channel.SENSOR_CHAN_POS_DY val).1 = 0) := by
  refine ⟨by simp [pmw3610_channel_get, hready], by simp [pmw3610_channel_get, hready],
    ?_, fun _ => rfl, ?_⟩
  · intro chan h1 h2
    have e : pmw3610_channel_get dev chan val = (-ENOTSUP, val) := by
      cases chan <;> simp_all [pmw3610_channel_get]
    rw [e]
    exact ⟨rfl, by simp [ENOTSUP]⟩
  · intro d0 c h
    obtain ⟨hc, hr, _, hpos⟩ := sample_fetch_success cfg d0 c h
    have hr2 : (pmw3610_sample_fetch cfg d0 c).2.data.ready = true := by
      rw [sample_fetch_ready]
      exact hr
    rw [← hpos]
    simp [pmw3610_channel_get, hr2]

/-- Witness for C15: a ready device storing the position `(3, -4)`. -/
theorem C15_channel_get_witness :
    pmw3610_channel_get
      { data := { zero_data with ready := true, x := 3, y := -4 }, w := fresh_world (good_env []) }
      sensor_channel.SENSOR_CHAN_POS_DY { val1 := 9, val2 := 9 } =
        (0, { val1 := -4, val2 := 0 }) :=
  (C15_channel_get sample_cfg
    { data := { zero_data with ready := true, x := 3, y := -4 }, w := fresh_world (good_env []) }
    { val1 := 9, val2 := 9 } rfl).2.1

/-! ## Shutter hysteresis (C17, C11) -/

/-- The write frames `_reg_write` adds for a register: one when it is the
register written and the chip-select assert succeeded. -/
theorem _reg_write_writes_to (r reg val : Nat) (w : World) :
    writes_to r (_reg_write reg val w).2.trace = writes_to r w.trace +
      (if (w.env w.ops).err ≠ 0 then 0
       else if SPI_WRITE_BIT ||| reg = SPI_WRITE_BIT ||| r then 1 else 0) := by
  simp only [writes_to, frames, _reg_write_bus]
  split_ifs with h1 h2 <;> simp_all [frame_of, List.countP_cons]

/-- The motion burst read sends no write frame to any register. -/
theorem motion_burst_read_writes_to (r : Nat) (b : Nat → Nat) (n : Nat) (w : World) :
    writes_to r (motion_burst_read b n w).2.2.trace = writes_to r w.trace := by
  have h : (18 : Nat) ≠ 128 ||| r := by
    intro h
    have h2 := congrArg (fun x => Nat.testBit x 7) h
    simp only [Nat.testBit_or] at h2
    have h3 : Nat.testBit 18 7 = false := by decide
    have h4 : Nat.testBit 128 7 = true := by decide
    simp [h3, h4] at h2
  simp only [writes_to, frames, motion_burst_read_bus]
  split_ifs <;>
    simp_all [frame_of, List.countP_cons, PMW3610_REG_MOTION_BURST, SPI_WRITE_BIT]

/-- The function `reg_write` on register `0x32` sends at most one write frame to
that register. -/
theorem reg_write_0x32_writes_to (val : Nat) (w : World) :
    writes_to 0x32 (reg_write 0x32 val w).2.trace ≤ writes_to 0x32 w.trace + 1 := by
  unfold reg_write
  simp only []
  split_ifs <;>
    simp only [_reg_write_writes_to, SPI_WRITE_BIT, PMW3610_REG_SPI_CLK_ON_REQ] <;>
    split_ifs <;> simp_all

/-- The shutter value of a burst whose low shutter byte is a byte:
`256 * (buf[5] & 1) + buf[6]`, within `0 .. 511`. -/
theorem fetch_shutter_eq (buf : Nat → Nat) (h6 : buf 6 < 256) :
    fetch_shutter buf = 256 * ((buf 5 &&& 1 : Nat) : Int) + ((buf 6 : Nat) : Int) ∧
    0 ≤ fetch_shutter buf ∧ fetch_shutter buf ≤ 511 := by
  have h1 : buf 5 &&& 1 ≤ 1 := Nat.and_le_right
  simp only [fetch_shutter, PMW3610_SHUTTER_H_POS, PMW3610_SHUTTER_L_POS, to_int16,
    Nat.shiftLeft_eq]
  push_cast
  omega

/-- C17: with the smart algorithm enabled, a fetch that returns zero reconstructs
`shutter = 256 * (buf[5] & 1) + buf[6]`, a value in `0 .. 511`, from the burst
`buf` it read, and compares strictly against 45: at `shutter = 45` the smart flag
is unchanged and nothing follows the burst read; with the flag set and
`shutter < 45` it calls `reg_write(0x32, 0x00)` and clears the flag; with the
flag clear and `shutter > 45` it calls `reg_write(0x32, 0x80)` and sets the flag;
in every other case the flag is unchanged and nothing follows the burst read.
At most one write frame to register `0x32` is sent per fetch. -/
theorem C17_smart_hysteresis (cfg : Kconfig) (dev : Dev) (chan : sensor_channel)
    (hs : cfg.CONFIG_PMW3610_SMART_ALGORITHM = true)
    (h : (pmw3610_sample_fetch cfg dev chan).1 = 0) :
    let buf := (motion_burst_read (fun _ => 0) PMW3610_BURST_SIZE dev.w).2.1
    let wb := (motion_burst_read (fun _ => 0) PMW3610_BURST_SIZE dev.w).2.2
    let s := fetch_shutter buf
    let r := (pmw3610_sample_fetch cfg dev chan).2
    s = 256 * ((buf 5 &&& 1 : Nat) : Int) + ((buf 6 : Nat) : Int) ∧ 0 ≤ s ∧ s ≤ 511 ∧
    (s = 45 → r.data.sw_smart_flag = dev.data.sw_smart_flag ∧ r.w = wb) ∧
    (dev.data.sw_smart_flag = true → s < 45 →
      r.data.sw_smart_flag = false ∧ r.w = (reg_write 0x32 0x00 wb).2) ∧
    (dev.data.sw_smart_flag = false → 45 < s →
      r.data.sw_smart_flag = true ∧ r.w = (reg_write 0x32 0x80 wb).2) ∧
    (¬ (dev.data.sw_smart_flag = true ∧ s < 45) → ¬ (dev.data.sw_smart_flag = false ∧ 45 < s) →
      r.data.sw_smart_flag = dev.data.sw_smart_flag ∧ r.w = wb) ∧
    writes_to 0x32 wb.trace = writes_to 0x32 dev.w.trace ∧
    writes_to 0x32 r.w.trace ≤ writes_to 0x32 dev.w.trace + 1 := by
  intro buf wb s r
  obtain ⟨hc, hr, hm, _⟩ := sample_fetch_success cfg dev chan h
  have h6 : buf 6 < 256 := by
    have := motion_burst_read_buf (fun _ => 0) PMW3610_BURST_SIZE dev.w hm 6 (by decide)
    show (motion_burst_read (fun _ => 0) PMW3610_BURST_SIZE dev.w).2.1 6 < 256
    rw [this]
    exact Nat.mod_lt _ (by decide)
  obtain ⟨e1, e2, e3⟩ := fetch_shutter_eq buf h6
  have hwb : writes_to 0x32 wb.trace = writes_to 0x32 dev.w.trace :=
    motion_burst_read_writes_to _ _ _ _
  have hr_eq : r = smart_algorithm s
      { data :=
          { dev.data with
            x := (orientation cfg dev.data.x dev.data.y (fetch_x cfg buf) (fetch_y cfg buf)).1
            y := (orientation cfg dev.data.x dev.data.y (fetch_x cfg buf) (fetch_y cfg buf)).2 }
        w := wb } := by
    show (pmw3610_sample_fetch cfg dev chan).2 = _
    rw [hc, sample_fetch_eq cfg dev hr hm]
    simp only [hs, if_true]
  rw [smart_algorithm_eq] at hr_eq
  simp only [] at hr_eq
  refine ⟨e1, e2, e3, ?_, ?_, ?_, ?_, hwb, ?_⟩
  · intro h45
    rw [hr_eq]
    have a1 : ¬ (s < 45) := by omega
    have a2 : ¬ (45 < s) := by omega
    simp [a1, a2]
  · intro hf hlt
    rw [hr_eq]
    simp [hf, hlt]
  · intro hf hgt
    rw [hr_eq]
    simp [hf, hgt]
  · intro n1 n2
    rw [hr_eq]
    simp [n1, n2]
  · rw [hr_eq]
    split_ifs
    · exact le_trans (reg_write_0x32_writes_to _ _) (by rw [hwb])
    · exact le_trans (reg_write_0x32_writes_to _ _) (by rw [hwb])
    · simp only []
      rw [hwb]
      omega

/-- Witness for C17: a ready device with the flag clear reads the burst
`00 00 00 00 00 00 32` (shutter 50) and sets the flag. -/
theorem C17_smart_hysteresis_witness :
    (pmw3610_sample_fetch sample_cfg (ready_dev (good_env [0, 0, 0, 0, 0, 0, 50]))
      sensor_channel.SENSOR_CHAN_ALL).2.data.sw_smart_flag = true :=
  ((C17_smart_hysteresis sample_cfg (ready_dev (good_env [0, 0, 0, 0, 0, 0, 50]))
    sensor_channel.SENSOR_CHAN_ALL rfl (by decide)).2.2.2.2.2.1 rfl (by decide)).1

set_option maxRecDepth 1000000 in
/-- C11, refuted as stated: zero-initialised driver data is initialised to
completion on hardware whose three following bursts carry the shutter values
50, 40 and 50. The device is ready, the smart flag is clear and no write to
`0x32` has been sent when initialisation ends; each of the three fetches returns
zero, and already the first one sets the flag and sends a write frame to
`0x32`. -/
theorem C11_counterexample :
    (init_run sample_cfg { data := zero_data, w := fresh_world shutter_env }).map
      (fun d => (d.data.ready, d.data.sw_smart_flag, writes_to 0x32 d.w.trace)) =
      some (true, false, 0) ∧
    (init_run sample_cfg { data := zero_data, w := fresh_world shutter_env }).map
      (fun d => fetch_log sample_cfg 3 d) =
      some [(0, 50, true, 1), (0, 40, false, 2), (0, 50, true, 3)] := by
  decide

/-- The function `pmw3610_init` always leaves the smart flag clear. -/
theorem init_clears_smart_flag (dev : Dev) : (pmw3610_init dev).2.data.sw_smart_flag = false := by
  unfold pmw3610_init
  simp only []
  split_ifs <;> rfl

/-- The init work never touches the smart flag. -/
theorem async_init_smart_flag (cfg : Kconfig) (dev dev' : Dev)
    (h : pmw3610_async_init cfg dev = some dev') :
    dev'.data.sw_smart_flag = dev.data.sw_smart_flag := by
  rcases async_init_data cfg dev dev' h with ⟨hd, _⟩ | ⟨_, _, _⟩
  · have := congrArg pixart_data.sw_smart_flag hd
    simpa using this
  · unfold pmw3610_async_init at h
    cases hf : async_init_fn dev.data.async_init_step with
    | none => simp [hf] at h
    | some fn =>
      simp only [hf] at h
      split_ifs at h <;> simp only [Option.some.injEq] at h <;> subst h <;> rfl

/-- The two transitions of the smart flag in a fetch that returns zero with
the smart algorithm enabled. -/
theorem fetch_smart_toggle (cfg : Kconfig) (dev : Dev)
    (hs : cfg.CONFIG_PMW3610_SMART_ALGORITHM = true)
    (h : (pmw3610_sample_fetch cfg dev sensor_channel.SENSOR_CHAN_ALL).1 = 0) :
    (dev.data.sw_smart_flag = true →
      fetch_shutter (motion_burst_read (fun _ => 0) PMW3610_BURST_SIZE dev.w).2.1 < 45 →
      (pmw3610_sample_fetch cfg dev sensor_channel.SENSOR_CHAN_ALL).2.data.sw_smart_flag = false ∧
      (pmw3610_sample_fetch cfg dev sensor_channel.SENSOR_CHAN_ALL).2.w =
        (reg_write 0x32 0x00 (motion_burst_read (fun _ => 0) PMW3610_BURST_SIZE dev.w).2.2).2) ∧
    (dev.data.sw_smart_flag = false →
      45 < fetch_shutter (motion_burst_read (fun _ => 0) PMW3610_BURST_SIZE dev.w).2.1 →
      (pmw3610_sample_fetch cfg dev sensor_channel.SENSOR_CHAN_ALL).2.data.sw_smart_flag = true ∧
      (pmw3610_sample_fetch cfg dev sensor_channel.SENSOR_CHAN_ALL).2.w =
        (reg_write 0x32 0x80 (motion_burst_read (fun _ => 0) PMW3610_BURST_SIZE dev.w).2.2).2) := by
  obtain ⟨_, hr, hm, _⟩ := sample_fetch_success cfg dev _ h
  rw [sample_fetch_eq cfg dev hr hm]
  simp only [hs, if_true, smart_algorithm_eq]
  constructor
  · intro hf hlt
    simp [hf, hlt]
  · intro hf hgt
    simp [hf, hgt]

/-- C11, amended: with the smart algorithm enabled and the smart flag clear, as
`pmw3610_init` leaves it and the init work keeps it, three successive fetches
that return zero and whose bursts carry the shutter values 50, 40 and 50 change
the smart flag and call `reg_write` on register `0x32` on each of the three
fetches: the first writes `0x80` and sets the flag, the second writes `0x00` and
clears it, the third writes `0x80` and sets it. -/
theorem C11_shutter_sequence (cfg : Kconfig) (d0 : Dev)
    (hs : cfg.CONFIG_PMW3610_SMART_ALGORITHM = true)
    (hflag : d0.data.sw_smart_flag = false)
    (h1 : (pmw3610_sample_fetch cfg d0 sensor_channel.SENSOR_CHAN_ALL).1 = 0)
    (s1 : fetch_shutter (motion_burst_read (fun _ => 0) PMW3610_BURST_SIZE d0.w).2.1 = 50)
    (h2 : (pmw3610_sample_fetch cfg
      (pmw3610_sample_fetch cfg d0 sensor_channel.SENSOR_CHAN_ALL).2
      sensor_channel.SENSOR_CHAN_ALL).1 = 0)
    (s2 : fetch_shutter (motion_burst_read (fun _ => 0) PMW3610_BURST_SIZE
      (pmw3610_sample_fetch cfg d0 sensor_channel.SENSOR_CHAN_ALL).2.w).2.1 = 40)
    (h3 : (pmw3610_sample_fetch cfg
      (pmw3610_sample_fetch cfg
        (pmw3610_sample_fetch cfg d0 sensor_channel.SENSOR_CHAN_ALL).2
        sensor_channel.SENSOR_CHAN_ALL).2
      sensor_channel.SENSOR_CHAN_ALL).1 = 0)
    (s3 : fetch_shutter (motion_burst_read (fun _ => 0) PMW3610_BURST_SIZE
      (pmw3610_sample_fetch cfg
        (pmw3610_sample_fetch cfg d0 sensor_channel.SENSOR_CHAN_ALL).2
        sensor_channel.SENSOR_CHAN_ALL).2.w).2.1 = 50) :
    let f1 := (pmw3610_sample_fetch cfg d0 sensor_channel.SENSOR_CHAN_ALL).2
    let f2 := (pmw3610_sample_fetch cfg f1 sensor_channel.SENSOR_CHAN_ALL).2
    let f3 := (pmw3610_sample_fetch cfg f2 sensor_channel.SENSOR_CHAN_ALL).2
    (∀ dev : Dev, (pmw3610_init dev).2.data.sw_smart_flag = false) ∧
    (∀ dev dev' : Dev, pmw3610_async_init cfg dev = some dev' →
      dev'.data.sw_smart_flag = dev.data.sw_smart_flag) ∧
    f1.data.sw_smart_flag = true ∧
    f1.w = (reg_write 0x32 0x80
      (motion_burst_read (fun _ => 0) PMW3610_BURST_SIZE d0.w).2.2).2 ∧
    f2.data.sw_smart_flag = false ∧
    f2.w = (reg_write 0x32 0x00
      (motion_burst_read (fun _ => 0) PMW3610_BURST_SIZE f1.w).2.2).2 ∧
    f3.data.sw_smart_flag = true ∧
    f3.w = (reg_write 0x32 0x80
      (motion_burst_read (fun _ => 0) PMW3610_BURST_SIZE f2.w).2.2).2 := by
  intro f1 f2 f3
  have a1 := (fetch_smart_toggle cfg d0 hs h1).2 hflag
    (by rw [s1]; decide)
  have a2 := (fetch_smart_toggle cfg f1 hs h2).1 a1.1
    (by rw [s2]; decide)
  have a3 := (fetch_smart_toggle cfg f2 hs h3).2 a2.1
    (by rw [s3]; decide)
  exact ⟨init_clears_smart_flag, async_init_smart_flag cfg, a1.1, a1.2, a2.1, a2.2, a3.1, a3.2⟩

set_option maxRecDepth 1000000 in
/-- Witness for the amended C11: a ready device with the flag clear and bursts
carrying the shutter values 50, 40 and 50. -/
theorem C11_shutter_sequence_witness :
    (pmw3610_sample_fetch sample_cfg (ready_dev shutter_env_ready)
      sensor_channel.SENSOR_CHAN_ALL).2.data.sw_smart_flag = true ∧
    (pmw3610_sample_fetch sample_cfg
      (pmw3610_sample_fetch sample_cfg (ready_dev shutter_env_ready)
        sensor_channel.SENSOR_CHAN_ALL).2
      sensor_channel.SENSOR_CHAN_ALL).2.data.sw_smart_flag = false :=
  have h := C11_shutter_sequence sample_cfg (ready_dev shutter_env_ready) rfl rfl
    (by decide) (by decide) (by decide) (by decide) (by decide) (by decide)
  ⟨h.2.2.1, h.2.2.2.2.1⟩

/-! ## The interrupt line and the stored handler (C19, C12) -/

theorem smart_algorithm_irq_mode (sh : Int) (dev : Dev) :
    (smart_algorithm sh dev).w.irq_mode = dev.w.irq_mode := by
  rw [smart_algorithm_eq]
  split_ifs <;> simp

/-- A fetch changes neither the stored handler nor the mode of the interrupt
line. -/
theorem sample_fetch_line (cfg : Kconfig) (dev : Dev) (chan : sensor_channel) :
    (pmw3610_sample_fetch cfg dev chan).2.data.data_ready_handler =
      dev.data.data_ready_handler ∧
    (pmw3610_sample_fetch cfg dev chan).2.w.irq_mode = dev.w.irq_mode := by
  by_cases hc : chan = sensor_channel.SENSOR_CHAN_ALL
  · by_cases hr : dev.data.ready = true
    · by_cases hm : (motion_burst_read (fun _ => 0) PMW3610_BURST_SIZE dev.w).1 = 0
      · rw [hc, sample_fetch_eq cfg dev hr hm]
        simp only []
        split_ifs
        · rw [smart_algorithm_data, smart_algorithm_irq_mode]
          simp
        · simp
      · rw [hc, sample_fetch_fail_eq cfg dev hr hm]
        simp
    · simp [pmw3610_sample_fetch, hc, hr]
  · simp [pmw3610_sample_fetch, hc]

/-- An attribute write changes neither the driver data nor the mode of the
interrupt line. -/
theorem attr_set_line (cfg : Kconfig) (dev : Dev) (chan : sensor_channel)
    (attr : pmw3610_attribute) (val : sensor_value) :
    (pmw3610_attr_set cfg dev chan attr val).2.data = dev.data ∧
    (pmw3610_attr_set cfg dev chan attr val).2.w.irq_mode = dev.w.irq_mode := by
  unfold pmw3610_attr_set
  split_ifs
  · exact ⟨rfl, rfl⟩
  · exact ⟨rfl, rfl⟩
  · cases attr <;> simp

/-- A `pmw3610_trigger_set` call keeps the line disabled when no handler is
stored, whatever its pin call returns. -/
theorem trigger_set_line (dev : Dev) (trig : sensor_trigger) (handler : Nat)
    (h : line_off_without_handler dev) :
    line_off_without_handler (pmw3610_trigger_set dev trig handler).2 := by
  unfold line_off_without_handler at h ⊢
  unfold pmw3610_trigger_set
  simp only []
  split_ifs <;> simp_all [gpio_pin_interrupt_configure_dt]

/-- An API call of the application keeps the line disabled when no handler is
stored. -/
theorem run_api_line (cfg : Kconfig) (dev : Dev) (c : ApiCall)
    (h : line_off_without_handler dev) : line_off_without_handler (run_api cfg dev c) := by
  cases c with
  | sample_fetch chan =>
    unfold line_off_without_handler at h ⊢
    obtain ⟨h1, h2⟩ := sample_fetch_line cfg dev chan
    simp only [run_api, h1, h2]
    exact h
  | channel_get chan => exact h
  | attr_set chan attr val =>
    unfold line_off_without_handler at h ⊢
    obtain ⟨h1, h2⟩ := attr_set_line cfg dev chan attr val
    simp only [run_api, h1, h2]
    exact h
  | trigger_set trig handler => exact trigger_set_line dev trig handler h

/-- A callback body keeps the line disabled when no handler is stored. -/
theorem run_api_list_line (cfg : Kconfig) (l : List ApiCall) (dev : Dev)
    (h : line_off_without_handler dev) :
    line_off_without_handler (l.foldl (run_api cfg) dev) := by
  induction l generalizing dev with
  | nil => exact h
  | cons c l ih =>
    simp only [List.foldl_cons]
    exact ih _ (run_api_line cfg dev c h)

/-- After the invocation of a non-null handler the line is disabled if no
handler is stored any more. -/
theorem call_handler_line (app : App) (cfg : Kconfig) (dev : Dev)
    (hn : dev.data.data_ready_handler ≠ 0) :
    line_off_without_handler (call_handler app cfg dev.data.data_ready_handler dev) := by
  unfold call_handler
  apply run_api_list_line
  intro h0
  exact absurd h0 hn

/-- The work handler `trigger_handler` keeps the line disabled when no handler
is stored. -/
theorem trigger_handler_line (app : App) (cfg : Kconfig) (dev : Dev)
    (h : line_off_without_handler dev) :
    line_off_without_handler (trigger_handler app cfg dev) := by
  unfold trigger_handler
  simp only []
  by_cases h0 : dev.data.data_ready_handler = 0
  · simp only [h0, if_true]
    exact h
  · simp only [h0, if_false]
    have hc := call_handler_line app cfg dev h0
    unfold line_off_without_handler at hc ⊢
    split_ifs <;> simp_all [k_panic, World.emit, gpio_pin_interrupt_configure_dt]

/-- C19: when no handler is stored any more after the callback body has run,
that is, the handler was cleared between the read of the handler and the second
lock period of `trigger_handler` (the callback body stands for every API call
made in between), `trigger_handler` issues no pin call after the callback and
the line is disabled when it returns. A `NULL` handler is never invoked: with no
handler stored `trigger_handler` does nothing, and otherwise the only invocation
it records is that of the non-null stored handler. -/
theorem C19_cleared_handler_stays_disarmed (app : App) (cfg : Kconfig) (dev : Dev) :
    (dev.data.data_ready_handler ≠ 0 →
      (call_handler app cfg dev.data.data_ready_handler dev).data.data_ready_handler = 0 →
      trigger_handler app cfg dev = call_handler app cfg dev.data.data_ready_handler dev ∧
      (trigger_handler app cfg dev).w.irq_mode = gpio_int_flags.GPIO_INT_DISABLE ∧
      (trigger_handler app cfg dev).w.halted = dev.w.halted) ∧
    (dev.data.data_ready_handler = 0 → trigger_handler app cfg dev = dev) ∧
    (calls (trigger_handler app cfg dev).w.trace = calls dev.w.trace ++
      (if dev.data.data_ready_handler = 0 then []
       else [Event.handler_call dev.data.data_ready_handler dev.data.trigger])) ∧
    (∀ trig, Event.handler_call 0 trig ∈ calls (trigger_handler app cfg dev).w.trace →
      Event.handler_call 0 trig ∈ calls dev.w.trace) := by
  have hcalls : calls (trigger_handler app cfg dev).w.trace = calls dev.w.trace ++
      (if dev.data.data_ready_handler = 0 then []
       else [Event.handler_call dev.data.data_ready_handler dev.data.trigger]) := by
    by_cases h0 : dev.data.data_ready_handler = 0
    · simp [trigger_handler, h0]
    · obtain ⟨_, f2⟩ := call_handler_frame app cfg dev.data.data_ready_handler dev
      unfold trigger_handler
      simp only [h0, if_false]
      rw [← f2]
      split_ifs <;>
        simp [calls, k_panic, World.emit, gpio_pin_interrupt_configure_dt, is_handler_call]
  refine ⟨?_, ?_, hcalls, ?_⟩
  · intro hn hc
    have hl := call_handler_line app cfg dev hn hc
    obtain ⟨f1, _⟩ := call_handler_frame app cfg dev.data.data_ready_handler dev
    have e : trigger_handler app cfg dev =
        call_handler app cfg dev.data.data_ready_handler dev := by
      unfold trigger_handler
      simp [hn, hc]
    rw [e]
    exact ⟨rfl, hl, f1⟩
  · intro h0
    simp [trigger_handler, h0]
  · intro trig hmem
    rw [hcalls] at hmem
    rcases List.mem_append.1 hmem with h | h
    · exact h
    · split_ifs at h with h0
      · simp at h
      · simp only [List.mem_singleton, Event.handler_call.injEq] at h
        exact absurd h.1.symm h0

/-- Witness for C19: the callback at address 7 clears the handler; the line is
disabled when `trigger_handler` returns. -/
theorem C19_cleared_handler_stays_disarmed_witness :
    (trigger_handler (fun _ _ => [ApiCall.trigger_set data_ready_trigger 0]) sample_cfg
      (irq_handler (pmw3610_trigger_set (ready_dev (good_env [])) data_ready_trigger 7).2)
      ).w.irq_mode = gpio_int_flags.GPIO_INT_DISABLE :=
  ((C19_cleared_handler_stays_disarmed
    (fun _ _ => [ApiCall.trigger_set data_ready_trigger 0]) sample_cfg
    (irq_handler (pmw3610_trigger_set (ready_dev (good_env [])) data_ready_trigger 7).2)).1
    (by decide) (by decide)).2.1

/-- The function `irq_handler` leaves the stored handler alone; when its pin
call succeeds the line is disabled afterwards. -/
theorem irq_handler_line (dev : Dev) :
    (irq_handler dev).data = dev.data ∧
    ((dev.w.env dev.w.ops).err = 0 →
      (irq_handler dev).w.irq_mode = gpio_int_flags.GPIO_INT_DISABLE ∧
      (irq_handler dev).w.halted = dev.w.halted) ∧
    (line_off_without_handler dev → line_off_without_handler (irq_handler dev)) := by
  unfold irq_handler line_off_without_handler
  simp only []
  split_ifs <;> simp_all [k_panic, World.emit, gpio_pin_interrupt_configure_dt]

/-- The API functions and the handlers never change `ready`. -/
theorem trig_reachable_ready (app : App) (cfg : Kconfig) (dev : Dev)
    (h : TrigReachable app cfg dev) : dev.data.ready = true := by
  have hlist : ∀ (l : List ApiCall) (d : Dev),
      (l.foldl (run_api cfg) d).data.ready = d.data.ready := by
    intro l
    induction l with
    | nil => intro d; rfl
    | cons c l ih =>
      intro d
      simp only [List.foldl_cons]
      rw [ih]
      cases c with
      | sample_fetch chan => exact sample_fetch_ready cfg d chan
      | channel_get chan => rfl
      | attr_set chan attr val =>
        exact congrArg pixart_data.ready (attr_set_line cfg d chan attr val).1
      | trigger_set trig handler =>
        simp only [run_api, pmw3610_trigger_set]
        split_ifs <;> rfl
  induction h with
  | start dev hr _ _ => exact hr
  | trigger_set dev trig handler _ ih =>
    unfold pmw3610_trigger_set
    simp only []
    split_ifs <;> simp_all
  | irq dev _ ih =>
    rw [(irq_handler_line dev).1]
    exact ih
  | work dev _ ih =>
    unfold trigger_handler call_handler
    simp only []
    split_ifs <;> simp_all

/-- C12, refuted as stated: on working hardware a handler at address 7 is
stored on a ready device and an interrupt arrives; after `irq_handler`, a
reachable state with every pin call so far succeeding, the line is disabled
while the handler is still stored. -/
theorem C12_counterexample :
    TrigReachable (fun _ _ => []) sample_cfg
      (irq_handler (pmw3610_trigger_set (ready_dev (good_env [])) data_ready_trigger 7).2) ∧
    (∀ k, (good_env [] k).err = 0) ∧
    (irq_handler (pmw3610_trigger_set (ready_dev (good_env [])) data_ready_trigger 7).2
      ).w.irq_mode = gpio_int_flags.GPIO_INT_DISABLE ∧
    (irq_handler (pmw3610_trigger_set (ready_dev (good_env [])) data_ready_trigger 7).2
      ).data.data_ready_handler = 7 ∧
    ¬ ((irq_handler (pmw3610_trigger_set (ready_dev (good_env [])) data_ready_trigger 7).2
      ).w.irq_mode = gpio_int_flags.GPIO_INT_DISABLE ↔
      (irq_handler (pmw3610_trigger_set (ready_dev (good_env [])) data_ready_trigger 7).2
      ).data.data_ready_handler = 0) := by
  refine ⟨?_, fun _ => rfl, by decide, by decide, by decide⟩
  exact TrigReachable.irq _ (TrigReachable.trigger_set _ _ _ (TrigReachable.start _ rfl rfl rfl))

/-- C12, amended: in every state reachable on a ready device by
`pmw3610_trigger_set` calls, interrupt events and `trigger_handler` runs, the
device is ready and the interrupt line is disabled whenever no data-ready
handler is stored (so a level-active line implies a stored handler). The
converse holds after a `pmw3610_trigger_set` call that returns zero and after a
`trigger_handler` run that does not end in `k_panic`; it does not hold after
`irq_handler`, which on success disables the line and keeps the stored handler
until `trigger_handler` re-arms the line. -/
theorem C12_line_disabled_without_handler (app : App) (cfg : Kconfig) (dev : Dev)
    (h : TrigReachable app cfg dev) :
    dev.data.ready = true ∧
    (dev.data.data_ready_handler = 0 → dev.w.irq_mode = gpio_int_flags.GPIO_INT_DISABLE) ∧
    (dev.w.irq_mode = gpio_int_flags.GPIO_INT_LEVEL_ACTIVE → dev.data.data_ready_handler ≠ 0) ∧
    (∀ trig handler, (pmw3610_trigger_set dev trig handler).1 = 0 →
      ((pmw3610_trigger_set dev trig handler).2.w.irq_mode = gpio_int_flags.GPIO_INT_DISABLE ↔
        (pmw3610_trigger_set dev trig handler).2.data.data_ready_handler = 0)) ∧
    (dev.w.halted = false → (trigger_handler app cfg dev).w.halted = false →
      ((trigger_handler app cfg dev).w.irq_mode = gpio_int_flags.GPIO_INT_DISABLE ↔
        (trigger_handler app cfg dev).data.data_ready_handler = 0)) ∧
    ((dev.w.env dev.w.ops).err = 0 →
      (irq_handler dev).w.irq_mode = gpio_int_flags.GPIO_INT_DISABLE ∧
      (irq_handler dev).data.data_ready_handler = dev.data.data_ready_handler) := by
  have hready := trig_reachable_ready app cfg dev h
  have hinv : line_off_without_handler dev := by
    induction h with
    | start dev _ hh hm => exact fun _ => hm
    | trigger_set dev trig handler h0 ih =>
      exact trigger_set_line dev trig handler (ih (trig_reachable_ready app cfg dev h0))
    | irq dev h0 ih =>
      exact (irq_handler_line dev).2.2 (ih (trig_reachable_ready app cfg dev h0))
    | work dev h0 ih =>
      exact trigger_handler_line app cfg dev (ih (trig_reachable_ready app cfg dev h0))
  refine ⟨hready, hinv, ?_, ?_, ?_, ?_⟩
  · intro ha h0
    have := hinv h0
    rw [ha] at this
    exact absurd this (by decide)
  · intro trig handler hret
    obtain ⟨h1, _, _, h4⟩ := (trigger_set_success dev trig handler).2 hret
    rw [h1, h4]
    by_cases hz : handler = 0 <;> simp [hz]
  · intro hh hnh
    by_cases h0 : dev.data.data_ready_handler = 0
    · have e : trigger_handler app cfg dev = dev := by simp [trigger_handler, h0]
      rw [e]
      exact ⟨fun _ => h0, hinv⟩
    · have hc := call_handler_line app cfg dev h0
      obtain ⟨f1, _⟩ := call_handler_frame app cfg dev.data.data_ready_handler dev
      unfold line_off_without_handler at hc
      unfold trigger_handler at hnh ⊢
      simp only [h0, if_false] at hnh ⊢
      split_ifs at hnh ⊢ <;>
        simp_all [k_panic, World.emit, gpio_pin_interrupt_configure_dt]
  · intro hp
    obtain ⟨e1, e2, _⟩ := irq_handler_line dev
    exact ⟨(e2 hp).1, by rw [e1]⟩

/-- Witness for the amended C12 at the state after `irq_handler` with a handler
stored. -/
theorem C12_line_disabled_without_handler_witness :
    (irq_handler (pmw3610_trigger_set (ready_dev (good_env [])) data_ready_trigger 7).2
      ).data.ready = true :=
  (C12_line_disabled_without_handler (fun _ _ => []) sample_cfg
    (irq_handler (pmw3610_trigger_set (ready_dev (good_env [])) data_ready_trigger 7).2)
    (TrigReachable.irq _ (TrigReachable.trigger_set _ _ _
      (TrigReachable.start _ rfl rfl rfl)))).1

/-! ## Bus errors end the operation (C16) -/

theorem fail_stop_cons (ret : Int) (e : Event) (es : List Event) (he : bus_err e = 0)
    (h : fail_stop ret es = true) : fail_stop ret (e :: es) = true := by
  cases es with
  | nil => simp [fail_stop, he]
  | cons e' es => simp [fail_stop, he, h]

theorem fail_stop_append (ret : Int) (es1 es2 : List Event)
    (h1 : ∀ e ∈ es1, bus_err e = 0) (h2 : fail_stop ret es2 = true) :
    fail_stop ret (es1 ++ es2) = true := by
  induction es1 with
  | nil => simpa using h2
  | cons e es1 ih =>
    rw [List.cons_append]
    exact fail_stop_cons ret e _ (h1 e (List.mem_cons_self _ _))
      (ih (fun x hx => h1 x (List.mem_cons_of_mem _ hx)))

/-- When the operation returned zero, every transfer it made succeeded. -/
theorem fail_stop_zero (es : List Event) (h : fail_stop 0 es = true) :
    ∀ e ∈ es, bus_err e = 0 := by
  induction es with
  | nil => intro e he; simp at he
  | cons a es ih =>
    cases es with
    | nil =>
      intro e he
      simp only [List.mem_singleton] at he
      subst he
      simp only [fail_stop, Bool.or_eq_true, decide_eq_true_eq] at h
      rcases h with h | h
      · exact h
      · exact h.symm
    | cons b es =>
      simp only [fail_stop, Bool.and_eq_true, decide_eq_true_eq] at h
      intro e he
      rcases List.mem_cons.1 he with rfl | he
      · exact h.1
      · exact ih h.2 e he

theorem stops_at_failure_refl (w : World) (ret : Int) : stops_at_failure w ret w :=
  ⟨[], by simp, rfl⟩

/-- Two operations in sequence, the second run only when the first returned
zero, stop at the first failure when each of them does. -/
theorem stops_at_failure_seq (w : World) (r1 r2 : Int × World)
    (h1 : stops_at_failure w r1.1 r1.2)
    (h2 : r1.1 = 0 → stops_at_failure r1.2 r2.1 r2.2) :
    stops_at_failure w (if r1.1 ≠ 0 then r1 else r2).1 (if r1.1 ≠ 0 then r1 else r2).2 := by
  by_cases h : r1.1 = 0
  · simp only [h, ne_eq, not_true_eq_false, if_false]
    obtain ⟨es1, a1, b1⟩ := h1
    obtain ⟨es2, a2, b2⟩ := h2 h
    rw [h] at b1
    refine ⟨es1 ++ es2, by rw [a2, a1, List.append_assoc], ?_⟩
    exact fail_stop_append _ _ _ (fail_stop_zero es1 b1) b2
  · simp only [ne_eq, h, not_false_eq_true, if_true]
    exact h1

theorem _reg_write_stops (reg val : Nat) (w : World) :
    stops_at_failure w (_reg_write reg val w).1 (_reg_write reg val w).2 := by
  refine ⟨_, _reg_write_bus reg val w, ?_⟩
  rw [_reg_write_fst]
  split_ifs <;> simp_all [fail_stop, bus_err]

theorem reg_read_stops (reg buf : Nat) (w : World) :
    stops_at_failure w (reg_read reg buf w).1 (reg_read reg buf w).2.2 := by
  refine ⟨_, reg_read_bus reg buf w, ?_⟩
  rw [reg_read_fst]
  split_ifs <;> simp_all [fail_stop, bus_err]

theorem motion_burst_read_stops (b : Nat → Nat) (n : Nat) (w : World) :
    stops_at_failure w (motion_burst_read b n w).1 (motion_burst_read b n w).2.2 := by
  refine ⟨_, motion_burst_read_bus b n w, ?_⟩
  rw [motion_burst_read_fst]
  split_ifs <;> simp_all [fail_stop, bus_err]

/-- The closing `if (err) return err; return 0;` of an operation returns the
result of its last call. -/
theorem last_call_result (r : Int × World) : (if r.1 ≠ 0 then r else (0, r.2)) = r := by
  split_ifs with h
  · rfl
  · simp only [ne_eq, not_not] at h
    rw [← h]

theorem reg_write_stops (reg val : Nat) (w : World) :
    stops_at_failure w (reg_write reg val w).1 (reg_write reg val w).2 := by
  unfold reg_write
  simp only [last_call_result]
  exact stops_at_failure_seq w _ _ (_reg_write_stops _ _ _)
    (fun _ => stops_at_failure_seq _ _ _ (_reg_write_stops _ _ _)
      (fun _ => _reg_write_stops _ _ _))

theorem burst_write_loop_stops (addr buf : List Nat) (n i : Nat) (w : World) :
    stops_at_failure w (burst_write_loop addr buf n i w).1 (burst_write_loop addr buf n i w).2 := by
  induction n generalizing i w with
  | zero => exact stops_at_failure_refl w 0
  | succ n ih =>
    simp only [burst_write_loop]
    exact stops_at_failure_seq w _ _ (_reg_write_stops _ _ _) (fun _ => ih _ _)

theorem burst_write_stops (addr buf : List Nat) (n : Nat) (w : World) :
    stops_at_failure w (burst_write addr buf n w).1 (burst_write addr buf n w).2 := by
  unfold burst_write
  simp only [last_call_result]
  exact stops_at_failure_seq w _ _ (_reg_write_stops _ _ _)
    (fun _ => stops_at_failure_seq _ _ _ (burst_write_loop_stops _ _ _ _ _)
      (fun _ => _reg_write_stops _ _ _))

/-- C16: in `reg_read`, `_reg_write`, `reg_write`, `burst_write` and
`motion_burst_read`, for every outcome of the hardware calls, the bus transfers
of the operation stop at the first failing one: every transfer before it
succeeded, none follows it (no retry, no later register of a burst, no
clock-gate command), and the operation returns the error code of that
transfer. -/
theorem C16_bus_error_stops :
    (∀ (reg buf : Nat) (w : World),
      stops_at_failure w (reg_read reg buf w).1 (reg_read reg buf w).2.2) ∧
    (∀ (reg val : Nat) (w : World),
      stops_at_failure w (_reg_write reg val w).1 (_reg_write reg val w).2) ∧
    (∀ (reg val : Nat) (w : World),
      stops_at_failure w (reg_write reg val w).1 (reg_write reg val w).2) ∧
    (∀ (addr buf : List Nat) (n : Nat) (w : World),
      stops_at_failure w (burst_write addr buf n w).1 (burst_write addr buf n w).2) ∧
    (∀ (b : Nat → Nat) (n : Nat) (w : World),
      stops_at_failure w (motion_burst_read b n w).1 (motion_burst_read b n w).2.2) ∧
    (∀ (ret : Int) (pre post : List Event) (e : Event),
      fail_stop ret (pre ++ e :: post) = true → bus_err e ≠ 0 →
      post = [] ∧ ret = bus_err e ∧ ∀ x ∈ pre, bus_err x = 0) := by
  refine ⟨reg_read_stops, _reg_write_stops, reg_write_stops, burst_write_stops,
    motion_burst_read_stops, ?_⟩
  intro ret pre post e h he
  induction pre with
  | nil =>
    cases post with
    | nil =>
      simp only [List.nil_append, fail_stop, Bool.or_eq_true, decide_eq_true_eq] at h
      rcases h with h | h
      · exact absurd h he
      · exact ⟨rfl, h, by simp⟩
    | cons p post =>
      simp only [List.nil_append, fail_stop, Bool.and_eq_true, decide_eq_true_eq] at h
      exact absurd h.1 he
  | cons a pre ih =>
    have hne : pre ++ e :: post ≠ [] := by simp
    obtain ⟨b, rest, hb⟩ := List.exists_cons_of_ne_nil hne
    rw [List.cons_append, hb] at h
    simp only [fail_stop, Bool.and_eq_true, decide_eq_true_eq] at h
    rw [← hb] at h
    obtain ⟨i1, i2, i3⟩ := ih h.2
    refine ⟨i1, i2, ?_⟩
    intro x hx
    rcases List.mem_cons.1 hx with rfl | hx
    · exact h.1
    · exact i3 x hx

/-- Witness for C16: the second bus write of `reg_write(0x11, 0x0D)`, hardware
call number 4, fails with `-5`; the operation returns `-5` after two bus
transfers. -/
theorem C16_bus_error_stops_witness :
    stops_at_failure (fresh_world (fail_at 4 (-5)))
      (reg_write 0x11 0x0D (fresh_world (fail_at 4 (-5)))).1
      (reg_write 0x11 0x0D (fresh_world (fail_at 4 (-5)))).2 ∧
    (reg_write 0x11 0x0D (fresh_world (fail_at 4 (-5)))).1 = -5 ∧
    bus (reg_write 0x11 0x0D (fresh_world (fail_at 4 (-5)))).2.trace =
      [Event.spi_write [0xC1, 0xBA] 0, Event.spi_write [0x91, 0x0D] (-5)] :=
  ⟨C16_bus_error_stops.2.2.1 0x11 0x0D (fresh_world (fail_at 4 (-5))), by decide, by decide⟩

/-! ## Frames on the bus (C20, C13) -/

/-- A register address below `0x80` has bit 7 clear, and setting the write bit
adds `0x80` to it. -/
theorem write_bit_lemma : ∀ reg, reg < 128 →
    reg &&& 128 = 0 ∧ 128 ||| reg = reg + 128 ∧ reg ||| 128 = reg + 128 ∧
    Nat.testBit reg 7 = false ∧ Nat.testBit (reg ||| 128) 7 = true := by
  decide

/-- A `_reg_write` that returned zero made exactly one bus transfer, the write
of its frame, which succeeded. -/
theorem _reg_write_zero (reg val : Nat) (w : World) (h : (_reg_write reg val w).1 = 0) :
    bus (_reg_write reg val w).2.trace =
      bus w.trace ++ [Event.spi_write [SPI_WRITE_BIT ||| reg, val] 0] := by
  rw [_reg_write_bus]
  rw [_reg_write_fst] at h
  split_ifs at h ⊢ <;> simp_all

/-- A `reg_read` that returned zero made exactly two bus transfers: the write of
the address byte as given and the read of one byte. -/
theorem reg_read_zero (reg buf : Nat) (w : World) (h : (reg_read reg buf w).1 = 0) :
    bus (reg_read reg buf w).2.2.trace =
      bus w.trace ++ [Event.spi_write [reg] 0, Event.spi_read 1 0] := by
  rw [reg_read_bus]
  rw [reg_read_fst] at h
  split_ifs at h ⊢ <;> simp_all

/-- A `reg_write` returns zero only when its three `_reg_write` calls do. -/
theorem reg_write_zero_parts (reg val : Nat) (w : World) (h : (reg_write reg val w).1 = 0) :
    (_reg_write PMW3610_REG_SPI_CLK_ON_REQ PMW3610_SPI_CLOCK_CMD_ENABLE w).1 = 0 ∧
    (_reg_write reg val
      (_reg_write PMW3610_REG_SPI_CLK_ON_REQ PMW3610_SPI_CLOCK_CMD_ENABLE w).2).1 = 0 ∧
    (_reg_write PMW3610_REG_SPI_CLK_ON_REQ PMW3610_SPI_CLOCK_CMD_DISABLE
      (_reg_write reg val
        (_reg_write PMW3610_REG_SPI_CLK_ON_REQ PMW3610_SPI_CLOCK_CMD_ENABLE w).2).2).1 = 0 ∧
    (reg_write reg val w).2 =
      (_reg_write PMW3610_REG_SPI_CLK_ON_REQ PMW3610_SPI_CLOCK_CMD_DISABLE
        (_reg_write reg val
          (_reg_write PMW3610_REG_SPI_CLK_ON_REQ PMW3610_SPI_CLOCK_CMD_ENABLE w).2).2).2 := by
  unfold reg_write at h ⊢
  simp only [last_call_result] at h ⊢
  split_ifs at h ⊢ with h1 h2
  · exact absurd h h1
  · exact absurd h h2
  · simp only [ne_eq, not_not] at h1 h2
    exact ⟨h1, h2, h, rfl⟩

/-- A `reg_write` that returned zero made exactly three bus transfers: the
clock-enable frame, the frame of the register, the clock-disable frame. -/
theorem reg_write_zero (reg val : Nat) (w : World) (h : (reg_write reg val w).1 = 0) :
    bus (reg_write reg val w).2.trace = bus w.trace ++
      [Event.spi_write [0xC1, 0xBA] 0, Event.spi_write [SPI_WRITE_BIT ||| reg, val] 0,
       Event.spi_write [0xC1, 0xB5] 0] := by
  obtain ⟨h1, h2, h3, h4⟩ := reg_write_zero_parts reg val w h
  rw [h4, _reg_write_zero _ _ _ h3, _reg_write_zero _ _ _ h2, _reg_write_zero _ _ _ h1]
  simp [SPI_WRITE_BIT, PMW3610_REG_SPI_CLK_ON_REQ, PMW3610_SPI_CLOCK_CMD_ENABLE,
    PMW3610_SPI_CLOCK_CMD_DISABLE]

/-- A data loop of `burst_write` that returned zero wrote the frames of the
pairs `i, i+1, .., i+n-1` in that order. -/
theorem burst_write_loop_zero (addr buf : List Nat) (n i : Nat) (w : World)
    (h : (burst_write_loop addr buf n i w).1 = 0) :
    bus (burst_write_loop addr buf n i w).2.trace = bus w.trace ++
      (List.range' i n).map
        (fun k => Event.spi_write [SPI_WRITE_BIT ||| addr.getD k 0, buf.getD k 0] 0) := by
  induction n generalizing i w with
  | zero => simp [burst_write_loop]
  | succ n ih =>
    simp only [burst_write_loop] at h ⊢
    split_ifs at h ⊢ with h1
    · exact absurd h h1
    · simp only [ne_eq, not_not] at h1
      rw [ih _ _ h, _reg_write_zero _ _ _ h1, List.range'_succ]
      simp

/-- A `burst_write` that returned zero wrote the clock-enable frame, the frames
of its `n` pairs in index order, and the clock-disable frame. -/
theorem burst_write_zero (addr buf : List Nat) (n : Nat) (w : World)
    (h : (burst_write addr buf n w).1 = 0) :
    bus (burst_write addr buf n w).2.trace = bus w.trace ++
      (Event.spi_write [0xC1, 0xBA] 0 ::
        (List.range n).map
          (fun k => Event.spi_write [SPI_WRITE_BIT ||| addr.getD k 0, buf.getD k 0] 0)) ++
      [Event.spi_write [0xC1, 0xB5] 0] := by
  unfold burst_write at h ⊢
  simp only [last_call_result] at h ⊢
  split_ifs at h ⊢ with h1 h2
  · exact absurd h h1
  · exact absurd h h2
  · simp only [ne_eq, not_not] at h1 h2
    rw [_reg_write_zero _ _ _ h, burst_write_loop_zero _ _ _ _ _ h2, _reg_write_zero _ _ _ h1,
      List.range_eq_range']
    simp [SPI_WRITE_BIT, PMW3610_REG_SPI_CLK_ON_REQ, PMW3610_SPI_CLOCK_CMD_ENABLE,
      PMW3610_SPI_CLOCK_CMD_DISABLE]

/-- The frames of a trace are those of its bus transfers. -/
theorem frames_of_bus (t t0 : List Event) (es : List Event) (h : bus t = bus t0 ++ es) :
    frames t = frames t0 ++ es.filterMap frame_of := by
  simp [frames, h]

/-- The frames of a list of successful bus writes. -/
theorem frames_map_writes (f : Nat → List Nat) (l : List Nat) :
    (l.map (fun k => Event.spi_write (f k) 0)).filterMap frame_of = l.map f := by
  induction l with
  | nil => rfl
  | cons a l ih => simp [frame_of, ih]

/-- C20: for every register address `reg` below `0x80` and every value `val`, a
`reg_write(reg, val)` that returns zero makes exactly three bus transfers, the
two-byte frames `[0xC1, 0xBA]` (clock enable), `[reg | 0x80, val]` and
`[0xC1, 0xB5]` (clock disable), in this order, where `reg | 0x80` is the byte
`reg + 0x80`. A `burst_write` of `n` pairs that returns zero sends the enable
frame, the `n` frames `[addr_i | 0x80, val_i]` in index order, then the disable
frame, and nothing else. `reg_read` sends the address byte `reg` as it is, with
bit 7 clear. -/
theorem C20_write_frames :
    (∀ (reg val : Nat) (w : World), reg < 0x80 → (reg_write reg val w).1 = 0 →
      bus (reg_write reg val w).2.trace = bus w.trace ++
        [Event.spi_write [0xC1, 0xBA] 0, Event.spi_write [reg ||| 0x80, val] 0,
         Event.spi_write [0xC1, 0xB5] 0] ∧
      frames (reg_write reg val w).2.trace = frames w.trace ++
        [[0xC1, 0xBA], [reg ||| 0x80, val], [0xC1, 0xB5]] ∧
      reg ||| 0x80 = reg + 0x80 ∧ Nat.testBit (reg ||| 0x80) 7 = true) ∧
    (∀ (addr buf : List Nat) (n : Nat) (w : World), (burst_write addr buf n w).1 = 0 →
      frames (burst_write addr buf n w).2.trace = frames w.trace ++
        ([0xC1, 0xBA] :: (List.range n).map (fun i => [addr.getD i 0 ||| 0x80, buf.getD i 0])) ++
        [[0xC1, 0xB5]] ∧
      (bus (burst_write addr buf n w).2.trace).length = (bus w.trace).length + (n + 2) ∧
      (frames (burst_write addr buf n w).2.trace).length = (frames w.trace).length + (n + 2)) ∧
    (∀ (reg buf : Nat) (w : World), reg < 0x80 →
      frames (reg_read reg buf w).2.2.trace = frames w.trace ++
        (if (w.env w.ops).err ≠ 0 then [] else [[reg]]) ∧
      ((reg_read reg buf w).1 = 0 →
        bus (reg_read reg buf w).2.2.trace = bus w.trace ++
          [Event.spi_write [reg] 0, Event.spi_read 1 0]) ∧
      Nat.testBit reg 7 = false ∧ reg &&& 0x80 = 0) := by
  refine ⟨?_, ?_, ?_⟩
  · intro reg val w hreg h
    obtain ⟨b1, b2, b3, b4, b5⟩ := write_bit_lemma reg hreg
    have hb := reg_write_zero reg val w h
    have e : SPI_WRITE_BIT ||| reg = reg ||| 0x80 := by
      simp only [SPI_WRITE_BIT]
      exact Nat.or_comm _ _
    rw [e] at hb
    refine ⟨hb, ?_, b3, b5⟩
    rw [frames_of_bus _ _ _ hb]
    simp [frame_of]
  · intro addr buf n w h
    have hb := burst_write_zero addr buf n w h
    rw [List.append_assoc] at hb
    have hf := frames_of_bus _ _ _ hb
    rw [List.filterMap_append, List.filterMap_cons, frames_map_writes] at hf
    simp only [frame_of, List.filterMap_cons, List.filterMap_nil, SPI_WRITE_BIT] at hf
    have e : (fun k => [128 ||| addr.getD k 0, buf.getD k 0]) =
        (fun i => [addr.getD i 0 ||| 0x80, buf.getD i 0]) := by
      funext k
      rw [Nat.or_comm]
    rw [e] at hf
    refine ⟨by rw [hf, List.append_assoc], ?_, ?_⟩
    · rw [hb]
      simp only [List.length_append, List.length_cons, List.length_map, List.length_range,
        List.length_nil]
    · rw [hf]
      simp only [List.length_append, List.length_cons, List.length_map, List.length_range,
        List.length_nil]
  · intro reg buf w hreg
    obtain ⟨b1, _, _, b4, _⟩ := write_bit_lemma reg hreg
    refine ⟨?_, reg_read_zero reg buf w, b4, b1⟩
    rw [frames_of_bus _ _ _ (reg_read_bus reg buf w)]
    split_ifs <;> simp [frame_of]

/-- Witness for C20: `reg_write(0x11, 0x0D)` on working hardware. -/
theorem C20_write_frames_witness :
    frames (reg_write 0x11 0x0D (fresh_world (good_env []))).2.trace =
      [[0xC1, 0xBA], [0x91, 0x0D], [0xC1, 0xB5]] := by
  have h := (C20_write_frames.1 0x11 0x0D (fresh_world (good_env [])) (by decide)
    (by decide)).2.1
  simpa [frames, bus, fresh_world] using h

/-- C13: for every `cpi` in `[200, 3200]` and a succeeding bus, `set_cpi` returns
zero and performs exactly these register writes, in this order and with no
other bus transfer: clock enable (`0x41 <- 0xBA`), page-select sentinel
(`0x7F <- 0xFF`), resolution register (`0x85 <- cpi / 200`), sentinel restore
(`0x7F <- 0x00`), clock disable (`0x41 <- 0xB5`); on the bus these are the frames
`[0xC1, 0xBA]`, `[0xFF, 0xFF]`, `[0x85, cpi / 200]`, `[0xFF, 0x00]`,
`[0xC1, 0xB5]`. -/
theorem C13_set_cpi_sequence (cpi : Nat) (w : World) (hlo : 200 ≤ cpi) (hhi : cpi ≤ 3200)
    (hbus : ∀ k, (w.env k).err = 0) :
    (set_cpi cpi w).1 = 0 ∧
    (set_cpi cpi w).2 =
      (_reg_write 0x41 0xB5 (_reg_write 0x7F 0x00 (_reg_write 0x85 (cpi / 200)
        (_reg_write 0x7F 0xFF (_reg_write 0x41 0xBA w).2).2).2).2).2 ∧
    bus (set_cpi cpi w).2.trace = bus w.trace ++
      [Event.spi_write [0xC1, 0xBA] 0, Event.spi_write [0xFF, 0xFF] 0,
       Event.spi_write [0x85, cpi / 200] 0, Event.spi_write [0xFF, 0x00] 0,
       Event.spi_write [0xC1, 0xB5] 0] ∧
    frames (set_cpi cpi w).2.trace = frames w.trace ++
      [[0xC1, 0xBA], [0xFF, 0xFF], [0x85, cpi / 200], [0xFF, 0x00], [0xC1, 0xB5]] ∧
    1 ≤ cpi / 200 ∧ cpi / 200 ≤ 16 := by
  have hv : cpi / 200 % 256 = cpi / 200 := by omega
  have hret := (set_cpi_range cpi w).2 hbus hlo hhi
  have hrange : ¬ (cpi > PMW3610_MAX_CPI ∨ cpi < PMW3610_MIN_CPI) := by
    simp only [PMW3610_MAX_CPI, PMW3610_MIN_CPI]
    omega
  have heq : set_cpi cpi w =
      burst_write [0x7F, PMW3610_REG_RES_STEP, 0x7F] [0xFF, cpi / 200, 0x00] 3 w := by
    unfold set_cpi
    simp only [hrange, if_false, hv, last_call_result]
  have hb := burst_write_zero [0x7F, PMW3610_REG_RES_STEP, 0x7F] [0xFF, cpi / 200, 0x00] 3 w
    (by rw [← heq]; exact hret)
  rw [← heq] at hb
  have hb' : bus (set_cpi cpi w).2.trace = bus w.trace ++
      [Event.spi_write [0xC1, 0xBA] 0, Event.spi_write [0xFF, 0xFF] 0,
       Event.spi_write [0x85, cpi / 200] 0, Event.spi_write [0xFF, 0x00] 0,
       Event.spi_write [0xC1, 0xB5] 0] := by
    rw [hb]
    simp [List.range_succ, SPI_WRITE_BIT, PMW3610_REG_RES_STEP]
  refine ⟨hret, ?_, hb', ?_, by omega, by omega⟩
  · rw [heq]
    unfold burst_write
    simp [last_call_result, burst_write_loop, _reg_write_ok, hbus,
      PMW3610_REG_SPI_CLK_ON_REQ, PMW3610_SPI_CLOCK_CMD_ENABLE, PMW3610_SPI_CLOCK_CMD_DISABLE,
      PMW3610_REG_RES_STEP]
  · rw [frames_of_bus _ _ _ hb']
    simp [frame_of]

/-- Witness for C13 at 800 cpi on working hardware. -/
theorem C13_set_cpi_sequence_witness :
    frames (set_cpi 800 (fresh_world (good_env []))).2.trace =
      [[0xC1, 0xBA], [0xFF, 0xFF], [0x85, 4], [0xFF, 0x00], [0xC1, 0xB5]] := by
  have h := (C13_set_cpi_sequence 800 (fresh_world (good_env [])) (by decide) (by decide)
    (fun _ => rfl)).2.2.2.1
  simpa [frames, bus, fresh_world] using h

/-! ## Register codes of the attributes (C14) -/

/-- Inside `[200, 3200]` `set_cpi` is the CPI burst with the code `cpi / 200`,
which lies in `1 .. 16`. -/
theorem set_cpi_eq (cpi : Nat) (w : World) (hlo : 200 ≤ cpi) (hhi : cpi ≤ 3200) :
    set_cpi cpi w = burst_write [0x7F, PMW3610_REG_RES_STEP, 0x7F] [0xFF, cpi / 200, 0x00] 3 w ∧
    1 ≤ cpi / 200 ∧ cpi / 200 ≤ 16 := by
  have hv : cpi / 200 % 256 = cpi / 200 := by omega
  have hrange : ¬ (cpi > PMW3610_MAX_CPI ∨ cpi < PMW3610_MIN_CPI) := by
    simp only [PMW3610_MAX_CPI, PMW3610_MIN_CPI]
    omega
  refine ⟨?_, by omega, by omega⟩
  unfold set_cpi
  simp only [hrange, if_false, hv, last_call_result]

/-- Inside `[10, 2550]` `set_sample_time` writes the code `t / 10`, which lies in
`1 .. 255`. -/
theorem set_sample_time_eq (reg t : Nat) (w : World) (hlo : 10 ≤ t) (hhi : t ≤ 2550) :
    set_sample_time reg t w = reg_write reg (t / 10) w ∧ 1 ≤ t / 10 ∧ t / 10 ≤ 255 := by
  have hv : t / 10 % 256 = t / 10 := by omega
  refine ⟨?_, by omega, by omega⟩
  unfold set_sample_time
  simp only []
  rw [if_neg (by omega), hv]

/-- Inside its range `[mintime, 255 * mintime]`, with `mintime` positive,
`set_downshift_time` passes its assertion and writes the code `t / mintime`,
which lies in `1 .. 255`. -/
theorem set_downshift_time_eq (cfg : Kconfig) (reg t mn : Nat) (w : World)
    (hb : downshift_bounds cfg reg = some (255 * mn, mn)) (hmn : 0 < mn)
    (hlo : mn ≤ t) (hhi : t ≤ 255 * mn) :
    set_downshift_time cfg reg t w = reg_write reg (t / mn) w ∧
    1 ≤ t / mn ∧ t / mn ≤ 255 ∧ 255 * mn / mn ≤ UINT8_MAX := by
  have h1 : 1 ≤ t / mn := Nat.div_pos hlo hmn
  have h2 : t / mn ≤ 255 := Nat.div_le_of_le_mul (by rw [Nat.mul_comm]; exact hhi)
  have h3 : 255 * mn / mn = 255 := Nat.mul_div_cancel 255 hmn
  have hv : t / mn % 256 = t / mn := by omega
  refine ⟨?_, h1, h2, by rw [h3]; decide⟩
  unfold set_downshift_time
  rw [hb]
  simp only []
  rw [if_neg (by omega), h3, hv]
  simp [__ASSERT_NO_MSG, hmn, UINT8_MAX]

/-- The bounds `set_downshift_time` computes for the rest1 and rest2 registers
when the constant expressions of the source do not overflow. -/
theorem downshift_bounds_rest (cfg : Kconfig)
    (hov1 : 255 * 16 * cfg.CONFIG_PMW3610_REST1_SAMPLE_TIME_MS < 2147483648)
    (hov2 : 255 * 128 * cfg.CONFIG_PMW3610_REST2_SAMPLE_TIME_MS < 2147483648) :
    downshift_bounds cfg PMW3610_REG_RUN_DOWNSHIFT = some (255 * 32, 32) ∧
    downshift_bounds cfg PMW3610_REG_REST1_DOWNSHIFT =
      some (255 * (16 * cfg.CONFIG_PMW3610_REST1_SAMPLE_TIME_MS),
        16 * cfg.CONFIG_PMW3610_REST1_SAMPLE_TIME_MS) ∧
    downshift_bounds cfg PMW3610_REG_REST2_DOWNSHIFT =
      some (255 * (128 * cfg.CONFIG_PMW3610_REST2_SAMPLE_TIME_MS),
        128 * cfg.CONFIG_PMW3610_REST2_SAMPLE_TIME_MS) := by
  refine ⟨by simp [downshift_bounds], ?_, ?_⟩
  · simp only [downshift_bounds, PMW3610_REG_REST1_DOWNSHIFT, PMW3610_REG_RUN_DOWNSHIFT,
      Nat.reduceEqDiff, if_false, if_true, Option.some.injEq, Prod.mk.injEq]
    omega
  · simp only [downshift_bounds, PMW3610_REG_REST2_DOWNSHIFT, PMW3610_REG_REST1_DOWNSHIFT,
      PMW3610_REG_RUN_DOWNSHIFT, Nat.reduceEqDiff, if_false, if_true, Option.some.injEq,
      Prod.mk.injEq]
    omega

/-- C14: on a ready device, for every attribute and every value `v` (`val1` read
as `uint32_t`) inside its range, `pmw3610_attr_set` performs the register write
of the attribute with the code `v / step` (step 200 for CPI, 10 for the three
sample times, 32 for run downshift, `16*R1` for rest1 downshift, `128*R2` for
rest2 downshift, with `R1, R2 > 0` and the constant expressions `255*16*R1` and
`255*128*R2` not overflowing `int`). The range is `[step, 255*step]` (`[step,
16*step]` for CPI), the code lies in `1 .. 255` (`1 .. 16` for CPI) and is
unchanged by the store in `uint8_t`, and the assertion `mintime > 0 &&
maxtime / mintime <= UINT8_MAX` of `set_downshift_time` holds for each of its
three registers. -/
theorem C14_register_code (cfg : Kconfig) (dev : Dev) (attr : pmw3610_attribute)
    (val : sensor_value) (lo hi step : Nat)
    (hready : dev.data.ready = true)
    (hR1 : 0 < cfg.CONFIG_PMW3610_REST1_SAMPLE_TIME_MS)
    (hR2 : 0 < cfg.CONFIG_PMW3610_REST2_SAMPLE_TIME_MS)
    (hov1 : 255 * 16 * cfg.CONFIG_PMW3610_REST1_SAMPLE_TIME_MS < 2147483648)
    (hov2 : 255 * 128 * cfg.CONFIG_PMW3610_REST2_SAMPLE_TIME_MS < 2147483648)
    (hrange : attr_range cfg attr = some (lo, hi))
    (hstep : attr_step cfg attr = some step)
    (hlo : lo ≤ to_uint32 val.val1) (hhi : to_uint32 val.val1 ≤ hi) :
    0 < step ∧ lo = step ∧
    (hi = if attr = pmw3610_attribute.PMW3610_ATTR_CPI then 16 * step else 255 * step) ∧
    1 ≤ to_uint32 val.val1 / step ∧
    (to_uint32 val.val1 / step ≤
      if attr = pmw3610_attribute.PMW3610_ATTR_CPI then 16 else 255) ∧
    to_uint32 val.val1 / step % 256 = to_uint32 val.val1 / step ∧
    pmw3610_attr_set cfg dev sensor_channel.SENSOR_CHAN_ALL attr val =
      ((attr_write attr (to_uint32 val.val1 / step) dev.w).1,
       { dev with w := (attr_write attr (to_uint32 val.val1 / step) dev.w).2 }) ∧
    (∀ reg mx mn, downshift_bounds cfg reg = some (mx, mn) →
      0 < mn ∧ mx / mn ≤ UINT8_MAX) := by
  obtain ⟨db0, db1, db2⟩ := downshift_bounds_rest cfg hov1 hov2
  have hassert : ∀ reg mx mn, downshift_bounds cfg reg = some (mx, mn) →
      0 < mn ∧ mx / mn ≤ UINT8_MAX := by
    intro reg mx mn hb
    by_cases c1 : reg = PMW3610_REG_RUN_DOWNSHIFT
    · rw [c1, db0] at hb
      simp only [Option.some.injEq, Prod.mk.injEq] at hb
      obtain ⟨rfl, rfl⟩ := hb
      exact ⟨by decide, by decide⟩
    · by_cases c2 : reg = PMW3610_REG_REST1_DOWNSHIFT
      · rw [c2, db1] at hb
        simp only [Option.some.injEq, Prod.mk.injEq] at hb
        obtain ⟨rfl, rfl⟩ := hb
        refine ⟨by omega, ?_⟩
        rw [Nat.mul_div_cancel 255 (by omega)]
        decide
      · by_cases c3 : reg = PMW3610_REG_REST2_DOWNSHIFT
        · rw [c3, db2] at hb
          simp only [Option.some.injEq, Prod.mk.injEq] at hb
          obtain ⟨rfl, rfl⟩ := hb
          refine ⟨by omega, ?_⟩
          rw [Nat.mul_div_cancel 255 (by omega)]
          decide
        · simp [downshift_bounds, c1, c2, c3] at hb
  cases attr with
  | PMW3610_ATTR_CPI =>
    simp only [attr_range, attr_step, Option.some.injEq, Prod.mk.injEq] at hrange hstep
    obtain ⟨rfl, rfl⟩ := hrange
    subst hstep
    obtain ⟨e, q1, q2⟩ := set_cpi_eq (to_uint32 val.val1) dev.w hlo hhi
    refine ⟨by decide, rfl, by simp, q1, by simpa using q2, by omega, ?_, hassert⟩
    simp [pmw3610_attr_set, hready, PMW3610_SVALUE_TO_CPI, e, attr_write]
  | PMW3610_ATTR_RUN_DOWNSHIFT_TIME =>
    simp only [attr_range, attr_step, Option.some.injEq, Prod.mk.injEq] at hrange hstep
    obtain ⟨rfl, rfl⟩ := hrange
    subst hstep
    obtain ⟨e, q1, q2, _⟩ := set_downshift_time_eq cfg PMW3610_REG_RUN_DOWNSHIFT
      (to_uint32 val.val1) 32 dev.w db0 (by decide) hlo (by omega)
    refine ⟨by decide, rfl, by simp, q1, by simpa using q2, by omega, ?_, hassert⟩
    simp [pmw3610_attr_set, hready, PMW3610_SVALUE_TO_TIME, e, attr_write]
  | PMW3610_ATTR_REST1_DOWNSHIFT_TIME =>
    simp only [attr_range, attr_step, Option.some.injEq, Prod.mk.injEq] at hrange hstep
    obtain ⟨rfl, rfl⟩ := hrange
    subst hstep
    obtain ⟨e, q1, q2, _⟩ := set_downshift_time_eq cfg PMW3610_REG_REST1_DOWNSHIFT
      (to_uint32 val.val1) (16 * cfg.CONFIG_PMW3610_REST1_SAMPLE_TIME_MS) dev.w db1
      (by omega) hlo (by omega)
    refine ⟨by omega, rfl, by simp; omega, q1, by simpa using q2, by omega, ?_, hassert⟩
    simp [pmw3610_attr_set, hready, PMW3610_SVALUE_TO_TIME, e, attr_write]
  | PMW3610_ATTR_REST2_DOWNSHIFT_TIME =>
    simp only [attr_range, attr_step, Option.some.injEq, Prod.mk.injEq] at hrange hstep
    obtain ⟨rfl, rfl⟩ := hrange
    subst hstep
    obtain ⟨e, q1, q2, _⟩ := set_downshift_time_eq cfg PMW3610_REG_REST2_DOWNSHIFT
      (to_uint32 val.val1) (128 * cfg.CONFIG_PMW3610_REST2_SAMPLE_TIME_MS) dev.w db2
      (by omega) hlo (by omega)
    refine ⟨by omega, rfl, by simp; omega, q1, by simpa using q2, by omega, ?_, hassert⟩
    simp [pmw3610_attr_set, hready, PMW3610_SVALUE_TO_TIME, e, attr_write]
  | PMW3610_ATTR_REST1_SAMPLE_TIME =>
    simp only [attr_range, attr_step, Option.some.injEq, Prod.mk.injEq] at hrange hstep
    obtain ⟨rfl, rfl⟩ := hrange
    subst hstep
    obtain ⟨e, q1, q2⟩ := set_sample_time_eq PMW3610_REG_REST1_PERIOD
      (to_uint32 val.val1) dev.w hlo hhi
    refine ⟨by decide, rfl, by simp, q1, by simpa using q2, by omega, ?_, hassert⟩
    simp [pmw3610_attr_set, hready, PMW3610_SVALUE_TO_TIME, e, attr_write]
  | PMW3610_ATTR_REST2_SAMPLE_TIME =>
    simp only [attr_range, attr_step, Option.some.injEq, Prod.mk.injEq] at hrange hstep
    obtain ⟨rfl, rfl⟩ := hrange
    subst hstep
    obtain ⟨e, q1, q2⟩ := set_sample_time_eq PMW3610_REG_REST2_PERIOD
      (to_uint32 val.val1) dev.w hlo hhi
    refine ⟨by decide, rfl, by simp, q1, by simpa using q2, by omega, ?_, hassert⟩
    simp [pmw3610_attr_set, hready, PMW3610_SVALUE_TO_TIME, e, attr_write]
  | PMW3610_ATTR_REST3_SAMPLE_TIME =>
    simp only [attr_range, attr_step, Option.some.injEq, Prod.mk.injEq] at hrange hstep
    obtain ⟨rfl, rfl⟩ := hrange
    subst hstep
    obtain ⟨e, q1, q2⟩ := set_sample_time_eq PMW3610_REG_REST3_PERIOD
      (to_uint32 val.val1) dev.w hlo hhi
    refine ⟨by decide, rfl, by simp, q1, by simpa using q2, by omega, ?_, hassert⟩
    simp [pmw3610_attr_set, hready, PMW3610_SVALUE_TO_TIME, e, attr_write]
  | other n => simp [attr_range] at hrange

/-- Witness for C14 on the rest1 downshift time with `R1 = 40`: the value 9600
is written as the code `9600 / 640 = 15`. -/
theorem C14_register_code_witness :
    pmw3610_attr_set sample_cfg (ready_dev (good_env [])) sensor_channel.SENSOR_CHAN_ALL
      pmw3610_attribute.PMW3610_ATTR_REST1_DOWNSHIFT_TIME { val1 := 9600, val2 := 0 } =
      ((reg_write PMW3610_REG_REST1_DOWNSHIFT 15 (ready_dev (good_env [])).w).1,
       { ready_dev (good_env []) with
         w := (reg_write PMW3610_REG_REST1_DOWNSHIFT 15 (ready_dev (good_env [])).w).2 }) :=
  (C14_register_code sample_cfg (ready_dev (good_env []))
    pmw3610_attribute.PMW3610_ATTR_REST1_DOWNSHIFT_TIME { val1 := 9600, val2 := 0 }
    640 163200 640 rfl (by decide) (by decide) (by decide) (by decide) rfl rfl
    (by decide) (by decide)).2.2.2.2.2.2.1

/-! ## The order of the Configure step (C18) -/

/-- Appending an operation to a run is a guarded call after the run. -/
theorem run_until_error_snoc (ops : List (World → Int × World)) (f : World → Int × World)
    (w : World) :
    run_until_error (ops ++ [f]) w = if_no_err (run_until_error ops w) f := by
  induction ops generalizing w with
  | nil =>
    simp only [List.nil_append, run_until_error, if_no_err, if_true]
    exact last_call_result (f w)
  | cons op ops ih =>
    simp only [List.cons_append, run_until_error]
    by_cases h : (op w).1 = 0
    · simp only [h, ne_eq, not_true_eq_false, if_false]
      exact ih _
    · simp [h, if_no_err]

/-- The register-clearing loop of Configure is the run of the four reads. -/
theorem configure_clear_loop_eq (w : World) :
    configure_clear_loop 4 0x02 0 w =
      run_until_error [read_clear 0x02, read_clear 0x03, read_clear 0x04, read_clear 0x05] w := by
  simp only [configure_clear_loop, run_until_error, read_clear]
  split_ifs <;> simp_all

/-- The Configure step is the run, until the first error, of its register
operations in the listed order. -/
theorem configure_eq_run (cfg : Kconfig) (w : World) :
    pmw3610_async_init_configure cfg w = run_until_error (configure_ops cfg) w := by
  unfold pmw3610_async_init_configure
  simp only [last_call_result]
  rw [configure_clear_loop_eq, ← run_until_error_snoc, ← run_until_error_snoc,
    ← run_until_error_snoc, ← run_until_error_snoc, ← run_until_error_snoc,
    ← run_until_error_snoc, ← run_until_error_snoc, ← run_until_error_snoc]
  rfl

/-- In a run, the operations before the first failing one all returned zero,
the failing one ends the run with its result, and the rest is not issued. -/
theorem run_until_error_stops (pre post : List (World → Int × World))
    (op : World → Int × World) (w : World)
    (hpre : (run_until_error pre w).1 = 0)
    (hop : (op (run_until_error pre w).2).1 ≠ 0) :
    run_until_error (pre ++ op :: post) w = op (run_until_error pre w).2 := by
  induction pre generalizing w with
  | nil => simp [run_until_error, hop] at hop ⊢; simp [hop]
  | cons a pre ih =>
    simp only [List.cons_append, run_until_error] at hpre hop ⊢
    by_cases h : (a w).1 = 0
    · simp only [h, ne_eq, not_true_eq_false, if_false] at hpre hop ⊢
      exact ih _ hpre hop
    · simp only [ne_eq, h, not_false_eq_true, if_true] at hpre

/-- With a succeeding bus a run makes the bus transfers of its operations, in
order, and returns zero. -/
theorem run_until_error_sends (ops : List (World → Int × World)) (ess : List (List Event))
    (h : List.Forall₂ op_sends ops ess) : op_sends (run_until_error ops) ess.flatten := by
  induction h with
  | nil =>
    intro w _
    simp [run_until_error]
  | cons h1 _ ih =>
    intro w hw
    obtain ⟨a1, a2, a3⟩ := h1 w hw
    obtain ⟨b1, b2, b3⟩ := ih _ (by rw [a2]; exact hw)
    simp only [run_until_error, a1, ne_eq, not_true_eq_false, if_false, List.flatten_cons]
    exact ⟨b1, by rw [b2, a2], by rw [b3, a3, List.append_assoc]⟩

theorem read_clear_sends (reg : Nat) : op_sends (read_clear reg) (sent_read reg) := by
  intro w hw
  have h := reg_read_ok reg 0 w hw
  exact ⟨h, reg_read_env reg 0 w, reg_read_zero reg 0 w h⟩

theorem reg_write_sends (reg val : Nat) : op_sends (reg_write reg val) (sent_write reg val) := by
  intro w hw
  have h := reg_write_ok reg val w hw
  refine ⟨h, reg_write_env reg val w, ?_⟩
  rw [reg_write_zero reg val w h]
  simp [sent_write, SPI_WRITE_BIT]

theorem set_cpi_sends (cpi : Nat) (hlo : 200 ≤ cpi) (hhi : cpi ≤ 3200) :
    op_sends (set_cpi cpi) (sent_cpi (cpi / 200)) := by
  intro w hw
  obtain ⟨e, _, _⟩ := set_cpi_eq cpi w hlo hhi
  have h := (set_cpi_range cpi w).2 hw hlo hhi
  refine ⟨h, set_cpi_env cpi w, ?_⟩
  rw [e] at h ⊢
  rw [burst_write_zero _ _ _ _ h]
  simp [List.range_succ, SPI_WRITE_BIT, PMW3610_REG_RES_STEP, sent_cpi]

theorem set_sample_time_sends (reg t : Nat) (hlo : 10 ≤ t) (hhi : t ≤ 2550) :
    op_sends (set_sample_time reg t) (sent_write reg (t / 10)) := by
  intro w hw
  rw [(set_sample_time_eq reg t w hlo hhi).1]
  exact reg_write_sends reg (t / 10) w hw

theorem set_downshift_time_sends (cfg : Kconfig) (reg t mn : Nat)
    (hb : downshift_bounds cfg reg = some (255 * mn, mn)) (hmn : 0 < mn)
    (hlo : mn ≤ t) (hhi : t ≤ 255 * mn) :
    op_sends (set_downshift_time cfg reg t) (sent_write reg (t / mn)) := by
  intro w hw
  rw [(set_downshift_time_eq cfg reg t mn w hb hmn hlo hhi).1]
  exact reg_write_sends reg (t / mn) w hw

/-- C18: the Configure step is the run of its register operations in exactly
this order: reads of registers `0x02`, `0x03`, `0x04`, `0x05`; the CPI write
sequence; the write `0x11 <- 0x0D`; the sample-time writes to `0x1C`, `0x1E`,
`0x20`; the downshift writes to `0x1B`, `0x1D`, `0x1F`. For every outcome of
the hardware calls, when an operation of the list fails after all earlier ones
returned zero, the step returns the result of that operation and issues no
later one. With a succeeding bus and in-range configuration constants the step
returns zero and its bus transfers are those of the twelve operations, in
order. -/
theorem C18_configure_order (cfg : Kconfig) (w : World) :
    pmw3610_async_init_configure cfg w = run_until_error (configure_ops cfg) w ∧
    (∀ (pre post : List (World → Int × World)) (op : World → Int × World),
      configure_ops cfg = pre ++ op :: post →
      (run_until_error pre w).1 = 0 → (op (run_until_error pre w).2).1 ≠ 0 →
      pmw3610_async_init_configure cfg w = op (run_until_error pre w).2) ∧
    ((∀ k, (w.env k).err = 0) → config_in_range cfg →
      (pmw3610_async_init_configure cfg w).1 = 0 ∧
      bus (pmw3610_async_init_configure cfg w).2.trace =
        bus w.trace ++ (configure_sent cfg).flatten) := by
  refine ⟨configure_eq_run cfg w, ?_, ?_⟩
  · intro pre post op hsplit hpre hop
    rw [configure_eq_run, hsplit]
    exact run_until_error_stops pre post op w hpre hop
  · intro hw hcfg
    obtain ⟨⟨c1, c2⟩, ⟨a1, a2⟩, ⟨b1, b2⟩, ⟨e1, e2⟩, ⟨f1, f2⟩, ⟨g1, g2⟩, ⟨i1, i2⟩⟩ := hcfg
    obtain ⟨db0, db1, db2⟩ := downshift_bounds_rest cfg (by omega) (by omega)
    have m1 : cfg.CONFIG_PMW3610_CPI % 4294967296 = cfg.CONFIG_PMW3610_CPI :=
      Nat.mod_eq_of_lt (by omega)
    have m2 : cfg.CONFIG_PMW3610_REST1_SAMPLE_TIME_MS % 4294967296 =
        cfg.CONFIG_PMW3610_REST1_SAMPLE_TIME_MS := Nat.mod_eq_of_lt (by omega)
    have m3 : cfg.CONFIG_PMW3610_REST2_SAMPLE_TIME_MS % 4294967296 =
        cfg.CONFIG_PMW3610_REST2_SAMPLE_TIME_MS := Nat.mod_eq_of_lt (by omega)
    have m4 : cfg.CONFIG_PMW3610_REST3_SAMPLE_TIME_MS % 4294967296 =
        cfg.CONFIG_PMW3610_REST3_SAMPLE_TIME_MS := Nat.mod_eq_of_lt (by omega)
    have m5 : cfg.CONFIG_PMW3610_RUN_DOWNSHIFT_TIME_MS % 4294967296 =
        cfg.CONFIG_PMW3610_RUN_DOWNSHIFT_TIME_MS := Nat.mod_eq_of_lt (by omega)
    have m6 : cfg.CONFIG_PMW3610_REST1_DOWNSHIFT_TIME_MS % 4294967296 =
        cfg.CONFIG_PMW3610_REST1_DOWNSHIFT_TIME_MS := Nat.mod_eq_of_lt (by omega)
    have m7 : cfg.CONFIG_PMW3610_REST2_DOWNSHIFT_TIME_MS % 4294967296 =
        cfg.CONFIG_PMW3610_REST2_DOWNSHIFT_TIME_MS := Nat.mod_eq_of_lt (by omega)
    have hall : List.Forall₂ op_sends (configure_ops cfg) (configure_sent cfg) := by
      simp only [configure_ops, configure_sent, m1, m2, m3, m4, m5, m6, m7]
      refine List.Forall₂.cons (read_clear_sends _) (List.Forall₂.cons (read_clear_sends _)
        (List.Forall₂.cons (read_clear_sends _) (List.Forall₂.cons (read_clear_sends _)
        (List.Forall₂.cons (set_cpi_sends _ c1 c2) (List.Forall₂.cons (reg_write_sends _ _)
        (List.Forall₂.cons (set_sample_time_sends _ _ a1 a2)
        (List.Forall₂.cons (set_sample_time_sends _ _ b1 b2)
        (List.Forall₂.cons (set_sample_time_sends _ _ e1 e2)
        (List.Forall₂.cons (set_downshift_time_sends cfg _ _ 32 db0 (by decide) f1 (by omega))
        (List.Forall₂.cons (set_downshift_time_sends cfg _ _ _ db1 (by omega) g1 (by omega))
        (List.Forall₂.cons (set_downshift_time_sends cfg _ _ _ db2 (by omega) i1 (by omega))
        List.Forall₂.nil)))))))))))
    obtain ⟨r1, _, r3⟩ := run_until_error_sends _ _ hall w hw
    rw [configure_eq_run]
    exact ⟨r1, r3⟩

/-- Witness for C18: the sample configuration on working hardware. -/
theorem C18_configure_order_witness :
    (pmw3610_async_init_configure sample_cfg (fresh_world (good_env []))).1 = 0 ∧
    bus (pmw3610_async_init_configure sample_cfg (fresh_world (good_env []))).2.trace =
      bus (fresh_world (good_env [])).trace ++ (configure_sent sample_cfg).flatten :=
  (C18_configure_order sample_cfg (fresh_world (good_env []))).2.2 (fun _ => rfl)
    (by simp [config_in_range, valid_sample_time, sample_cfg])

/-! ## Chip-select around a register transaction (C21) -/

@[simp] theorem cs_bus_append (a b : List Event) : cs_bus (a ++ b) = cs_bus a ++ cs_bus b := by
  simp [cs_bus]

@[simp] theorem k_busy_wait_cs_bus (us : Nat) (w : World) :
    cs_bus (k_busy_wait us w).trace = cs_bus w.trace := by
  simp [k_busy_wait, World.emit, cs_bus, is_cs_or_bus]

@[simp] theorem k_busy_wait_cs_active (us : Nat) (w : World) :
    (k_busy_wait us w).cs_active = w.cs_active := rfl

@[simp] theorem assert_cs_bus (c : Bool) (w : World) :
    cs_bus (__ASSERT_NO_MSG c w).trace = cs_bus w.trace := by
  cases c <;> simp [__ASSERT_NO_MSG, World.emit, cs_bus, is_cs_or_bus]

@[simp] theorem assert_cs_active (c : Bool) (w : World) :
    (__ASSERT_NO_MSG c w).cs_active = w.cs_active := by
  cases c <;> rfl

@[simp] theorem spi_cs_ctrl_cs_bus (e : Bool) (w : World) :
    cs_bus (spi_cs_ctrl e w).2.trace =
      cs_bus w.trace ++ [Event.gpio_pin_set_cs e (w.env w.ops).err] := by
  cases e <;>
    simp [spi_cs_ctrl, gpio_pin_set_dt_cs, k_busy_wait, World.emit, cs_bus, is_cs_or_bus]

@[simp] theorem spi_cs_ctrl_cs_active (e : Bool) (w : World) :
    (spi_cs_ctrl e w).2.cs_active = if (w.env w.ops).err = 0 then e else w.cs_active := by
  cases e <;> rfl

@[simp] theorem spi_write_dt_cs_bus (tx : List Nat) (w : World) :
    cs_bus (spi_write_dt tx w).2.trace =
      cs_bus w.trace ++ [Event.spi_write tx (w.env w.ops).err] := by
  simp [spi_write_dt, cs_bus, is_cs_or_bus]

@[simp] theorem spi_write_dt_cs_active (tx : List Nat) (w : World) :
    (spi_write_dt tx w).2.cs_active = w.cs_active := rfl

@[simp] theorem spi_read_dt_cs_bus (b : Nat → Nat) (n : Nat) (w : World) :
    cs_bus (spi_read_dt b n w).2.2.trace =
      cs_bus w.trace ++ [Event.spi_read n (w.env w.ops).err] := by
  simp [spi_read_dt, cs_bus, is_cs_or_bus]

@[simp] theorem spi_read_dt_cs_active (b : Nat → Nat) (n : Nat) (w : World) :
    (spi_read_dt b n w).2.2.cs_active = w.cs_active := rfl

/-- The chip-select calls and bus transfers of `reg_read`, in order, for every
outcome of its four hardware calls. -/
theorem reg_read_cs_bus (reg buf : Nat) (w : World) :
    cs_bus (reg_read reg buf w).2.2.trace = cs_bus w.trace ++
      (if (w.env w.ops).err ≠ 0 then [Event.gpio_pin_set_cs true (w.env w.ops).err]
       else if (w.env (w.ops + 1)).err ≠ 0 then
         [Event.gpio_pin_set_cs true 0, Event.spi_write [reg] (w.env (w.ops + 1)).err]
       else if (w.env (w.ops + 2)).err ≠ 0 then
         [Event.gpio_pin_set_cs true 0, Event.spi_write [reg] 0,
          Event.spi_read 1 (w.env (w.ops + 2)).err]
       else
         [Event.gpio_pin_set_cs true 0, Event.spi_write [reg] 0, Event.spi_read 1 0,
          Event.gpio_pin_set_cs false (w.env (w.ops + 3)).err]) := by
  unfold reg_read
  simp only []
  split_ifs <;> simp_all

/-- The level of chip-select when `reg_read` returns. -/
theorem reg_read_cs_active (reg buf : Nat) (w : World) :
    (reg_read reg buf w).2.2.cs_active =
      if (w.env w.ops).err ≠ 0 then w.cs_active
      else if (w.env (w.ops + 1)).err ≠ 0 then true
      else if (w.env (w.ops + 2)).err ≠ 0 then true
      else if (w.env (w.ops + 3)).err ≠ 0 then true
      else false := by
  unfold reg_read
  simp only []
  split_ifs <;> simp_all

/-- The chip-select calls and the bus transfer of `_reg_write`, in order, for
every outcome of its three hardware calls. -/
theorem _reg_write_cs_bus (reg val : Nat) (w : World) :
    cs_bus (_reg_write reg val w).2.trace = cs_bus w.trace ++
      (if (w.env w.ops).err ≠ 0 then [Event.gpio_pin_set_cs true (w.env w.ops).err]
       else if (w.env (w.ops + 1)).err ≠ 0 then
         [Event.gpio_pin_set_cs true 0,
          Event.spi_write [SPI_WRITE_BIT ||| reg, val] (w.env (w.ops + 1)).err]
       else
         [Event.gpio_pin_set_cs true 0, Event.spi_write [SPI_WRITE_BIT ||| reg, val] 0,
          Event.gpio_pin_set_cs false (w.env (w.ops + 2)).err]) := by
  unfold _reg_write
  simp only []
  split_ifs <;> simp_all

/-- The level of chip-select when `_reg_write` returns. -/
theorem _reg_write_cs_active (reg val : Nat) (w : World) :
    (_reg_write reg val w).2.cs_active =
      if (w.env w.ops).err ≠ 0 then w.cs_active
      else if (w.env (w.ops + 1)).err ≠ 0 then true
      else if (w.env (w.ops + 2)).err ≠ 0 then true
      else false := by
  unfold _reg_write
  simp only []
  split_ifs <;> simp_all

/-- The chip-select calls and bus transfers of `motion_burst_read`, in order,
for every outcome of its four hardware calls. -/
theorem motion_burst_read_cs_bus (b : Nat → Nat) (n : Nat) (w : World) :
    cs_bus (motion_burst_read b n w).2.2.trace = cs_bus w.trace ++
      (if (w.env w.ops).err ≠ 0 then [Event.gpio_pin_set_cs true (w.env w.ops).err]
       else if (w.env (w.ops + 1)).err ≠ 0 then
         [Event.gpio_pin_set_cs true 0,
          Event.spi_write [PMW3610_REG_MOTION_BURST] (w.env (w.ops + 1)).err]
       else if (w.env (w.ops + 2)).err ≠ 0 then
         [Event.gpio_pin_set_cs true 0, Event.spi_write [PMW3610_REG_MOTION_BURST] 0,
          Event.spi_read n (w.env (w.ops + 2)).err]
       else
         [Event.gpio_pin_set_cs true 0, Event.spi_write [PMW3610_REG_MOTION_BURST] 0,
          Event.spi_read n 0, Event.gpio_pin_set_cs false (w.env (w.ops + 3)).err]) := by
  unfold motion_burst_read
  simp only []
  split_ifs <;> simp_all

/-- The level of chip-select when `motion_burst_read` returns. -/
theorem motion_burst_read_cs_active (b : Nat → Nat) (n : Nat) (w : World) :
    (motion_burst_read b n w).2.2.cs_active =
      if (w.env w.ops).err ≠ 0 then w.cs_active
      else if (w.env (w.ops + 1)).err ≠ 0 then true
      else if (w.env (w.ops + 2)).err ≠ 0 then true
      else if (w.env (w.ops + 3)).err ≠ 0 then true
      else false := by
  unfold motion_burst_read
  simp only []
  split_ifs <;> simp_all

/-- C21, as the code behaves: `reg_read(0x2D)` on hardware whose bus write (the
second hardware call) fails with `-5` returns `-5` with chip-select still
asserted: the only chip-select call it made is the assertion. In general, for
`reg_read`, `_reg_write` and `motion_burst_read`: when the chip-select
assertion succeeded and a bus transfer fails, the transaction returns non-zero
right after the failing transfer, chip-select is still asserted and no
de-assertion call was made. Only a transaction that returns zero has asserted
chip-select before its first bus transfer and de-asserted it after the last. -/
theorem C21_chip_select_left_asserted :
    ((reg_read 0x2D 0 (fresh_world (fail_at 1 (-5)))).1 = -5 ∧
      (reg_read 0x2D 0 (fresh_world (fail_at 1 (-5)))).2.2.cs_active = true ∧
      cs_bus (reg_read 0x2D 0 (fresh_world (fail_at 1 (-5)))).2.2.trace =
        [Event.gpio_pin_set_cs true 0, Event.spi_write [0x2D] (-5)]) ∧
    (∀ (reg buf : Nat) (w : World), (w.env w.ops).err = 0 →
      ((w.env (w.ops + 1)).err ≠ 0 ∨ (w.env (w.ops + 2)).err ≠ 0) →
      (reg_read reg buf w).1 ≠ 0 ∧ (reg_read reg buf w).2.2.cs_active = true ∧
      cs_bus (reg_read reg buf w).2.2.trace = cs_bus w.trace ++
        (Event.gpio_pin_set_cs true 0 ::
          (if (w.env (w.ops + 1)).err ≠ 0 then [Event.spi_write [reg] (w.env (w.ops + 1)).err]
           else [Event.spi_write [reg] 0, Event.spi_read 1 (w.env (w.ops + 2)).err]))) ∧
    (∀ (reg val : Nat) (w : World), (w.env w.ops).err = 0 → (w.env (w.ops + 1)).err ≠ 0 →
      (_reg_write reg val w).1 ≠ 0 ∧ (_reg_write reg val w).2.cs_active = true ∧
      cs_bus (_reg_write reg val w).2.trace = cs_bus w.trace ++
        [Event.gpio_pin_set_cs true 0,
         Event.spi_write [SPI_WRITE_BIT ||| reg, val] (w.env (w.ops + 1)).err]) ∧
    (∀ (b : Nat → Nat) (n : Nat) (w : World), (w.env w.ops).err = 0 →
      ((w.env (w.ops + 1)).err ≠ 0 ∨ (w.env (w.ops + 2)).err ≠ 0) →
      (motion_burst_read b n w).1 ≠ 0 ∧ (motion_burst_read b n w).2.2.cs_active = true ∧
      cs_bus (motion_burst_read b n w).2.2.trace = cs_bus w.trace ++
        (Event.gpio_pin_set_cs true 0 ::
          (if (w.env (w.ops + 1)).err ≠ 0 then
             [Event.spi_write [PMW3610_REG_MOTION_BURST] (w.env (w.ops + 1)).err]
           else [Event.spi_write [PMW3610_REG_MOTION_BURST] 0,
                 Event.spi_read n (w.env (w.ops + 2)).err]))) ∧
    (∀ (reg buf : Nat) (w : World), (reg_read reg buf w).1 = 0 →
      (reg_read reg buf w).2.2.cs_active = false ∧
      cs_bus (reg_read reg buf w).2.2.trace = cs_bus w.trace ++
        [Event.gpio_pin_set_cs true 0, Event.spi_write [reg] 0, Event.spi_read 1 0,
         Event.gpio_pin_set_cs false 0]) ∧
    (∀ (reg val : Nat) (w : World), (_reg_write reg val w).1 = 0 →
      (_reg_write reg val w).2.cs_active = false ∧
      cs_bus (_reg_write reg val w).2.trace = cs_bus w.trace ++
        [Event.gpio_pin_set_cs true 0, Event.spi_write [SPI_WRITE_BIT ||| reg, val] 0,
         Event.gpio_pin_set_cs false 0]) ∧
    (∀ (b : Nat → Nat) (n : Nat) (w : World), (motion_burst_read b n w).1 = 0 →
      (motion_burst_read b n w).2.2.cs_active = false ∧
      cs_bus (motion_burst_read b n w).2.2.trace = cs_bus w.trace ++
        [Event.gpio_pin_set_cs true 0, Event.spi_write [PMW3610_REG_MOTION_BURST] 0,
         Event.spi_read n 0, Event.gpio_pin_set_cs false 0]) := by
  refine ⟨⟨by decide, by decide, by decide⟩, ?_, ?_, ?_, ?_, ?_, ?_⟩
  · intro reg buf w h0 h12
    rw [reg_read_fst, reg_read_cs_active, reg_read_cs_bus]
    rcases h12 with h1 | h2
    · simp [h0, h1]
    · by_cases h1 : (w.env (w.ops + 1)).err = 0
      · simp [h0, h1, h2]
      · simp [h0, h1]
  · intro reg val w h0 h1
    rw [_reg_write_fst, _reg_write_cs_active, _reg_write_cs_bus]
    simp [h0, h1]
  · intro b n w h0 h12
    rw [motion_burst_read_fst, motion_burst_read_cs_active, motion_burst_read_cs_bus]
    rcases h12 with h1 | h2
    · simp [h0, h1]
    · by_cases h1 : (w.env (w.ops + 1)).err = 0
      · simp [h0, h1, h2]
      · simp [h0, h1]
  · intro reg buf w h
    rw [reg_read_fst] at h
    rw [reg_read_cs_active, reg_read_cs_bus]
    split_ifs at h ⊢ <;> simp_all
  · intro reg val w h
    rw [_reg_write_fst] at h
    rw [_reg_write_cs_active, _reg_write_cs_bus]
    split_ifs at h ⊢ <;> simp_all
  · intro b n w h
    rw [motion_burst_read_fst] at h
    rw [motion_burst_read_cs_active, motion_burst_read_cs_bus]
    split_ifs at h ⊢ <;> simp_all

/-- Witness for C21: a motion burst whose bus read (the third hardware call)
fails with `-5` returns with chip-select asserted. -/
theorem C21_chip_select_left_asserted_witness :
    (motion_burst_read (fun _ => 0) PMW3610_BURST_SIZE (fresh_world (fail_at 2 (-5)))).1 ≠ 0 ∧
    (motion_burst_read (fun _ => 0) PMW3610_BURST_SIZE
      (fresh_world (fail_at 2 (-5)))).2.2.cs_active = true :=
  have h := C21_chip_select_left_asserted.2.2.2.1 (fun _ => 0) PMW3610_BURST_SIZE
    (fresh_world (fail_at 2 (-5))) (by decide) (Or.inr (by decide))
  ⟨h.1, h.2.1⟩

/-! ## Frame of a fetch (C22) -/

/-- With an orientation preset enabled the stored position is a function of the
decoded pair alone. -/
theorem orientation_overwrites (cfg : Kconfig) (x0 y0 x y : Int)
    (hp : cfg.CONFIG_PMW3610_ORIENTATION_0 = true ∨ cfg.CONFIG_PMW3610_ORIENTATION_90 = true ∨
      cfg.CONFIG_PMW3610_ORIENTATION_180 = true ∨ cfg.CONFIG_PMW3610_ORIENTATION_270 = true) :
    orientation cfg x0 y0 x y = orient cfg (x, y) := by
  unfold orient orientation
  rcases hp with h | h | h | h <;> simp only [h, if_true]

/-- C22: when `pmw3610_sample_fetch` returns an error, which is `-ENOTSUP` for
a channel other than `SENSOR_CHAN_ALL`, `-EBUSY` for a device that is not ready
and the error of the motion burst read otherwise, the driver data (the stored
`x` and `y` and the smart flag with it) is unchanged and no write frame to
register `0x32` is sent: the device is untouched in the first two cases and
only the burst read has acted on the world in the third. When it returns zero, `x` and `y` are overwritten with
the pair decoded from the burst, put through the orientation preset of the
build. -/
theorem C22_position_changes_only_on_success (cfg : Kconfig) (dev : Dev)
    (chan : sensor_channel) :
    ((pmw3610_sample_fetch cfg dev chan).1 ≠ 0 →
      (pmw3610_sample_fetch cfg dev chan).2.data = dev.data ∧
      (pmw3610_sample_fetch cfg dev chan).2.data.x = dev.data.x ∧
      (pmw3610_sample_fetch cfg dev chan).2.data.y = dev.data.y ∧
      (pmw3610_sample_fetch cfg dev chan).2.data.sw_smart_flag = dev.data.sw_smart_flag ∧
      writes_to 0x32 (pmw3610_sample_fetch cfg dev chan).2.w.trace =
        writes_to 0x32 dev.w.trace) ∧
    (chan ≠ sensor_channel.SENSOR_CHAN_ALL →
      pmw3610_sample_fetch cfg dev chan = (-ENOTSUP, dev)) ∧
    (chan = sensor_channel.SENSOR_CHAN_ALL → dev.data.ready = false →
      pmw3610_sample_fetch cfg dev chan = (-EBUSY, dev)) ∧
    (chan = sensor_channel.SENSOR_CHAN_ALL → dev.data.ready = true →
      (motion_burst_read (fun _ => 0) PMW3610_BURST_SIZE dev.w).1 ≠ 0 →
      pmw3610_sample_fetch cfg dev chan =
        ((motion_burst_read (fun _ => 0) PMW3610_BURST_SIZE dev.w).1,
          { dev with w := (motion_burst_read (fun _ => 0) PMW3610_BURST_SIZE dev.w).2.2 })) ∧
    ((pmw3610_sample_fetch cfg dev chan).1 = 0 →
      ((pmw3610_sample_fetch cfg dev chan).2.data.x,
        (pmw3610_sample_fetch cfg dev chan).2.data.y) =
        orientation cfg dev.data.x dev.data.y
          (fetch_x cfg (motion_burst_read (fun _ => 0) PMW3610_BURST_SIZE dev.w).2.1)
          (fetch_y cfg (motion_burst_read (fun _ => 0) PMW3610_BURST_SIZE dev.w).2.1) ∧
      ((cfg.CONFIG_PMW3610_ORIENTATION_0 = true ∨ cfg.CONFIG_PMW3610_ORIENTATION_90 = true ∨
          cfg.CONFIG_PMW3610_ORIENTATION_180 = true ∨
          cfg.CONFIG_PMW3610_ORIENTATION_270 = true) →
        ((pmw3610_sample_fetch cfg dev chan).2.data.x,
          (pmw3610_sample_fetch cfg dev chan).2.data.y) =
          orient cfg
            (fetch_x cfg (motion_burst_read (fun _ => 0) PMW3610_BURST_SIZE dev.w).2.1,
             fetch_y cfg (motion_burst_read (fun _ => 0) PMW3610_BURST_SIZE dev.w).2.1))) := by
  have hns : chan ≠ sensor_channel.SENSOR_CHAN_ALL →
      pmw3610_sample_fetch cfg dev chan = (-ENOTSUP, dev) := by
    intro hc
    simp [pmw3610_sample_fetch, hc]
  have hnr : chan = sensor_channel.SENSOR_CHAN_ALL → dev.data.ready = false →
      pmw3610_sample_fetch cfg dev chan = (-EBUSY, dev) := by
    intro hc hr
    simp [pmw3610_sample_fetch, hc, hr]
  refine ⟨?_, hns, hnr, ?_, ?_⟩
  · intro herr
    by_cases hc : chan = sensor_channel.SENSOR_CHAN_ALL
    · by_cases hr : dev.data.ready = true
      · by_cases hm : (motion_burst_read (fun _ => 0) PMW3610_BURST_SIZE dev.w).1 = 0
        · subst hc
          rw [sample_fetch_eq cfg dev hr hm] at herr
          exact absurd rfl herr
        · subst hc
          rw [sample_fetch_fail_eq cfg dev hr hm]
          exact ⟨rfl, rfl, rfl, rfl, motion_burst_read_writes_to _ _ _ _⟩
      · have hr2 : dev.data.ready = false := by simpa using hr
        rw [hnr hc hr2]
        exact ⟨rfl, rfl, rfl, rfl, rfl⟩
    · rw [hns hc]
      exact ⟨rfl, rfl, rfl, rfl, rfl⟩
  · intro hc hr hm
    subst hc
    rw [sample_fetch_fail_eq cfg dev hr hm]
  · intro h0
    obtain ⟨_, _, _, hpos⟩ := sample_fetch_success cfg dev chan h0
    refine ⟨hpos, fun hp => ?_⟩
    rw [hpos]
    exact orientation_overwrites cfg _ _ _ _ hp

/-- Witness for C22: a fetch whose burst fails on the bus write (the second
hardware call) on a ready device storing the position `(3, -4)` with the smart
flag set. -/
theorem C22_position_changes_only_on_success_witness :
    (pmw3610_sample_fetch sample_cfg
      { data := { zero_data with ready := true, x := 3, y := -4, sw_smart_flag := true }
        w := fresh_world (fail_at 1 (-5)) }
      sensor_channel.SENSOR_CHAN_ALL).2.data =
      { zero_data with ready := true, x := 3, y := -4, sw_smart_flag := true } :=
  ((C22_position_changes_only_on_success sample_cfg
    { data := { zero_data with ready := true, x := 3, y := -4, sw_smart_flag := true }
      w := fresh_world (fail_at 1 (-5)) }
    sensor_channel.SENSOR_CHAN_ALL).1 (by decide)).1

/-! ## The write-bit assertion (C23) -/

@[simp] theorem assert_failures_append (a b : List Event) :
    assert_failures (a ++ b) = assert_failures a + assert_failures b := by
  simp [assert_failures]

@[simp] theorem k_busy_wait_asserts (us : Nat) (w : World) :
    assert_failures (k_busy_wait us w).trace = assert_failures w.trace := by
  simp [k_busy_wait, World.emit, assert_failures, is_assert_failed]

@[simp] theorem assert_asserts (c : Bool) (w : World) :
    assert_failures (__ASSERT_NO_MSG c w).trace =
      assert_failures w.trace + (if c = true then 0 else 1) := by
  cases c <;> simp [__ASSERT_NO_MSG, World.emit, assert_failures, is_assert_failed]

@[simp] theorem spi_cs_ctrl_asserts (e : Bool) (w : World) :
    assert_failures (spi_cs_ctrl e w).2.trace = assert_failures w.trace := by
  cases e <;>
    simp [spi_cs_ctrl, gpio_pin_set_dt_cs, k_busy_wait, World.emit, assert_failures,
      is_assert_failed]

@[simp] theorem spi_write_dt_asserts (tx : List Nat) (w : World) :
    assert_failures (spi_write_dt tx w).2.trace = assert_failures w.trace := by
  simp [spi_write_dt, assert_failures, is_assert_failed]

@[simp] theorem spi_read_dt_asserts (b : Nat → Nat) (n : Nat) (w : World) :
    assert_failures (spi_read_dt b n w).2.2.trace = assert_failures w.trace := by
  simp [spi_read_dt, assert_failures, is_assert_failed]

/-- A call of `_reg_write` records one assertion failure exactly when the
address it is given has the write bit set, whatever the hardware answers. -/
theorem _reg_write_asserts (reg val : Nat) (w : World) :
    assert_failures (_reg_write reg val w).2.trace =
      assert_failures w.trace + (if reg &&& SPI_WRITE_BIT = 0 then 0 else 1) := by
  unfold _reg_write
  simp only []
  split_ifs <;> simp_all

/-- A call of `reg_read` records one assertion failure exactly when the address
it is given has the write bit set, whatever the hardware answers. -/
theorem reg_read_asserts (reg buf : Nat) (w : World) :
    assert_failures (reg_read reg buf w).2.2.trace =
      assert_failures w.trace + (if reg &&& SPI_WRITE_BIT = 0 then 0 else 1) := by
  unfold reg_read
  simp only []
  split_ifs <;> simp_all

/-- The assertion failures of a data loop of `burst_write` that returned zero:
one for each address of the burst with the write bit set. -/
theorem burst_write_loop_asserts (addr buf : List Nat) (n i : Nat) (w : World)
    (h : (burst_write_loop addr buf n i w).1 = 0) :
    assert_failures (burst_write_loop addr buf n i w).2.trace = assert_failures w.trace +
      ((List.range' i n).filter (fun k => decide (addr.getD k 0 &&& SPI_WRITE_BIT ≠ 0))).length := by
  induction n generalizing i w with
  | zero => simp [burst_write_loop]
  | succ n ih =>
    simp only [burst_write_loop] at h ⊢
    split_ifs at h ⊢ with h1
    · exact absurd h h1
    · rw [ih _ _ h, _reg_write_asserts, List.range'_succ, List.filter_cons]
      by_cases hb : addr.getD i 0 &&& SPI_WRITE_BIT = 0
      · have hd : decide (addr.getD i 0 &&& SPI_WRITE_BIT ≠ 0) = false :=
          decide_eq_false (not_not.mpr hb)
        rw [if_pos hb, hd]
        simp only [Bool.false_eq_true, if_false, Nat.add_zero]
      · have hd : decide (addr.getD i 0 &&& SPI_WRITE_BIT ≠ 0) = true := decide_eq_true hb
        rw [if_neg hb, hd]
        simp only [if_true, List.length_cons]
        omega

/-- The assertion failures of a `burst_write` that returned zero. -/
theorem burst_write_asserts (addr buf : List Nat) (n : Nat) (w : World)
    (h : (burst_write addr buf n w).1 = 0) :
    assert_failures (burst_write addr buf n w).2.trace = assert_failures w.trace +
      ((List.range n).filter (fun k => decide (addr.getD k 0 &&& SPI_WRITE_BIT ≠ 0))).length := by
  have hclk : PMW3610_REG_SPI_CLK_ON_REQ &&& SPI_WRITE_BIT = 0 := by decide
  unfold burst_write at h ⊢
  simp only [last_call_result] at h ⊢
  split_ifs at h ⊢ with h1 h2
  · exact absurd h h1
  · exact absurd h h2
  · simp only [ne_eq, not_not] at h2
    rw [_reg_write_asserts, burst_write_loop_asserts _ _ _ _ _ h2, _reg_write_asserts,
      List.range_eq_range']
    simp [hclk]

set_option maxRecDepth 1000000 in
/-- C23, as the code behaves: the address `PMW3610_REG_RES_STEP = 0x85` that
`set_cpi` hands to `burst_write`, and so to `_reg_write`, has bit 7 set; it is
the only address at a call site of the driver that has. `set_cpi(800)` on
working hardware returns zero and violates the assertion
`(reg & SPI_WRITE_BIT) == 0` of `_reg_write` once, and so does the Configure
step of initialisation with the CPI 800. In general `_reg_write` and `reg_read`
violate their assertion exactly when the address has bit 7 set, and every
`set_cpi` with a value in `[200, 3200]` that returns zero has violated it
exactly once. -/
theorem C23_res_step_trips_assertion :
    PMW3610_REG_RES_STEP &&& SPI_WRITE_BIT = 0x80 ∧
    driver_reg_addrs.filter (fun r => decide (r &&& SPI_WRITE_BIT ≠ 0)) =
      [PMW3610_REG_RES_STEP] ∧
    ((set_cpi 800 (fresh_world (good_env []))).1 = 0 ∧
      assert_failures (set_cpi 800 (fresh_world (good_env []))).2.trace = 1 ∧
      frames (set_cpi 800 (fresh_world (good_env []))).2.trace =
        [[0xC1, 0xBA], [0xFF, 0xFF], [0x85, 4], [0xFF, 0x00], [0xC1, 0xB5]]) ∧
    ((pmw3610_async_init_configure sample_cfg (fresh_world (good_env []))).1 = 0 ∧
      assert_failures
        (pmw3610_async_init_configure sample_cfg (fresh_world (good_env []))).2.trace = 1) ∧
    (∀ (reg val : Nat) (w : World),
      assert_failures (_reg_write reg val w).2.trace =
        assert_failures w.trace + (if reg &&& SPI_WRITE_BIT = 0 then 0 else 1)) ∧
    (∀ (reg buf : Nat) (w : World),
      assert_failures (reg_read reg buf w).2.2.trace =
        assert_failures w.trace + (if reg &&& SPI_WRITE_BIT = 0 then 0 else 1)) ∧
    (∀ (cpi : Nat) (w : World), 200 ≤ cpi → cpi ≤ 3200 → (set_cpi cpi w).1 = 0 →
      assert_failures (set_cpi cpi w).2.trace = assert_failures w.trace + 1) := by
  refine ⟨by decide, by decide, ⟨by decide, by decide, by decide⟩, ⟨by decide, by decide⟩,
    _reg_write_asserts, reg_read_asserts, ?_⟩
  intro cpi w hlo hhi h
  rw [(set_cpi_eq cpi w hlo hhi).1] at h ⊢
  rw [burst_write_asserts _ _ _ _ h]
  have hc : ((List.range 3).filter
      (fun k => decide ([0x7F, PMW3610_REG_RES_STEP, 0x7F].getD k 0 &&& SPI_WRITE_BIT ≠ 0))).length
      = 1 := by decide
  rw [hc]

/-- Witness for C23: `set_cpi(3200)` on working hardware. -/
theorem C23_res_step_trips_assertion_witness :
    assert_failures (set_cpi 3200 (fresh_world (good_env []))).2.trace = 1 :=
  C23_res_step_trips_assertion.2.2.2.2.2.2 3200 (fresh_world (good_env [])) (by decide)
    (by decide) (by decide)

/-! ## Scheduling of the init work (C24) -/

/-- A run of operations that schedule nothing schedules nothing. -/
theorem run_until_error_scheduled (ops : List (World → Int × World))
    (h : ∀ op ∈ ops, ∀ w, scheduled (op w).2.trace = scheduled w.trace) (w : World) :
    scheduled (run_until_error ops w).2.trace = scheduled w.trace := by
  induction ops generalizing w with
  | nil => rfl
  | cons op ops ih =>
    simp only [run_until_error]
    split_ifs
    · exact h op (List.mem_cons_self _ _) w
    · rw [ih (fun o ho => h o (List.mem_cons_of_mem _ ho)), h op (List.mem_cons_self _ _) w]

/-- No step function of the init state machine schedules the init work. -/
theorem step_fn_scheduled (cfg : Kconfig) (step : Nat) (fn : Kconfig → World → Int × World)
    (h : async_init_fn step = some fn) (w : World) :
    scheduled (fn cfg w).2.trace = scheduled w.trace := by
  have hrw : ∀ reg val w, scheduled (reg_write reg val w).2.trace = scheduled w.trace :=
    fun reg val w => reg_write_filter is_schedule transport_not_schedule reg val w
  have hrd : ∀ reg buf w, scheduled (reg_read reg buf w).2.2.trace = scheduled w.trace :=
    fun reg buf w => reg_read_filter is_schedule transport_not_schedule reg buf w
  have hcs : ∀ e w, scheduled (spi_cs_ctrl e w).2.trace = scheduled w.trace :=
    fun e w => spi_cs_ctrl_filter is_schedule transport_not_schedule e w
  unfold async_init_fn at h
  rcases step with _ | _ | _ | _ | n
  · simp only [List.get?_cons_zero, Option.some.injEq] at h
    subst h
    simp only [pmw3610_async_init_power_up, hrw, hcs]
  · simp only [List.get?_cons_succ, List.get?_cons_zero, Option.some.injEq] at h
    subst h
    simp only [pmw3610_async_init_clear_ob1, hrw]
  · simp only [List.get?_cons_succ, List.get?_cons_zero, Option.some.injEq] at h
    subst h
    rw [(check_ob1_result cfg w).1]
    exact hrd _ _ _
  · simp only [List.get?_cons_succ, List.get?_cons_zero, Option.some.injEq] at h
    subst h
    rw [configure_eq_run]
    apply run_until_error_scheduled
    intro op hop w
    simp only [configure_ops, List.mem_cons, List.mem_singleton, List.not_mem_nil,
      or_false] at hop
    rcases hop with rfl | rfl | rfl | rfl | rfl | rfl | rfl | rfl | rfl | rfl | rfl | rfl
    · exact hrd _ _ _
    · exact hrd _ _ _
    · exact hrd _ _ _
    · exact hrd _ _ _
    · exact set_cpi_filter is_schedule transport_not_schedule _ _
    · exact hrw _ _ _
    · exact set_sample_time_filter is_schedule transport_not_schedule _ _ _
    · exact set_sample_time_filter is_schedule transport_not_schedule _ _ _
    · exact set_sample_time_filter is_schedule transport_not_schedule _ _ _
    · exact set_downshift_time_filter is_schedule transport_not_schedule _ _ _ _
    · exact set_downshift_time_filter is_schedule transport_not_schedule _ _ _ _
    · exact set_downshift_time_filter is_schedule transport_not_schedule _ _ _ _
  · simp at h

/-- What one invocation of `pmw3610_async_init` does to the step counter and to
the schedulings of the init work: a failing step keeps both; a succeeding step
that reaches the terminal value advances the counter and schedules nothing; any
other succeeding step advances the counter and schedules the work once, with
the delay of the new step. -/
theorem async_init_scheduled (cfg : Kconfig) (dev dev' : Dev)
    (h : pmw3610_async_init cfg dev = some dev') :
    (dev'.data.async_init_step = dev.data.async_init_step ∧
      scheduled dev'.w.trace = scheduled dev.w.trace) ∨
    (dev'.data.async_init_step = dev.data.async_init_step + 1 ∧
      dev.data.async_init_step + 1 = ASYNC_INIT_STEP_COUNT ∧
      scheduled dev'.w.trace = scheduled dev.w.trace) ∨
    (dev'.data.async_init_step = dev.data.async_init_step + 1 ∧
      dev.data.async_init_step + 1 ≠ ASYNC_INIT_STEP_COUNT ∧
      scheduled dev'.w.trace = scheduled dev.w.trace ++
        [Event.k_work_schedule_init (async_init_delay.getD (dev.data.async_init_step + 1) 0)]) := by
  unfold pmw3610_async_init at h
  cases hf : async_init_fn dev.data.async_init_step with
  | none => simp [hf] at h
  | some fn =>
    have hs := step_fn_scheduled cfg _ fn hf dev.w
    simp only [hf] at h
    split_ifs at h with h1 h2
    · left
      simp only [Option.some.injEq] at h
      subst h
      exact ⟨rfl, hs⟩
    · right; left
      simp only [Option.some.injEq] at h
      subst h
      exact ⟨rfl, h2, hs⟩
    · right; right
      simp only [Option.some.injEq] at h
      subst h
      refine ⟨rfl, h2, ?_⟩
      simp only [k_work_schedule_init, World.emit, scheduled, List.filter_append] at hs ⊢
      rw [hs]
      rfl

theorem ready_query_scheduled (ev : Bool → Event) (hev : ∀ b, is_schedule (ev b) = false)
    (w : World) : scheduled (ready_query ev w).2.trace = scheduled w.trace := by
  simp [ready_query, scheduled, hev]

theorem setup_call_scheduled (ev : Int → Event) (hev : ∀ e, is_schedule (ev e) = false)
    (w : World) : scheduled (setup_call ev w).2.trace = scheduled w.trace := by
  simp [setup_call, scheduled, hev]

theorem gpio_pin_configure_dt_cs_scheduled (w : World) :
    scheduled (gpio_pin_configure_dt_cs w).2.trace = scheduled w.trace := by
  simp [gpio_pin_configure_dt_cs, scheduled, is_schedule]

theorem init_irq_scheduled (w : World) :
    scheduled (pmw3610_init_irq w).2.trace = scheduled w.trace := by
  have q := ready_query_scheduled Event.device_is_ready_irq (fun _ => rfl)
  have s1 := setup_call_scheduled Event.gpio_pin_configure_irq (fun _ => rfl)
  have s2 := setup_call_scheduled Event.gpio_add_callback (fun _ => rfl)
  unfold pmw3610_init_irq
  simp only []
  split_ifs <;> simp only [q, s1, s2]

/-- The function `pmw3610_init` keeps the step counter and schedules the init
work at most once. -/
theorem init_scheduled (dev : Dev) :
    (pmw3610_init dev).2.data.async_init_step = dev.data.async_init_step ∧
    (scheduled (pmw3610_init dev).2.w.trace = scheduled dev.w.trace ∨
      scheduled (pmw3610_init dev).2.w.trace = scheduled dev.w.trace ++
        [Event.k_work_schedule_init (async_init_delay.getD dev.data.async_init_step 0)]) := by
  have q1 := ready_query_scheduled Event.spi_is_ready (fun _ => rfl)
  have q2 := ready_query_scheduled Event.device_is_ready_cs (fun _ => rfl)
  have e : ∀ (d : Int) (w : World), scheduled (k_work_schedule_init d w).trace =
      scheduled w.trace ++ [Event.k_work_schedule_init d] := by
    intro d w
    simp [k_work_schedule_init, World.emit, scheduled, is_schedule]
  unfold pmw3610_init
  simp only []
  split_ifs
  · exact ⟨rfl, Or.inl (q1 _)⟩
  · refine ⟨rfl, Or.inl ?_⟩
    simp only [q1, q2]
  · refine ⟨rfl, Or.inl ?_⟩
    simp only [gpio_pin_configure_dt_cs_scheduled, q1, q2]
  · refine ⟨rfl, Or.inl ?_⟩
    simp only [init_irq_scheduled, gpio_pin_configure_dt_cs_scheduled, q1, q2]
  · refine ⟨rfl, Or.inr ?_⟩
    simp only [e, init_irq_scheduled, gpio_pin_configure_dt_cs_scheduled, q1, q2]

/-- The invariant of a scheduled run: after `n` executions of the init work the
work has been scheduled `n` or `n + 1` times, and while a scheduling is left
the step counter is `n`, below the terminal value. -/
theorem scheduled_run_inv (cfg : Kconfig) (env : Nat → Resp) (n : Nat) (dev : Dev)
    (h : scheduled_run cfg env n = some dev) :
    n ≤ (scheduled dev.w.trace).length ∧ (scheduled dev.w.trace).length ≤ n + 1 ∧
    (n < (scheduled dev.w.trace).length →
      dev.data.async_init_step = n ∧ n < ASYNC_INIT_STEP_COUNT) ∧
    dev.data.async_init_step ≤ ASYNC_INIT_STEP_COUNT := by
  induction n generalizing dev with
  | zero =>
    simp only [scheduled_run, Option.some.injEq] at h
    subst h
    obtain ⟨hs, hl⟩ := init_scheduled { data := zero_data, w := fresh_world env }
    have h0 : (pmw3610_init { data := zero_data, w := fresh_world env }).2.data.async_init_step
        = 0 := hs
    rw [h0]
    rcases hl with hl | hl <;> rw [hl] <;>
      simp [scheduled, fresh_world, ASYNC_INIT_STEP_COUNT]
  | succ n ih =>
    simp only [scheduled_run] at h
    cases hprev : scheduled_run cfg env n with
    | none => simp [hprev] at h
    | some d =>
      simp only [hprev] at h
      split_ifs at h with hp
      obtain ⟨i1, i2, i3, _⟩ := ih d hprev
      obtain ⟨j1, j2⟩ := i3 hp
      unfold ASYNC_INIT_STEP_COUNT at j2 ⊢
      rcases async_init_scheduled cfg d dev h with ⟨a1, a2⟩ | ⟨a1, a2, a3⟩ | ⟨a1, a2, a3⟩
      · rw [a1, a2]
        refine ⟨by omega, by omega, fun hc => by omega, by omega⟩
      · rw [a1, a3]
        unfold ASYNC_INIT_STEP_COUNT at a2
        refine ⟨by omega, by omega, fun hc => by omega, by omega⟩
      · rw [a1, a3]
        unfold ASYNC_INIT_STEP_COUNT at a2
        simp only [List.length_append, List.length_singleton]
        refine ⟨by omega, by omega, fun hc => by omega, by omega⟩

/-- A scheduled run that has ended does not resume. -/
theorem scheduled_run_ended (cfg : Kconfig) (env : Nat → Resp) (n : Nat)
    (h : scheduled_run cfg env n = none) (m : Nat) (hm : n ≤ m) :
    scheduled_run cfg env m = none := by
  induction m with
  | zero =>
    have : n = 0 := by omega
    subst this
    exact h
  | succ m ih =>
    rcases Nat.eq_or_lt_of_le hm with e | hlt
    · rw [← e]
      exact h
    · simp only [scheduled_run, ih (by omega)]

/-- C24: in a run that starts with `pmw3610_init` on zero-initialised driver
data and then executes only init work that the driver has scheduled and that
has not run yet, the delay lookup of `pmw3610_init` is within the table, and
after any number `n` of executions of the init work: the work has been scheduled
`n` or `n + 1` times; when a scheduling is left, so that `pmw3610_async_init` is
entered once more, the step counter is below `ASYNC_INIT_STEP_COUNT`, the lookup
in `async_init_fn` has an entry, the invocation is defined, and when it
schedules the work again the delay it looks up is at an index within
`async_init_delay`; once the step counter equals `ASYNC_INIT_STEP_COUNT` every
scheduling has been executed, and the run has ended: no further init work is
scheduled or executed. -/
theorem C24_init_work_in_table (cfg : Kconfig) (env : Nat → Resp) (n : Nat) (dev : Dev)
    (h : scheduled_run cfg env n = some dev) :
    zero_data.async_init_step < async_init_delay.length ∧
    ((scheduled dev.w.trace).length = n ∨ (scheduled dev.w.trace).length = n + 1) ∧
    dev.data.async_init_step ≤ ASYNC_INIT_STEP_COUNT ∧
    (n < (scheduled dev.w.trace).length →
      dev.data.async_init_step < ASYNC_INIT_STEP_COUNT ∧
      (async_init_fn dev.data.async_init_step).isSome = true ∧
      scheduled_run cfg env (n + 1) = pmw3610_async_init cfg dev ∧
      (scheduled_run cfg env (n + 1)).isSome = true ∧
      (∀ dev', scheduled_run cfg env (n + 1) = some dev' →
        scheduled dev'.w.trace = scheduled dev.w.trace ∨
        (dev'.data.async_init_step < async_init_delay.length ∧
          scheduled dev'.w.trace = scheduled dev.w.trace ++
            [Event.k_work_schedule_init
              (async_init_delay.getD dev'.data.async_init_step 0)]))) ∧
    (dev.data.async_init_step = ASYNC_INIT_STEP_COUNT →
      (scheduled dev.w.trace).length = n ∧
      ∀ m, n < m → scheduled_run cfg env m = none) := by
  obtain ⟨i1, i2, i3, i4⟩ := scheduled_run_inv cfg env n dev h
  refine ⟨by decide, by omega, i4, ?_, ?_⟩
  · intro hp
    obtain ⟨j1, j2⟩ := i3 hp
    have hlt : dev.data.async_init_step < ASYNC_INIT_STEP_COUNT := by rw [j1]; exact j2
    have hrun : scheduled_run cfg env (n + 1) = pmw3610_async_init cfg dev := by
      simp only [scheduled_run, h, hp, if_true]
    refine ⟨hlt, (async_init_fn_isSome _).2 hlt, hrun, ?_, ?_⟩
    · rw [hrun]
      exact (async_init_isSome cfg dev).2 hlt
    · intro dev' hd
      rw [hrun] at hd
      rcases async_init_scheduled cfg dev dev' hd with ⟨_, a2⟩ | ⟨_, _, a3⟩ | ⟨a1, a2, a3⟩
      · exact Or.inl a2
      · exact Or.inl a3
      · right
        rw [a1]
        refine ⟨?_, a3⟩
        unfold ASYNC_INIT_STEP_COUNT at hlt a2
        simp only [async_init_delay, List.length_cons, List.length_nil]
        omega
  · intro hc
    have hnp : ¬ n < (scheduled dev.w.trace).length := by
      intro hp
      obtain ⟨j1, j2⟩ := i3 hp
      omega
    refine ⟨by omega, fun m hm => ?_⟩
    have hnext : scheduled_run cfg env (n + 1) = none := by
      simp only [scheduled_run, h, hnp, if_false]
    exact scheduled_run_ended cfg env (n + 1) hnext m hm

set_option maxRecDepth 1000000 in
/-- Witness for C24: on working hardware whose observation register reads back
`0x0F`, after three executions of the init work a scheduling is left and the
step counter is below `ASYNC_INIT_STEP_COUNT`; after the fourth the counter is
`ASYNC_INIT_STEP_COUNT` and there is no fifth execution. -/
theorem C24_init_work_in_table_witness :
    ((scheduled_run sample_cfg (good_env [0x0F]) 3).get (by decide)).data.async_init_step <
      ASYNC_INIT_STEP_COUNT ∧
    scheduled_run sample_cfg (good_env [0x0F]) 5 = none :=
  ⟨((C24_init_work_in_table sample_cfg (good_env [0x0F]) 3
      ((scheduled_run sample_cfg (good_env [0x0F]) 3).get (by decide))
      (Option.some_get _).symm).2.2.2.1 (by decide)).1,
   ((C24_init_work_in_table sample_cfg (good_env [0x0F]) 4
      ((scheduled_run sample_cfg (good_env [0x0F]) 4).get (by decide))
      (Option.some_get _).symm).2.2.2.2 (by decide)).2 5 (by decide)⟩

/-! ## The result of the smart-algorithm write is dropped (C25) -/

/-- C25: on a ready device with channel `SENSOR_CHAN_ALL` the return value of
`pmw3610_sample_fetch` is the result of the motion burst read alone. When the
burst read returns zero, the fetch stores the decoded position and, with the
smart algorithm enabled, flips the smart flag where the hysteresis asks for it,
whatever `reg_write` on register `0x32` returns: a failing write changes neither
the return value, nor the stored position, nor the new flag. -/
theorem C25_fetch_ignores_smart_write (cfg : Kconfig) (dev : Dev)
    (hr : dev.data.ready = true) :
    (pmw3610_sample_fetch cfg dev sensor_channel.SENSOR_CHAN_ALL).1 =
      (motion_burst_read (fun _ => 0) PMW3610_BURST_SIZE dev.w).1 ∧
    ((motion_burst_read (fun _ => 0) PMW3610_BURST_SIZE dev.w).1 = 0 →
      ((pmw3610_sample_fetch cfg dev sensor_channel.SENSOR_CHAN_ALL).2.data.x,
        (pmw3610_sample_fetch cfg dev sensor_channel.SENSOR_CHAN_ALL).2.data.y) =
        orientation cfg dev.data.x dev.data.y
          (fetch_x cfg (motion_burst_read (fun _ => 0) PMW3610_BURST_SIZE dev.w).2.1)
          (fetch_y cfg (motion_burst_read (fun _ => 0) PMW3610_BURST_SIZE dev.w).2.1) ∧
      (cfg.CONFIG_PMW3610_SMART_ALGORITHM = true → dev.data.sw_smart_flag = false →
        45 < fetch_shutter (motion_burst_read (fun _ => 0) PMW3610_BURST_SIZE dev.w).2.1 →
        (reg_write 0x32 0x80 (motion_burst_read (fun _ => 0) PMW3610_BURST_SIZE dev.w).2.2).1 ≠ 0 →
        (pmw3610_sample_fetch cfg dev sensor_channel.SENSOR_CHAN_ALL).1 = 0 ∧
        (pmw3610_sample_fetch cfg dev sensor_channel.SENSOR_CHAN_ALL).2.data.sw_smart_flag = true ∧
        (pmw3610_sample_fetch cfg dev sensor_channel.SENSOR_CHAN_ALL).2.w =
          (reg_write 0x32 0x80
            (motion_burst_read (fun _ => 0) PMW3610_BURST_SIZE dev.w).2.2).2) ∧
      (cfg.CONFIG_PMW3610_SMART_ALGORITHM = true → dev.data.sw_smart_flag = true →
        fetch_shutter (motion_burst_read (fun _ => 0) PMW3610_BURST_SIZE dev.w).2.1 < 45 →
        (reg_write 0x32 0x00 (motion_burst_read (fun _ => 0) PMW3610_BURST_SIZE dev.w).2.2).1 ≠ 0 →
        (pmw3610_sample_fetch cfg dev sensor_channel.SENSOR_CHAN_ALL).1 = 0 ∧
        (pmw3610_sample_fetch cfg dev sensor_channel.SENSOR_CHAN_ALL).2.data.sw_smart_flag = false ∧
        (pmw3610_sample_fetch cfg dev sensor_channel.SENSOR_CHAN_ALL).2.w =
          (reg_write 0x32 0x00
            (motion_burst_read (fun _ => 0) PMW3610_BURST_SIZE dev.w).2.2).2)) := by
  have hfst : (pmw3610_sample_fetch cfg dev sensor_channel.SENSOR_CHAN_ALL).1 =
      (motion_burst_read (fun _ => 0) PMW3610_BURST_SIZE dev.w).1 := by
    by_cases hm : (motion_burst_read (fun _ => 0) PMW3610_BURST_SIZE dev.w).1 = 0
    · rw [sample_fetch_eq cfg dev hr hm, hm]
    · rw [sample_fetch_fail_eq cfg dev hr hm]
  refine ⟨hfst, fun hm => ?_⟩
  have h0 : (pmw3610_sample_fetch cfg dev sensor_channel.SENSOR_CHAN_ALL).1 = 0 := by
    rw [hfst, hm]
  obtain ⟨_, _, _, hpos⟩ := sample_fetch_success cfg dev _ h0
  refine ⟨hpos, ?_, ?_⟩
  · intro hs hf hsh _
    obtain ⟨t1, t2⟩ := (fetch_smart_toggle cfg dev hs h0).2 hf hsh
    exact ⟨h0, t1, t2⟩
  · intro hs hf hsh _
    obtain ⟨t1, t2⟩ := (fetch_smart_toggle cfg dev hs h0).1 hf hsh
    exact ⟨h0, t1, t2⟩

set_option maxRecDepth 1000000 in
/-- Witness for C25: the burst carries the shutter value 50 with the flag clear,
and the clock-enable frame of the write to `0x32` fails with `-5`; the fetch
returns zero and sets the flag. -/
theorem C25_fetch_ignores_smart_write_witness :
    (reg_write 0x32 0x80 (motion_burst_read (fun _ => 0) PMW3610_BURST_SIZE
      (ready_dev smart_write_fail_env).w).2.2).1 = -5 ∧
    (pmw3610_sample_fetch sample_cfg (ready_dev smart_write_fail_env)
      sensor_channel.SENSOR_CHAN_ALL).1 = 0 ∧
    (pmw3610_sample_fetch sample_cfg (ready_dev smart_write_fail_env)
      sensor_channel.SENSOR_CHAN_ALL).2.data.sw_smart_flag = true :=
  have h := ((C25_fetch_ignores_smart_write sample_cfg (ready_dev smart_write_fail_env)
    rfl).2 (by decide)).2.1 rfl rfl (by decide) (by decide)
  ⟨by decide, h.1, h.2.1⟩

/-! ## Reachable states of the init state machine, exercised (C6) -/

/-- An option that is defined is `some` of its value. -/
theorem option_eq_some_getD {α : Type} (o : Option α) (d : α) (h : o.isSome = true) :
    o = some (o.getD d) := by
  cases o with
  | none => simp at h
  | some a => rfl

/-- Every state of a scheduled run is a reachable state of the init state
machine. -/
theorem scheduled_run_reachable (cfg : Kconfig) (env : Nat → Resp) (n : Nat) (dev : Dev)
    (h : scheduled_run cfg env n = some dev) : InitReachable cfg dev := by
  induction n generalizing dev with
  | zero =>
    simp only [scheduled_run, Option.some.injEq] at h
    subst h
    refine InitReachable.start _ (init_scheduled _).1 ?_
    unfold pmw3610_init
    simp only []
    split_ifs <;> rfl
  | succ n ih =>
    simp only [scheduled_run] at h
    cases hprev : scheduled_run cfg env n with
    | none => simp [hprev] at h
    | some d =>
      simp only [hprev] at h
      split_ifs at h
      exact InitReachable.invoke d d.w dev (ih d hprev) h

set_option maxRecDepth 1000000 in
/-- Witness for C6. On working hardware whose observation register reads back
`0x0F` the state after three invocations has step 3 and is not ready, and the
fourth invocation from it advances the step by one to the terminal value and
sets `ready`. On hardware whose observation register reads back `0x00` the
third invocation, the self test, fails from the state after two invocations:
the step stays and `ready` stays false. -/
theorem C6_init_state_machine_witness :
    ((init_state sample_cfg (good_env [0x0F]) 3).data.ready = false ∧
      ((pmw3610_async_init sample_cfg (init_state sample_cfg (good_env [0x0F]) 3)).getD
        (init_state sample_cfg (good_env [0x0F]) 3)).data.async_init_step =
        ASYNC_INIT_STEP_COUNT ∧
      ((pmw3610_async_init sample_cfg (init_state sample_cfg (good_env [0x0F]) 3)).getD
        (init_state sample_cfg (good_env [0x0F]) 3)).data.ready = true) ∧
    (((pmw3610_async_init sample_cfg (init_state sample_cfg (good_env []) 2)).getD
        (init_state sample_cfg (good_env []) 2)).data.async_init_step =
        (init_state sample_cfg (good_env []) 2).data.async_init_step ∧
      ((pmw3610_async_init sample_cfg (init_state sample_cfg (good_env []) 2)).getD
        (init_state sample_cfg (good_env []) 2)).data.ready = false) :=
  have a := C6_init_state_machine sample_cfg (init_state sample_cfg (good_env [0x0F]) 3)
    (scheduled_run_reachable sample_cfg (good_env [0x0F]) 3 _
      (option_eq_some_getD _ _ (by decide)))
  have a4 := a.2.2.2 (init_state sample_cfg (good_env [0x0F]) 3).w
    ((pmw3610_async_init sample_cfg (init_state sample_cfg (good_env [0x0F]) 3)).getD
      (init_state sample_cfg (good_env [0x0F]) 3))
    (option_eq_some_getD _ _ ((a.2.2.1 _).2 (by decide)))
  have b := C6_init_state_machine sample_cfg (init_state sample_cfg (good_env []) 2)
    (scheduled_run_reachable sample_cfg (good_env []) 2 _
      (option_eq_some_getD _ _ (by decide)))
  have b3 := b.2.2.2 (init_state sample_cfg (good_env []) 2).w
    ((pmw3610_async_init sample_cfg (init_state sample_cfg (good_env []) 2)).getD
      (init_state sample_cfg (good_env []) 2))
    (option_eq_some_getD _ _ ((b.2.2.1 _).2 (by decide)))
  ⟨⟨Bool.eq_false_iff.2 (fun h => absurd (a.1.1 h) (by decide)),
      a4.1.resolve_left (by decide) ▸ (by decide),
      a4.2.2.2.2 (a4.1.resolve_left (by decide) ▸ (by decide))⟩,
    b3.1.resolve_right (by decide),
    Bool.eq_false_iff.2 (fun h => absurd (b3.2.2.2.1 h) (by decide))⟩

end PMW3610
